import Mathlib

/-!
# Revolution attitude module (`flight/modules/Attitude/revolution/attitude.c`)

A shallow embedding of the attitude / navigation estimation module:
the settings callback `settingsUpdatedCb`, the task loop body of
`AttitudeTask`, the two estimator update functions
`updateAttitudeComplementary` and `updateAttitudeINSGPS`, and `getNED`.

Conventions of the embedding.

* A C `float` is a value of `Flt`: a rational, one of the two infinities, or
  NaN.  Comparisons follow IEEE-754 (every ordered comparison with NaN is
  false).  Arithmetic on finite values is exact: rounding to binary32,
  overflow and the sign of zero are not represented, and a decimal literal
  of the source denotes its decimal value.
* File-scope and function-local `static` variables are fields of `AttState`,
  together with the UAVObjects the module publishes and the alarm.
* Everything a cycle reads from its environment is a field of `CycleIn`: the
  results of the two blocking receives, and (in its part `Readings`) the
  optional queue results, sensor objects and timers.  The settings objects a
  callback reads are the fields of `Objects`.
* Enumeration constants, array indices and sensor masks come from generated
  or library headers that are not part of the sources at hand; they are the
  fields of `Consts`.  Library functions (libm, CoordinateConversions, the
  INS library) are the fields of `Ext`.
* Calls into the INS library are recorded, in order, in `AttState.trace`.
* Integer fields of objects (coordinates in 1e-7 degrees, satellite counts) are
  mathematical integers; the two coordinate differences of `getNED` are 32-bit
  subtractions and are reduced into the 32-bit range (`wrapInt32`).
-/

namespace Attitude

/-! ## Floating point values -/

/-- A C `float`: finite (a rational), plus or minus infinity, or NaN. -/
inductive Flt where
  | fin (q : ℚ)
  | pinf
  | ninf
  | nan
  deriving DecidableEq, Repr

namespace Flt

/-- The C macro `isnan`. -/
def isnan : Flt → Bool
  | nan => true
  | _ => false

/-- The C macro `isinf`. -/
def isinf : Flt → Bool
  | pinf => true
  | ninf => true
  | _ => false

/-- The C comparison `a < b` on floats. -/
def lt : Flt → Flt → Bool
  | nan, _ => false
  | _, nan => false
  | fin a, fin b => decide (a < b)
  | fin _, pinf => true
  | fin _, ninf => false
  | pinf, _ => false
  | ninf, ninf => false
  | ninf, _ => true

/-- The C comparison `a <= b` on floats. -/
def le : Flt → Flt → Bool
  | nan, _ => false
  | _, nan => false
  | fin a, fin b => decide (a ≤ b)
  | fin _, pinf => true
  | fin _, ninf => false
  | pinf, pinf => true
  | pinf, _ => false
  | ninf, _ => true

/-- The C comparison `a > b` on floats. -/
def gt (a b : Flt) : Bool := lt b a

/-- Unary minus. -/
def neg : Flt → Flt
  | fin a => fin (-a)
  | pinf => ninf
  | ninf => pinf
  | nan => nan

/-- Float addition. -/
def add : Flt → Flt → Flt
  | nan, _ => nan
  | _, nan => nan
  | fin a, fin b => fin (a + b)
  | fin _, pinf => pinf
  | fin _, ninf => ninf
  | pinf, ninf => nan
  | pinf, _ => pinf
  | ninf, pinf => nan
  | ninf, _ => ninf

/-- Float subtraction. -/
def sub (a b : Flt) : Flt := add a (neg b)

/-- The product of an infinity (positive when `pos`) with the finite rational `b`. -/
def infMul (pos : Bool) (b : ℚ) : Flt :=
  if b = 0 then nan else if (0 < b) = pos then pinf else ninf

/-- Float multiplication. -/
def mul : Flt → Flt → Flt
  | nan, _ => nan
  | _, nan => nan
  | fin a, fin b => fin (a * b)
  | fin a, pinf => infMul true a
  | fin a, ninf => infMul false a
  | pinf, fin b => infMul true b
  | ninf, fin b => infMul false b
  | pinf, pinf => pinf
  | pinf, ninf => ninf
  | ninf, pinf => ninf
  | ninf, ninf => pinf

/-- Float division; a zero divisor is read as positive zero. -/
def div : Flt → Flt → Flt
  | nan, _ => nan
  | _, nan => nan
  | fin a, fin b =>
    if b = 0 then (if a = 0 then nan else if 0 < a then pinf else ninf) else fin (a / b)
  | fin _, pinf => fin 0
  | fin _, ninf => fin 0
  | pinf, fin b => if 0 ≤ b then pinf else ninf
  | ninf, fin b => if 0 ≤ b then ninf else pinf
  | pinf, _ => nan
  | ninf, _ => nan

/-- The C function `fabsf`. -/
def fabsf : Flt → Flt
  | fin a => fin |a|
  | pinf => pinf
  | ninf => pinf
  | nan => nan

/-- Conversion of an integer to `float`. -/
def ofInt (n : Int) : Flt := fin n

instance : Add Flt := ⟨add⟩
instance : Sub Flt := ⟨sub⟩
instance : Mul Flt := ⟨mul⟩
instance : Div Flt := ⟨div⟩
instance : Neg Flt := ⟨neg⟩
instance : Inhabited Flt := ⟨fin 0⟩

end Flt

/-- The literal `0.0f`. -/
def f0 : Flt := Flt.fin 0

/-- The literal `1.0f`. -/
def f1 : Flt := Flt.fin 1

/-- Three floats: a vector, or a UAVObject with three float fields. -/
structure Vec3 where
  x : Flt
  y : Flt
  z : Flt
  deriving DecidableEq, Repr

/-- The array `{0.0f, 0.0f, 0.0f}`. -/
def zeros : Vec3 := ⟨f0, f0, f0⟩

/-- A quaternion `float q[4]`. -/
structure Quat where
  q0 : Flt
  q1 : Flt
  q2 : Flt
  q3 : Flt
  deriving DecidableEq, Repr

/-- A matrix `float R[3][3]`, by rows. -/
structure Mat3 where
  r0 : Vec3
  r1 : Vec3
  r2 : Vec3
  deriving DecidableEq, Repr

/-- Element `a[i]` of a float array (0 past the end; the C code reads in range). -/
def idx (a : List Flt) (i : Nat) : Flt := a.getD i f0

/-! ## UAVObject data -/

/-- Alarm severity of `SYSTEMALARMS_ALARM_ATTITUDE`; `Clear` is the state after `AlarmsClear`. -/
inductive AlarmSeverity where
  | Clear
  | Warning
  | Error
  | Critical
  deriving DecidableEq, Repr

/-- Severity rank, `Clear < Warning < Error < Critical`. -/
def AlarmSeverity.rank : AlarmSeverity → Nat
  | Clear => 0
  | Warning => 1
  | Error => 2
  | Critical => 3

structure FlightStatusData where
  Armed : Nat
  deriving DecidableEq, Repr

structure RevoCalibrationData where
  BiasCorrectedRaw : Nat
  deriving DecidableEq, Repr

/-- The arrays `P`, `Q`, `R`, `FakeR`; each list holds all elements of the C array. -/
structure EKFConfigurationData where
  P : List Flt
  Q : List Flt
  R : List Flt
  FakeR : List Flt
  deriving DecidableEq, Repr

structure RevoSettingsData where
  FusionAlgorithm : Nat
  deriving DecidableEq, Repr

structure HomeLocationData where
  Latitude : Int
  Longitude : Int
  Altitude : Flt
  Be : Vec3
  Set : Nat
  deriving DecidableEq, Repr

structure AttitudeSettingsData where
  AccelKp : Flt
  AccelKi : Flt
  YawBiasRate : Flt
  ZeroDuringArming : Nat
  deriving DecidableEq, Repr

structure AttitudeActualData where
  q1 : Flt
  q2 : Flt
  q3 : Flt
  q4 : Flt
  Roll : Flt
  Pitch : Flt
  Yaw : Flt
  deriving DecidableEq, Repr

structure GPSPositionData where
  Latitude : Int
  Longitude : Int
  Altitude : Flt
  GeoidSeparation : Flt
  Heading : Flt
  Groundspeed : Flt
  PDOP : Flt
  Satellites : Int
  deriving DecidableEq, Repr

structure AirspeedSensorData where
  CalibratedAirspeed : Flt
  SensorConnected : Nat
  deriving DecidableEq, Repr

structure AirspeedActualData where
  CalibratedAirspeed : Flt
  TrueAirspeed : Flt
  deriving DecidableEq, Repr

/-- A north / east / down triple (`PositionActual`, `VelocityActual`, `GPSVelocity`). -/
structure NEDData where
  North : Flt
  East : Flt
  Down : Flt
  deriving DecidableEq, Repr

/-- The object a `UAVObjEvent` refers to (`ev->obj`), identified by its handle. -/
inductive UAVObjHandle where
  | FlightStatus
  | RevoCalibration
  | EKFConfiguration
  | RevoSettings
  | HomeLocation
  | AttitudeSettings
  | Other (id : Nat)
  deriving DecidableEq, Repr

structure UAVObjEvent where
  obj : UAVObjHandle
  deriving DecidableEq, Repr

/-- The settings objects as stored in the UAVObject manager when a callback runs. -/
structure Objects where
  flightStatus : FlightStatusData
  revoCalibration : RevoCalibrationData
  ekfConfiguration : EKFConfigurationData
  revoSettings : RevoSettingsData
  homeLocation : HomeLocationData
  attitudeSettings : AttitudeSettingsData
  deriving DecidableEq, Repr

/-! ## Constants and library functions that live outside the module -/

/-- Constants of generated and library headers (`flightstatus.h`, `revosettings.h`,
`ekfconfiguration.h`, `insgps.h`, ...) and the build option `PIOS_INCLUDE_HMC5883`. -/
structure Consts where
  FLIGHTSTATUS_ARMED_ARMING : Nat
  FLIGHTSTATUS_ARMED_ARMED : Nat
  REVOSETTINGS_FUSIONALGORITHM_COMPLEMENTARY : Nat
  REVOSETTINGS_FUSIONALGORITHM_INSOUTDOOR : Nat
  REVOSETTINGS_FUSIONALGORITHM_INSINDOOR : Nat
  HOMELOCATION_SET_TRUE : Nat
  AIRSPEEDSENSOR_SENSORCONNECTED_TRUE : Nat
  REVOCALIBRATION_BIASCORRECTEDRAW_TRUE : Nat
  ATTITUDESETTINGS_ZERODURINGARMING_TRUE : Nat
  EKFCONFIGURATION_R_GPSPOSNORTH : Nat
  EKFCONFIGURATION_R_GPSPOSEAST : Nat
  EKFCONFIGURATION_R_GPSPOSDOWN : Nat
  EKFCONFIGURATION_R_GPSVELNORTH : Nat
  EKFCONFIGURATION_R_GPSVELEAST : Nat
  EKFCONFIGURATION_R_GPSVELDOWN : Nat
  EKFCONFIGURATION_R_MAGX : Nat
  EKFCONFIGURATION_R_MAGY : Nat
  EKFCONFIGURATION_R_MAGZ : Nat
  EKFCONFIGURATION_R_BAROZ : Nat
  EKFCONFIGURATION_Q_ACCELX : Nat
  EKFCONFIGURATION_Q_ACCELY : Nat
  EKFCONFIGURATION_Q_ACCELZ : Nat
  EKFCONFIGURATION_Q_GYROX : Nat
  EKFCONFIGURATION_Q_GYROY : Nat
  EKFCONFIGURATION_Q_GYROZ : Nat
  EKFCONFIGURATION_Q_GYRODRIFTX : Nat
  EKFCONFIGURATION_Q_GYRODRIFTY : Nat
  EKFCONFIGURATION_Q_GYRODRIFTZ : Nat
  EKFCONFIGURATION_FAKER_FAKEGPSPOSINDOOR : Nat
  EKFCONFIGURATION_FAKER_FAKEGPSVELINDOOR : Nat
  EKFCONFIGURATION_FAKER_FAKEGPSVELAIRSPEED : Nat
  POS_SENSORS : Nat
  HORIZ_POS_SENSORS : Nat
  HORIZ_SENSORS : Nat
  VERT_SENSORS : Nat
  MAG_SENSORS : Nat
  BARO_SENSOR : Nat
  PIOS_INCLUDE_HMC5883 : Bool
  deriving DecidableEq, Repr

/-- The `Nav` structure of the INS library, as far as the module reads it; `hidden`
stands for the rest of the filter state (covariance, variances). -/
structure NavStruct where
  Pos : Vec3
  Vel : Vec3
  q : Quat
  gyro_bias : Vec3
  hidden : List Flt
  deriving DecidableEq, Repr

/-- A call into the INS library (`insgps.h`) with its arguments. -/
inductive INSCall where
  | INSGPSInit
  | INSSetMagVar (v : Vec3)
  | INSSetAccelVar (v : Vec3)
  | INSSetGyroVar (v : Vec3)
  | INSSetGyroBiasVar (v : Vec3)
  | INSSetBaroVar (v : Flt)
  | INSSetGyroBias (b : Vec3)
  | INSSetState (pos vel : Vec3) (q : Quat) (gyro_bias accel_bias : Vec3)
  | INSResetP (P : List Flt)
  | INSStatePrediction (gyros accels : Vec3) (dT : Flt)
  | INSCovariancePrediction (dT : Flt)
  | INSSetMagNorth (Be : Vec3)
  | INSSetPosVelVar (posVar velVar : Vec3)
  | INSCorrection (mag pos vel : Vec3) (baro : Flt) (sensors : Nat)
  deriving DecidableEq, Repr

/-- Functions defined outside the module: libm, the macros `DEG2RAD` / `RAD2DEG`,
`CoordinateConversions`, and the INS library (as the effect of a call on `Nav`). -/
structure Ext where
  atan2f : Flt → Flt → Flt
  cosf : Flt → Flt
  sinf : Flt → Flt
  sqrtf : Flt → Flt
  DEG2RAD : Flt → Flt
  RAD2DEG : Flt → Flt
  RPY2Quaternion : Vec3 → Quat
  Quaternion2RPY : Quat → Vec3
  Quaternion2R : Quat → Mat3
  rot_mult : Mat3 → Vec3 → Vec3
  CrossProduct : Vec3 → Vec3 → Vec3
  ins : INSCall → NavStruct → NavStruct
  INSGetP : NavStruct → List Flt

/-! ## Module state -/

/-- All variables of the module with static storage, the objects it publishes,
the attitude alarm, and the state and call trace of the INS library. -/
structure AttState where
  attitudeSettings : AttitudeSettingsData
  homeLocation : HomeLocationData
  revoCalibration : RevoCalibrationData
  ekfConfiguration : EKFConfigurationData
  revoSettings : RevoSettingsData
  flightStatus : FlightStatusData
  variance_error : Bool
  initialization_required : Bool
  running_algorithm : Nat
  accel_mag : Flt
  qmag : Flt
  mag_err : Vec3
  magKi : Flt
  magKp : Flt
  T : Vec3
  init_stage : Int
  timeval : Nat
  init : Nat
  mag_updated : Bool
  baro_updated : Bool
  airspeed_updated : Bool
  gps_updated : Bool
  gps_vel_updated : Bool
  value_error : Bool
  baroOffset : Flt
  ins_last_time : Nat
  inited : Bool
  attitudeActual : AttitudeActualData
  positionActual : NEDData
  velocityActual : NEDData
  gyrosBias : Vec3
  airspeedActual : AirspeedActualData
  ekfStateVariance : List Flt
  alarm : AlarmSeverity
  nav : NavStruct
  trace : List INSCall
  deriving DecidableEq, Repr

/-! ## Validity checks (attitude.c 126-143) -/

/-- `invalid`: NaN or infinite. -/
def invalid (data : Flt) : Bool :=
  if data.isnan || data.isinf then true else false

/-- `invalid_var`: invalid, or below `1e-15f`. -/
def invalid_var (data : Flt) : Bool :=
  if invalid data then true
  else if Flt.lt data (Flt.fin (1 / 10 ^ 15)) then true
  else false

/-! ## Settings callback (attitude.c 1058-1129) and `getNED` (1044-1056) -/

/-- The test `ev == NULL || ev->obj == XHandle()`. -/
def evIs (ev : Option UAVObjEvent) (h : UAVObjHandle) : Bool :=
  match ev with
  | none => true
  | some e => e.obj == h

/-- The guard of the re-initialisation block (1069-1073). -/
def cbReinitGuard (ev : Option UAVObjEvent) (s : AttState) : Bool :=
  match ev with
  | none => true
  | some e =>
    e.obj == UAVObjHandle.EKFConfiguration ||
    e.obj == UAVObjHandle.RevoSettings ||
    (s.variance_error == true && e.obj == UAVObjHandle.FlightStatus)

/-- The three loops over `P`, `Q` and `R` (1079-1093): the value of `error` after them. -/
def cbVarianceCheck (c : EKFConfigurationData) : Bool :=
  c.P.any invalid_var || c.Q.any invalid_var || c.R.any invalid_var

/-- The body of the re-initialisation block (1075-1111). -/
def cbReinit (k : Consts) (o : Objects) (s : AttState) : AttState :=
  let s1 := { s with ekfConfiguration := o.ekfConfiguration }
  let error := cbVarianceCheck s1.ekfConfiguration
  let s2 := { s1 with revoSettings := o.revoSettings }
  let error :=
    if s2.flightStatus.Armed == k.FLIGHTSTATUS_ARMED_ARMED && !s2.initialization_required
    then true else error
  if error then
    { s2 with variance_error := true }
  else
    { s2 with
      running_algorithm := s2.revoSettings.FusionAlgorithm
      variance_error := false
      initialization_required := true }

/-- The home location block (1113-1126): reload the object and recompute `T`. -/
def cbHomeLocation (x : Ext) (o : Objects) (s : AttState) : AttState :=
  let s1 := { s with homeLocation := o.homeLocation }
  let lat := x.DEG2RAD (Flt.ofInt s1.homeLocation.Latitude / Flt.fin 10000000)
  let alt := s1.homeLocation.Altitude
  { s1 with
    T := ⟨alt + Flt.fin 6378137, x.cosf lat * (alt + Flt.fin 6378137), Flt.fin (-1)⟩ }

/-- Lines 1060-1065: refresh the cached flight status and calibration. -/
def cbRefresh (ev : Option UAVObjEvent) (o : Objects) (s : AttState) : AttState :=
  let s := if evIs ev UAVObjHandle.FlightStatus then { s with flightStatus := o.flightStatus } else s
  if evIs ev UAVObjHandle.RevoCalibration
  then { s with revoCalibration := o.revoCalibration } else s

/-- Lines 1069-1112: the re-initialisation block with its guard. -/
def cbReinitBlock (k : Consts) (ev : Option UAVObjEvent) (o : Objects) (s : AttState) :
    AttState :=
  if cbReinitGuard ev s then cbReinit k o s else s

/-- Lines 1113-1128: reload the home location (recomputing `T`) and the attitude settings. -/
def cbReload (x : Ext) (ev : Option UAVObjEvent) (o : Objects) (s : AttState) : AttState :=
  let s := if evIs ev UAVObjHandle.HomeLocation then cbHomeLocation x o s else s
  if evIs ev UAVObjHandle.AttitudeSettings
  then { s with attitudeSettings := o.attitudeSettings } else s

/-- `settingsUpdatedCb(ev)`, with `o` the current contents of the settings objects. -/
def settingsUpdatedCb (k : Consts) (x : Ext) (ev : Option UAVObjEvent) (o : Objects)
    (s : AttState) : AttState :=
  cbReload x ev o (cbReinitBlock k ev o (cbRefresh ev o s))

/-- The value of a 32-bit signed integer expression whose mathematical result is `z`: `z`
reduced modulo 2^32 into the range -2^31 .. 2^31 - 1. -/
def wrapInt32 (z : Int) : Int :=
  (z + 2147483648) % 4294967296 - 2147483648

/-- `getNED(gpsPosition, NED)`: the return value and the three values written to `NED`.
`Latitude` and `Longitude` are `int32_t` fields of both objects, so the two differences of
lines 1047-1048 are 32-bit integer subtractions, taken before the conversion to `float`. -/
def getNED (x : Ext) (s : AttState) (gpsPosition : GPSPositionData) : Int × Vec3 :=
  let dL0 := x.DEG2RAD
    (Flt.ofInt (wrapInt32 (gpsPosition.Latitude - s.homeLocation.Latitude)) /
      Flt.fin 10000000)
  let dL1 := x.DEG2RAD
    (Flt.ofInt (wrapInt32 (gpsPosition.Longitude - s.homeLocation.Longitude)) /
      Flt.fin 10000000)
  let dL2 := gpsPosition.Altitude + gpsPosition.GeoidSeparation - s.homeLocation.Altitude
  (0, ⟨s.T.x * dL0, s.T.y * dL1, s.T.z * dL2⟩)

/-! ## Inputs of one estimator cycle -/

/-- What an estimator cycle reads from its environment after the mandatory gyro and
accelerometer events: the optional queues, the sensor objects and the timers.
A `...Received` field is the truth of `xQueueReceive(...) == pdTRUE`. -/
structure Readings where
  magReceived : Bool
  baroReceived : Bool
  airspeedReceived : Bool
  gpsReceived : Bool
  gpsVelReceived : Bool
  GPSPositionReadOnly : Bool
  GPSVelocityReadOnly : Bool
  gyrosData : Vec3
  accelsData : Vec3
  magData : Vec3
  baroAltitude : Flt
  airspeedData : AirspeedSensorData
  gpsData : GPSPositionData
  gpsVelData : NEDData
  /-- Value of `PIOS_DELAY_DiffuS(...)`, in microseconds. -/
  DiffuS : Nat
  /-- Value of `PIOS_DELAY_GetRaw()`. -/
  GetRaw : Nat
  /-- Second `GPSPositionGet` of INS stage 0. -/
  gpsPositionInit : GPSPositionData
  /-- `MagnetometerGet` after the blocking receive of INS stage 0. -/
  magDataInit : Vec3
  /-- First and second `xTaskGetTickCount()` of the gain schedule. -/
  tickCountA : Nat
  tickCountB : Nat
  /-- The stored `AttitudeSettings` object (`AttitudeSettingsGet`). -/
  attitudeSettingsObj : AttitudeSettingsData
  deriving DecidableEq, Repr

/-- Everything one call of an estimator update function reads from its environment: the
results of the two blocking receives on the gyro and accelerometer queues, the read-only
flag of `AttitudeActual`, and the readings used after the timeout check. -/
structure CycleIn extends Readings where
  gyroReceived : Bool
  accelReceived : Bool
  AttitudeActualReadOnly : Bool
  deriving DecidableEq, Repr

/-! ## INS / EKF estimator (attitude.c 582-1033) -/

/-- Perform a call into the INS library: update `Nav` and record the call. -/
def insCall (x : Ext) (c : INSCall) (s : AttState) : AttState :=
  { s with nav := x.ins c s.nav, trace := s.trace ++ [c] }

/-- The timeout branch is taken and returns (616-623). -/
def sensorTimeout (i : CycleIn) : Bool :=
  (!i.gyroReceived || !i.accelReceived) && !i.AttitudeActualReadOnly

/-- Lines 626-632: once initialised, the per-sensor flags start each cycle cleared. -/
def insClearIfInited (s : AttState) : AttState :=
  if s.inited then
    { s with mag_updated := false, baro_updated := false, airspeed_updated := false,
             gps_updated := false, gps_vel_updated := false }
  else s

/-- Lines 634-647: the first-run branch. -/
def insFirstRun (i : Readings) (s : AttState) : AttState :=
  { s with inited := false, init_stage := 0,
           mag_updated := false, baro_updated := false, airspeed_updated := false,
           gps_updated := false, gps_vel_updated := false,
           ins_last_time := i.GetRaw }

/-- Lines 649-664: poll the optional queues. -/
def insPoll (outdoor_mode : Bool) (i : Readings) (s : AttState) : AttState :=
  let s := { s with mag_updated := s.mag_updated || i.magReceived }
  let s := { s with baro_updated := s.baro_updated || i.baroReceived }
  let s := { s with airspeed_updated := s.airspeed_updated || i.airspeedReceived }
  let s :=
    if !i.GPSPositionReadOnly
    then { s with gps_updated := s.gps_updated || (i.gpsReceived && outdoor_mode) }
    else { s with gps_updated := s.gps_updated || (true && outdoor_mode) }
  if !i.GPSVelocityReadOnly
  then { s with gps_vel_updated := s.gps_vel_updated || (i.gpsVelReceived && outdoor_mode) }
  else { s with gps_vel_updated := s.gps_vel_updated || (true && outdoor_mode) }

/-- The safety check of lines 678-683 on the gyro and accelerometer sample. -/
def insInertialInvalid (i : Readings) : Bool :=
  invalid i.gyrosData.x || invalid i.gyrosData.y || invalid i.gyrosData.z ||
  invalid i.accelsData.x || invalid i.accelsData.y || invalid i.accelsData.z

/-- Lines 688-694: the local copy of `GyrosBias`, zeroed when it holds an invalid value. -/
def insGyrosBias (s : AttState) : Vec3 :=
  if invalid s.gyrosBias.x || invalid s.gyrosBias.y || invalid s.gyrosBias.z
  then ⟨f0, f0, f0⟩ else s.gyrosBias

/-- The minimum requirement for GPS usage fails (750-753). -/
def gpsGateFails (k : Consts) (i : Readings) (s : AttState) : Bool :=
  decide (i.gpsData.Satellites < 7) ||
  Flt.gt i.gpsData.PDOP (Flt.fin 4) ||
  (i.gpsData.Latitude == 0 && i.gpsData.Longitude == 0) ||
  (s.homeLocation.Set != k.HOMELOCATION_SET_TRUE)

/-- Lines 696-703: an invalid magnetometer reading. -/
def gateMag (i : Readings) (s : AttState) : AttState :=
  if invalid i.magData.x || invalid i.magData.y || invalid i.magData.z
  then { s with mag_updated := false, value_error := true } else s

/-- Lines 707-710: a missing reference field (`homeLocation.Be` close to zero). -/
def gateBe (s : AttState) : AttState :=
  if Flt.lt (s.homeLocation.Be.x * s.homeLocation.Be.x + s.homeLocation.Be.y * s.homeLocation.Be.y
       + s.homeLocation.Be.z * s.homeLocation.Be.z) (Flt.fin (1 / 10 ^ 5))
  then { s with mag_updated := false, value_error := true } else s

/-- Lines 712-715: an invalid barometric altitude. -/
def gateBaro (i : Readings) (s : AttState) : AttState :=
  if invalid i.baroAltitude
  then { s with baro_updated := false, value_error := true } else s

/-- Lines 717-720: an invalid airspeed. -/
def gateAirspeed (i : Readings) (s : AttState) : AttState :=
  if invalid i.airspeedData.CalibratedAirspeed
  then { s with airspeed_updated := false, value_error := true } else s

/-- Lines 722-725: an invalid GPS altitude. -/
def gateGpsAltitude (i : Readings) (s : AttState) : AttState :=
  if invalid i.gpsData.Altitude
  then { s with gps_updated := false, value_error := true } else s

/-- The test of lines 727-732 on the six GPS noise magnitudes. -/
def gpsVarInvalid (k : Consts) (c : EKFConfigurationData) : Bool :=
  invalid_var (idx c.R k.EKFCONFIGURATION_R_GPSPOSNORTH) ||
  invalid_var (idx c.R k.EKFCONFIGURATION_R_GPSPOSEAST) ||
  invalid_var (idx c.R k.EKFCONFIGURATION_R_GPSPOSDOWN) ||
  invalid_var (idx c.R k.EKFCONFIGURATION_R_GPSVELNORTH) ||
  invalid_var (idx c.R k.EKFCONFIGURATION_R_GPSVELEAST) ||
  invalid_var (idx c.R k.EKFCONFIGURATION_R_GPSVELDOWN)

/-- Lines 727-735: an invalid GPS noise magnitude. -/
def gateGpsVar (k : Consts) (s : AttState) : AttState :=
  if gpsVarInvalid k s.ekfConfiguration
  then { s with gps_updated := false, value_error := true } else s

/-- Lines 737-742: an invalid GPS velocity. -/
def gateGpsVel (i : Readings) (s : AttState) : AttState :=
  if invalid i.gpsVelData.North || invalid i.gpsVelData.East || invalid i.gpsVelData.Down
  then { s with gps_vel_updated := false, value_error := true } else s

/-- Lines 745-747: discard airspeed if the sensor is not connected. -/
def gateAirspeedConnected (k : Consts) (i : Readings) (s : AttState) : AttState :=
  if i.airspeedData.SensorConnected != k.AIRSPEEDSENSOR_SENSORCONNECTED_TRUE
  then { s with airspeed_updated := false } else s

/-- Lines 750-756: the minimum requirement for GPS usage. -/
def gateGpsMinimum (k : Consts) (i : Readings) (s : AttState) : AttState :=
  if gpsGateFails k i s
  then { s with gps_updated := false, gps_vel_updated := false } else s

/-- Lines 696-747: the validity checks on the optional sensors. -/
def insValidity (k : Consts) (i : Readings) (s : AttState) : AttState :=
  let s := gateMag i s
  let s := gateBe s
  let s := gateBaro i s
  let s := gateAirspeed i s
  let s := gateGpsAltitude i s
  let s := gateGpsVar k s
  let s := gateGpsVel i s
  gateAirspeedConnected k i s

/-- Lines 696-756: the sensor gate (after `value_error = false` and the inertial check). -/
def insGate (k : Consts) (i : Readings) (s : AttState) : AttState :=
  gateGpsMinimum k i (insValidity k i s)

/-- Lines 758-768: the alarm selected for the cycle. -/
def insAlarm (outdoor_mode : Bool) (i : Readings) (s : AttState) : AlarmSeverity :=
  if !s.inited then AlarmSeverity.Error
  else if s.value_error then AlarmSeverity.Critical
  else if s.variance_error then AlarmSeverity.Critical
  else if outdoor_mode && decide (i.gpsData.Satellites < 7) then AlarmSeverity.Error
  else AlarmSeverity.Clear

/-- Lines 774-778: the clamp of the cycle time. -/
def clampDT (dT : Flt) : Flt :=
  if Flt.gt dT (Flt.fin (1 / 100)) then Flt.fin (1 / 100)
  else if Flt.le dT (Flt.fin (1 / 1000)) then Flt.fin (1 / 1000)
  else dT

/-- Lines 770-778: elapsed time in seconds, clamped. -/
def insDT (i : Readings) : Flt :=
  clampDT (Flt.ofInt i.DiffuS / Flt.fin 1000000)

/-- The guard of the staged-initialisation branch (780). -/
def insStagedGuard (outdoor_mode : Bool) (s : AttState) : Bool :=
  !s.inited && s.mag_updated && s.baro_updated && (s.gps_updated || !outdoor_mode) &&
    !s.variance_error

/-- Lines 868-873 and 898-903: gyro rates in rad/s, with the bias added back when the
sensor module already removed it. -/
def insGyros (k : Consts) (x : Ext) (i : Readings) (gyrosBias : Vec3) (s : AttState) : Vec3 :=
  let g : Vec3 := ⟨x.DEG2RAD i.gyrosData.x, x.DEG2RAD i.gyrosData.y, x.DEG2RAD i.gyrosData.z⟩
  if s.revoCalibration.BiasCorrectedRaw == k.REVOCALIBRATION_BIASCORRECTEDRAW_TRUE
  then ⟨g.x + x.DEG2RAD gyrosBias.x, g.y + x.DEG2RAD gyrosBias.y, g.z + x.DEG2RAD gyrosBias.z⟩
  else g

/-- Initial attitude from accelerometer and magnetometer (332-355 and 832-855),
applied to the `AttitudeActual` data just read. -/
def initialAttitude (x : Ext) (accelsData magData : Vec3) (a : AttitudeActualData) :
    AttitudeActualData :=
  let roll := x.atan2f (-accelsData.y) (-accelsData.z)
  let zn := x.cosf roll * magData.z + x.sinf roll * magData.y
  let yn := x.cosf roll * magData.y - x.sinf roll * magData.z
  let azn := x.cosf roll * accelsData.z + x.sinf roll * accelsData.y
  let pitch := x.atan2f accelsData.x (-azn)
  let xn := x.cosf pitch * magData.x + x.sinf pitch * zn
  let yaw := x.atan2f (-yn) xn
  let rpy : Vec3 := ⟨x.RAD2DEG roll, x.RAD2DEG pitch, x.RAD2DEG yaw⟩
  let q := x.RPY2Quaternion rpy
  { a with Roll := rpy.x, Pitch := rpy.y, Yaw := rpy.z,
           q1 := q.q0, q2 := q.q1, q3 := q.q2, q4 := q.q3 }

/-- Copy `Nav.q` into `AttitudeActual` and derive roll, pitch, yaw (876-883, 909-916). -/
def publishNavAttitude (x : Ext) (s : AttState) : AttState :=
  let rpy := x.Quaternion2RPY s.nav.q
  { s with attitudeActual :=
      { s.attitudeActual with
        q1 := s.nav.q.q0, q2 := s.nav.q.q1, q3 := s.nav.q.q2, q4 := s.nav.q.q3,
        Roll := rpy.x, Pitch := rpy.y, Yaw := rpy.z } }

/-- Lines 785-803: reset the INS algorithm and seed the noise magnitudes and gyro bias. -/
def insSeed (k : Consts) (x : Ext) (s : AttState) : AttState :=
  let c := s.ekfConfiguration
  let s := insCall x INSCall.INSGPSInit s
  let s := insCall x (INSCall.INSSetMagVar
    ⟨idx c.R k.EKFCONFIGURATION_R_MAGX, idx c.R k.EKFCONFIGURATION_R_MAGY,
     idx c.R k.EKFCONFIGURATION_R_MAGZ⟩) s
  let s := insCall x (INSCall.INSSetAccelVar
    ⟨idx c.Q k.EKFCONFIGURATION_Q_ACCELX, idx c.Q k.EKFCONFIGURATION_Q_ACCELY,
     idx c.Q k.EKFCONFIGURATION_Q_ACCELZ⟩) s
  let s := insCall x (INSCall.INSSetGyroVar
    ⟨idx c.Q k.EKFCONFIGURATION_Q_GYROX, idx c.Q k.EKFCONFIGURATION_Q_GYROY,
     idx c.Q k.EKFCONFIGURATION_Q_GYROZ⟩) s
  let s := insCall x (INSCall.INSSetGyroBiasVar
    ⟨idx c.Q k.EKFCONFIGURATION_Q_GYRODRIFTX, idx c.Q k.EKFCONFIGURATION_Q_GYRODRIFTY,
     idx c.Q k.EKFCONFIGURATION_Q_GYRODRIFTZ⟩) s
  let s := insCall x (INSCall.INSSetBaroVar (idx c.R k.EKFCONFIGURATION_R_BAROZ)) s
  insCall x (INSCall.INSSetGyroBias ⟨f0, f0, f0⟩) s

/-- Lines 805-824: the initial position `pos` and the initial barometric offset. -/
def insInitialPosition (x : Ext) (outdoor_mode : Bool) (i : Readings) (s : AttState) :
    Vec3 × AttState :=
  let pos : Vec3 := ⟨f0, f0, f0⟩
  if outdoor_mode then
    let pos := (getNED x s i.gpsPositionInit).2
    (pos, { s with baroOffset := -pos.z - i.baroAltitude })
  else
    let s := { s with baroOffset := -i.baroAltitude }
    ({ pos with z := -(i.baroAltitude + s.baroOffset) }, s)

/-- Lines 826-861: initial attitude from accelerometer and a fresh magnetometer reading,
then the initial state and covariance of the filter. -/
def insInitialState (x : Ext) (i : Readings) (pos : Vec3) (s : AttState) : AttState :=
  let s := { s with attitudeActual := initialAttitude x i.accelsData i.magDataInit s.attitudeActual }
  let q : Quat := ⟨s.attitudeActual.q1, s.attitudeActual.q2, s.attitudeActual.q3,
                  s.attitudeActual.q4⟩
  let s := insCall x (INSCall.INSSetState pos zeros q zeros zeros) s
  insCall x (INSCall.INSResetP s.ekfConfiguration.P) s

/-- Lines 785-861: stage 0 of the staged initialisation, reset and seed the filter. -/
def insStageZero (k : Consts) (x : Ext) (outdoor_mode : Bool) (i : Readings) (s : AttState) :
    AttState :=
  let s := insSeed k x s
  let r := insInitialPosition x outdoor_mode i s
  insInitialState x i r.1 r.2

/-- Lines 864-883: a predict-only stage of the staged initialisation. -/
def insStagePredict (k : Consts) (x : Ext) (i : Readings) (gyrosBias : Vec3) (dT : Flt)
    (s : AttState) : AttState :=
  let gyros := insGyros k x i gyrosBias s
  let s := insCall x (INSCall.INSStatePrediction gyros i.accelsData dT) s
  publishNavAttitude x s

/-- Lines 886-888: count the stage and promote the filter after stage 10. -/
def insAdvanceStage (s : AttState) : AttState :=
  let s := { s with init_stage := s.init_stage + 1 }
  if s.init_stage > 10 then { s with inited := true } else s

/-- Lines 781-890: the body of the staged-initialisation branch (it returns 0). -/
def insStaged (k : Consts) (x : Ext) (outdoor_mode : Bool) (i : Readings) (gyrosBias : Vec3)
    (dT : Flt) (s : AttState) : AttState :=
  let s :=
    if s.init_stage == 0 then insStageZero k x outdoor_mode i s
    else insStagePredict k x i gyrosBias dT s
  insAdvanceStage s

/-- The constant `BARO_OFFSET_LOWPASS_ALPHA`, `0.9997f`. -/
def BARO_OFFSET_LOWPASS_ALPHA : Flt := Flt.fin (9997 / 10000)

/-- The macro `IAS2TAS(alt)`. -/
def IAS2TAS (alt : Flt) : Flt :=
  f1 + (Flt.fin (2 / 100) * alt / Flt.fin (3048 / 10))

/-- The sensor mask, correction inputs and filter state after lines 921-998. -/
structure Measurement where
  sensors : Nat
  NED : Vec3
  vel : Vec3
  st : AttState

/-- Lines 929-965: GPS position (outdoor) or the indoor pseudo-measurement. -/
def insPosition (k : Consts) (x : Ext) (outdoor_mode : Bool) (i : Readings) (m : Measurement) :
    Measurement :=
  let s := m.st
  let c := s.ekfConfiguration
  if s.gps_updated && outdoor_mode then
    let s := insCall x (INSCall.INSSetPosVelVar
      ⟨idx c.R k.EKFCONFIGURATION_R_GPSPOSNORTH, idx c.R k.EKFCONFIGURATION_R_GPSPOSEAST,
       idx c.R k.EKFCONFIGURATION_R_GPSPOSDOWN⟩
      ⟨idx c.R k.EKFCONFIGURATION_R_GPSVELNORTH, idx c.R k.EKFCONFIGURATION_R_GPSVELEAST,
       idx c.R k.EKFCONFIGURATION_R_GPSVELDOWN⟩) s
    let sensors := m.sensors ||| k.POS_SENSORS
    let NED := (getNED x s i.gpsData).2
    let baroOffset := BARO_OFFSET_LOWPASS_ALPHA * s.baroOffset +
      (f1 - BARO_OFFSET_LOWPASS_ALPHA) * (-NED.z - i.baroAltitude)
    let s := { s with baroOffset := baroOffset }
    { m with sensors := sensors, NED := NED, st := s }
  else if !outdoor_mode then
    let s := insCall x (INSCall.INSSetPosVelVar
      ⟨idx c.FakeR k.EKFCONFIGURATION_FAKER_FAKEGPSPOSINDOOR,
       idx c.FakeR k.EKFCONFIGURATION_FAKER_FAKEGPSPOSINDOOR,
       idx c.FakeR k.EKFCONFIGURATION_FAKER_FAKEGPSPOSINDOOR⟩
      ⟨idx c.FakeR k.EKFCONFIGURATION_FAKER_FAKEGPSVELINDOOR,
       idx c.FakeR k.EKFCONFIGURATION_FAKER_FAKEGPSVELINDOOR,
       idx c.FakeR k.EKFCONFIGURATION_FAKER_FAKEGPSVELINDOOR⟩) s
    let vel : Vec3 := ⟨f0, f0, f0⟩
    let NED : Vec3 := ⟨f0, f0, -(i.baroAltitude + s.baroOffset)⟩
    let sensors := m.sensors ||| (k.HORIZ_SENSORS ||| k.HORIZ_POS_SENSORS)
    let sensors := sensors ||| (k.POS_SENSORS ||| k.VERT_SENSORS)
    { sensors := sensors, NED := NED, vel := vel, st := s }
  else m

/-- Lines 967-972: GPS velocity. -/
def insVelocity (k : Consts) (outdoor_mode : Bool) (i : Readings) (m : Measurement) :
    Measurement :=
  if m.st.gps_vel_updated && outdoor_mode then
    { m with sensors := m.sensors ||| (k.HORIZ_SENSORS ||| k.VERT_SENSORS),
             vel := ⟨i.gpsVelData.North, i.gpsVelData.East, i.gpsVelData.Down⟩ }
  else m

/-- The airspeed vector rotated into the NED frame (993-996). -/
def airspeedVel (x : Ext) (q : Quat) (TrueAirspeed : Flt) : Vec3 :=
  x.rot_mult (x.Quaternion2R q) ⟨TrueAirspeed, f0, f0⟩

/-- Lines 974-998: airspeed. -/
def insAirspeed (k : Consts) (x : Ext) (i : Readings) (m : Measurement) : Measurement :=
  let s := m.st
  let c := s.ekfConfiguration
  if s.airspeed_updated then
    let cas := i.airspeedData.CalibratedAirspeed
    let airspeed : AirspeedActualData :=
      { CalibratedAirspeed := cas,
        TrueAirspeed := cas * IAS2TAS (s.homeLocation.Altitude - s.nav.Pos.z) }
    let s := { s with airspeedActual := airspeed }
    if !s.gps_vel_updated && !s.gps_updated then
      let sensors := m.sensors ||| (k.HORIZ_SENSORS ||| k.VERT_SENSORS)
      let s := insCall x (INSCall.INSSetPosVelVar
        ⟨idx c.FakeR k.EKFCONFIGURATION_FAKER_FAKEGPSPOSINDOOR,
         idx c.FakeR k.EKFCONFIGURATION_FAKER_FAKEGPSPOSINDOOR,
         idx c.FakeR k.EKFCONFIGURATION_FAKER_FAKEGPSPOSINDOOR⟩
        ⟨idx c.FakeR k.EKFCONFIGURATION_FAKER_FAKEGPSVELAIRSPEED,
         idx c.FakeR k.EKFCONFIGURATION_FAKER_FAKEGPSVELAIRSPEED,
         idx c.FakeR k.EKFCONFIGURATION_FAKER_FAKEGPSVELAIRSPEED⟩) s
      { m with sensors := sensors, vel := airspeedVel x s.nav.q airspeed.TrueAirspeed, st := s }
    else { m with st := s }
  else m

/-- Lines 921-927 (with the initial `sensors`, `NED` and `vel`): magnetometer and
barometer bits, and the reference field handed to the filter. -/
def insMagBaro (k : Consts) (x : Ext) (s : AttState) : Measurement :=
  let sensors := 0
  let sensors := if s.mag_updated then sensors ||| k.MAG_SENSORS else sensors
  let sensors := if s.baro_updated then sensors ||| k.BARO_SENSOR else sensors
  let s := insCall x (INSCall.INSSetMagNorth s.homeLocation.Be) s
  { sensors := sensors, NED := ⟨f0, f0, f0⟩, vel := ⟨f0, f0, f0⟩, st := s }

/-- Lines 921-998: assemble the measurement set of a Running cycle; `sensors` is a
`uint16_t`. -/
def insMeasurement (k : Consts) (x : Ext) (outdoor_mode : Bool) (i : Readings) (s : AttState) :
    Measurement :=
  let m := insMagBaro k x s
  let m := insPosition k x outdoor_mode i m
  let m := insVelocity k outdoor_mode i m
  let m := insAirspeed k x i m
  { m with sensors := m.sensors % 65536 }

/-- Lines 1007-1030: publish position, velocity, gyro bias and state variance. -/
def insPublish (x : Ext) (s : AttState) : AttState :=
  { s with
    positionActual := ⟨s.nav.Pos.x, s.nav.Pos.y, s.nav.Pos.z⟩
    velocityActual := ⟨s.nav.Vel.x, s.nav.Vel.y, s.nav.Vel.z⟩
    gyrosBias := ⟨x.RAD2DEG s.nav.gyro_bias.x, x.RAD2DEG s.nav.gyro_bias.y,
                  x.RAD2DEG s.nav.gyro_bias.z⟩
    ekfStateVariance := x.INSGetP s.nav }

/-- Lines 896-1032: a Running cycle, prediction then correction (it returns 0). -/
def insRunning (k : Consts) (x : Ext) (outdoor_mode : Bool) (i : Readings) (gyrosBias : Vec3)
    (dT : Flt) (s : AttState) : AttState :=
  let gyros := insGyros k x i gyrosBias s
  let s := insCall x (INSCall.INSStatePrediction gyros i.accelsData dT) s
  let s := publishNavAttitude x s
  let s := insCall x (INSCall.INSCovariancePrediction dT) s
  let m := insMeasurement k x outdoor_mode i s
  let s := m.st
  let s :=
    if m.sensors != 0
    then insCall x (INSCall.INSCorrection i.magData m.NED m.vel
                      (i.baroAltitude + s.baroOffset) m.sensors) s
    else s
  insPublish x s

/-- `updateAttitudeINSGPS(first_run, outdoor_mode)`: return value and new state. -/
def updateAttitudeINSGPS (k : Consts) (x : Ext) (first_run outdoor_mode : Bool) (i : CycleIn)
    (s : AttState) : Int × AttState :=
  if sensorTimeout i then
    (-1, { s with alarm := AlarmSeverity.Warning })
  else
    let s := insClearIfInited s
    if first_run then
      (0, insFirstRun i.toReadings s)
    else
      let s := insPoll outdoor_mode i.toReadings s
      let gyrosBias := insGyrosBias s
      let s := { s with value_error := false }
      if insInertialInvalid i.toReadings then
        (0, { s with alarm := AlarmSeverity.Error })
      else
        let s := insGate k i.toReadings s
        let s := { s with alarm := insAlarm outdoor_mode i.toReadings s }
        let dT := insDT i.toReadings
        let s := { s with ins_last_time := i.GetRaw }
        if insStagedGuard outdoor_mode s then
          (0, insStaged k x outdoor_mode i.toReadings gyrosBias dT s)
        else if !s.inited then
          (0, s)
        else
          (0, insRunning k x outdoor_mode i.toReadings gyrosBias dT s)

/-! ## Complementary filter (attitude.c 291-569) -/

/-- Lines 315-360: the first-run branch, when it reaches `return 0`. -/
def compFirstRun (k : Consts) (x : Ext) (i : Readings) (s : AttState) : AttState :=
  let magData : Vec3 :=
    if k.PIOS_INCLUDE_HMC5883 then i.magData else ⟨Flt.fin 100, f0, f0⟩
  let s := { s with init := 0 }
  let s := { s with attitudeActual := initialAttitude x i.accelsData magData s.attitudeActual }
  { s with timeval := i.GetRaw }

/-- The raised gains written to `attitudeSettings` at lines 366-368 and 371-373. -/
def raisedGains (a : AttitudeSettingsData) : AttitudeSettingsData :=
  { a with AccelKp := f1, AccelKi := Flt.fin (9 / 10), YawBiasRate := Flt.fin (23 / 100) }

/-- Lines 364-381: the gain schedule. -/
def compGains (k : Consts) (i : Readings) (s : AttState) : AttState :=
  if (s.init == 0 && decide (i.tickCountA < 7000)) && decide (i.tickCountB > 1000) then
    { s with attitudeSettings := raisedGains s.attitudeSettings, magKp := f1 }
  else if s.attitudeSettings.ZeroDuringArming == k.ATTITUDESETTINGS_ZERODURINGARMING_TRUE &&
      s.flightStatus.Armed == k.FLIGHTSTATUS_ARMED_ARMING then
    { s with attitudeSettings := raisedGains s.attitudeSettings, magKp := f1, init := 0 }
  else if s.init == 0 then
    { s with attitudeSettings := i.attitudeSettingsObj, magKp := Flt.fin (1 / 100), init := 1 }
  else s

/-- Lines 400-411: gravity rotated to the body frame crossed with the accelerometer
reading, divided by the accelerometer magnitude; returns `accel_mag` and `accel_err`. -/
def compAccelErr (x : Ext) (q : Quat) (accelsData : Vec3) : Flt × Vec3 :=
  let two := Flt.fin 2
  let grot : Vec3 :=
    ⟨-(two * (q.q1 * q.q3 - q.q0 * q.q2)),
     -(two * (q.q2 * q.q3 + q.q0 * q.q1)),
     -(q.q0 * q.q0 - q.q1 * q.q1 - q.q2 * q.q2 + q.q3 * q.q3)⟩
  let accel_err := x.CrossProduct accelsData grot
  let accel_mag := accelsData.x * accelsData.x + accelsData.y * accelsData.y +
    accelsData.z * accelsData.z
  let accel_mag := x.sqrtf accel_mag
  (accel_mag, ⟨accel_err.x / accel_mag, accel_err.y / accel_mag, accel_err.z / accel_mag⟩)

/-- Lines 413-445: the new value of the global `mag_err`. -/
def compMagErr (x : Ext) (i : Readings) (q : Quat) (s : AttState) : Vec3 :=
  if !i.magReceived then
    let Rbe := x.Quaternion2R q
    let mag := i.magData
    if !mag.x.isnan && !mag.x.isinf && !mag.y.isnan && !mag.y.isinf &&
       !mag.z.isnan && !mag.z.isinf then
      let brot := x.rot_mult Rbe s.homeLocation.Be
      let mag_len := x.sqrtf (mag.x * mag.x + mag.y * mag.y + mag.z * mag.z)
      let mag : Vec3 := ⟨mag.x / mag_len, mag.y / mag_len, mag.z / mag_len⟩
      let bmag := x.sqrtf (brot.x * brot.x + brot.y * brot.y + brot.z * brot.z)
      let brot : Vec3 := ⟨brot.x / bmag, brot.y / bmag, brot.z / bmag⟩
      if Flt.lt bmag f1 || Flt.lt mag_len f1 then ⟨f0, f0, f0⟩
      else x.CrossProduct mag brot
    else s.mag_err
  else ⟨f0, f0, f0⟩

/-- Lines 469-479: one time step of the quaternion kinematic equation (gyro in deg/s). -/
def compIntegrate (x : Ext) (q : Quat) (g : Vec3) (dT : Flt) : Quat :=
  let two := Flt.fin 2
  let qd0 := x.DEG2RAD (-q.q1 * g.x - q.q2 * g.y - q.q3 * g.z) * dT / two
  let qd1 := x.DEG2RAD (q.q0 * g.x - q.q3 * g.y + q.q2 * g.z) * dT / two
  let qd2 := x.DEG2RAD (q.q3 * g.x + q.q0 * g.y - q.q1 * g.z) * dT / two
  let qd3 := x.DEG2RAD (-q.q2 * g.x + q.q1 * g.y + q.q0 * g.z) * dT / two
  ⟨q.q0 + qd0, q.q1 + qd1, q.q2 + qd2, q.q3 + qd3⟩

/-- Lines 481-502: sign normalisation, renormalisation and the degenerate-norm guard;
returns `qmag` and the quaternion. -/
def compNormalize (x : Ext) (q : Quat) : Flt × Quat :=
  let q : Quat := if Flt.lt q.q0 f0 then ⟨-q.q0, -q.q1, -q.q2, -q.q3⟩ else q
  let qmag := x.sqrtf (q.q0 * q.q0 + q.q1 * q.q1 + q.q2 * q.q2 + q.q3 * q.q3)
  let q : Quat := ⟨q.q0 / qmag, q.q1 / qmag, q.q2 / qmag, q.q3 / qmag⟩
  if Flt.lt (Flt.fabsf qmag) (Flt.fin (1 / 1000)) || qmag.isnan
  then (qmag, ⟨f1, f0, f0, f0⟩) else (qmag, q)

/-- Lines 511-558: flush the remaining queues, copying GPS data and airspeed through. -/
def compFlush (k : Consts) (x : Ext) (i : Readings) (s : AttState) : AttState :=
  let s :=
    if i.gpsReceived && s.homeLocation.Set == k.HOMELOCATION_SET_TRUE then
      let NED := (getNED x s i.gpsData).2
      { s with positionActual := ⟨NED.x, NED.y, NED.z⟩ }
    else s
  let s :=
    if i.gpsVelReceived then
      { s with velocityActual := ⟨i.gpsVelData.North, i.gpsVelData.East, i.gpsVelData.Down⟩ }
    else s
  if i.airspeedReceived then
    if i.airspeedData.SensorConnected == k.AIRSPEEDSENSOR_SENSORCONNECTED_TRUE then
      let cas := i.airspeedData.CalibratedAirspeed
      { s with airspeedActual :=
          { CalibratedAirspeed := cas,
            TrueAirspeed := cas * IAS2TAS (s.homeLocation.Altitude - s.positionActual.Down) } }
    else s
  else s

/-- Lines 447-453: the gyro bias after the error integration. -/
def compBias (s : AttState) (accel_err mag_err : Vec3) : Vec3 :=
  ⟨s.gyrosBias.x - accel_err.x * s.attitudeSettings.AccelKi,
   s.gyrosBias.y - accel_err.y * s.attitudeSettings.AccelKi,
   s.gyrosBias.z - mag_err.z * s.magKi⟩

/-- Lines 455-460: the gyro rate with the bias removed, unless the raw values are already
bias corrected. -/
def compUnbias (k : Consts) (s : AttState) (gyrosData gyrosBias : Vec3) : Vec3 :=
  if s.revoCalibration.BiasCorrectedRaw != k.REVOCALIBRATION_BIASCORRECTEDRAW_TRUE
  then ⟨gyrosData.x - gyrosBias.x, gyrosData.y - gyrosBias.y, gyrosData.z - gyrosBias.z⟩
  else gyrosData

/-- Lines 462-465: the rate correction by the proportional error terms. -/
def compRateCorrect (s : AttState) (gyrosData accel_err mag_err : Vec3) (dT : Flt) : Vec3 :=
  ⟨gyrosData.x + accel_err.x * s.attitudeSettings.AccelKp / dT,
   gyrosData.y + accel_err.y * s.attitudeSettings.AccelKp / dT,
   gyrosData.z + accel_err.z * s.attitudeSettings.AccelKp / dT + mag_err.z * s.magKp / dT⟩

/-- Lines 383-509: gyro bias integration, rate correction, quaternion time step and
publication of the attitude. -/
def compUpdate (k : Consts) (x : Ext) (i : Readings) (s : AttState) : AttState :=
  let gyrosData := i.gyrosData
  let dT := Flt.ofInt i.DiffuS / Flt.fin 1000000
  let s := { s with timeval := i.GetRaw }
  let q : Quat := ⟨s.attitudeActual.q1, s.attitudeActual.q2, s.attitudeActual.q3,
                  s.attitudeActual.q4⟩
  let ae := compAccelErr x q i.accelsData
  let accel_err := ae.2
  let s := { s with accel_mag := ae.1 }
  let s := { s with mag_err := compMagErr x i q s }
  let gyrosBias := compBias s accel_err s.mag_err
  let s := { s with gyrosBias := gyrosBias }
  let gyrosData := compUnbias k s gyrosData gyrosBias
  let gyrosData := compRateCorrect s gyrosData accel_err s.mag_err dT
  let q := compIntegrate x q gyrosData dT
  let n := compNormalize x q
  let q := n.2
  let s := { s with qmag := n.1 }
  let rpy := x.Quaternion2RPY q
  let attitudeActual : AttitudeActualData :=
    { s.attitudeActual with q1 := q.q0, q2 := q.q1, q3 := q.q2, q4 := q.q3,
                            Roll := rpy.x, Pitch := rpy.y, Yaw := rpy.z }
  { s with attitudeActual := attitudeActual }

/-- Lines 561-565: the alarm of a steady-state cycle. -/
def compAlarm (s : AttState) : AttState :=
  if s.variance_error then { s with alarm := AlarmSeverity.Critical }
  else { s with alarm := AlarmSeverity.Clear }

/-- Lines 364-568: a steady-state cycle (it returns 0). -/
def compSteady (k : Consts) (x : Ext) (i : Readings) (s : AttState) : AttState :=
  let s := compGains k i s
  let s := compUpdate k x i s
  let s := compFlush k x i s
  compAlarm s

/-- `updateAttitudeComplementary(first_run)`: return value and new state. -/
def updateAttitudeComplementary (k : Consts) (x : Ext) (first_run : Bool) (i : CycleIn)
    (s : AttState) : Int × AttState :=
  if sensorTimeout i then
    (-1, { s with alarm := AlarmSeverity.Warning })
  else if first_run then
    if k.PIOS_INCLUDE_HMC5883 && !i.magReceived then (-1, s)
    else (0, compFirstRun k x i.toReadings s)
  else
    (0, compSteady k x i.toReadings s)

/-! ## Task loop (attitude.c 250-281) and the module as a transition system -/

/-- The `switch (running_algorithm)` of the task loop (261-274), starting from
`ret_val = -1`. -/
def runAlgorithm (k : Consts) (x : Ext) (algorithm : Nat) (first_run : Bool) (i : CycleIn)
    (s : AttState) : Int × AttState :=
  if algorithm = k.REVOSETTINGS_FUSIONALGORITHM_COMPLEMENTARY then
    updateAttitudeComplementary k x first_run i s
  else if algorithm = k.REVOSETTINGS_FUSIONALGORITHM_INSOUTDOOR then
    updateAttitudeINSGPS k x first_run true i s
  else if algorithm = k.REVOSETTINGS_FUSIONALGORITHM_INSINDOOR then
    updateAttitudeINSGPS k x first_run false i s
  else
    (-1, { s with alarm := AlarmSeverity.Critical })

/-- Lines 276-278: a non-zero return value requests re-initialisation. -/
def taskFinish (r : Int × AttState) : AttState :=
  if r.1 != 0 then { r.2 with initialization_required := true } else r.2

/-- One iteration of the `while (1)` loop of `AttitudeTask`. -/
def AttitudeTask (k : Consts) (x : Ext) (i : CycleIn) (s : AttState) : AttState :=
  let first_run := s.initialization_required
  let s := if s.initialization_required then { s with initialization_required := false } else s
  taskFinish (runAlgorithm k x s.running_algorithm first_run i s)

/-- A step of the module: one task-loop iteration, or one settings callback.  Callbacks
are taken between task-loop iterations. -/
inductive Step where
  | cycle (i : CycleIn)
  | callback (ev : Option UAVObjEvent) (o : Objects)

/-- The effect of one step. -/
def step (k : Consts) (x : Ext) (s : AttState) : Step → AttState
  | Step.cycle i => AttitudeTask k x i s
  | Step.callback ev o => settingsUpdatedCb k x ev o s

/-- The effect of a sequence of steps. -/
def run (k : Consts) (x : Ext) (s : AttState) (steps : List Step) : AttState :=
  steps.foldl (step k x) s

/-! ## The alarm rule as the specification words it -/

/-- The most severe element of a list of severities, `Clear` for the empty list. -/
def mostSevere (l : List AlarmSeverity) : AlarmSeverity :=
  l.foldl (fun a b => if a.rank < b.rank then b else a) AlarmSeverity.Clear

/-- The severities of the conditions that apply in an INS cycle: filter not yet
initialised (Error), value error (Critical), variance error (Critical), outdoor mode with
fewer than 7 satellites (Error). -/
def applicableSeverities (notInited valueError varianceError fewSatellites : Bool) :
    List AlarmSeverity :=
  (if notInited then [AlarmSeverity.Error] else []) ++
  (if valueError then [AlarmSeverity.Critical] else []) ++
  (if varianceError then [AlarmSeverity.Critical] else []) ++
  (if fewSatellites then [AlarmSeverity.Error] else [])

/-! ## Proof devices -/

/-- The state with the per-sensor flags and `value_error` masked out: two states with the
same `flagsMasked` differ at most in those six variables. -/
def flagsMasked (s : AttState) : AttState :=
  { s with mag_updated := false, baro_updated := false, airspeed_updated := false,
           gps_updated := false, gps_vel_updated := false, value_error := false }

/-- The state of `updateAttitudeINSGPS` at line 779, for a cycle that is not a first run
and has valid inertial data, from the state after lines 626-632. -/
def insPrepared (k : Consts) (outdoor_mode : Bool) (i : Readings) (s : AttState) : AttState :=
  let s := insPoll outdoor_mode i s
  let s := { s with value_error := false }
  let s := insGate k i s
  let s := { s with alarm := insAlarm outdoor_mode i s }
  { s with ins_last_time := i.GetRaw }

/-- Lines 780-1032: staged initialisation, waiting, or a Running cycle. -/
def insDispatch (k : Consts) (x : Ext) (outdoor_mode : Bool) (i : Readings) (gyrosBias : Vec3)
    (s : AttState) : AttState :=
  if insStagedGuard outdoor_mode s then insStaged k x outdoor_mode i gyrosBias (insDT i) s
  else if !s.inited then s
  else insRunning k x outdoor_mode i gyrosBias (insDT i) s

/-- Recogniser of `INSCorrection` calls. -/
def INSCall.isCorrection : INSCall → Bool
  | INSCall.INSCorrection _ _ _ _ _ => true
  | _ => false

/-- The state with the filter outputs masked out (the objects a staged or Running cycle
publishes, `baroOffset` and the INS library): two states with the same `outputsMasked`
agree on every other variable. -/
def outputsMasked (s : AttState) : AttState :=
  { s with
    baroOffset := f0
    attitudeActual := ⟨f0, f0, f0, f0, f0, f0, f0⟩
    positionActual := ⟨f0, f0, f0⟩
    velocityActual := ⟨f0, f0, f0⟩
    gyrosBias := ⟨f0, f0, f0⟩
    airspeedActual := ⟨f0, f0⟩
    ekfStateVariance := []
    nav := ⟨⟨f0, f0, f0⟩, ⟨f0, f0, f0⟩, ⟨f0, f0, f0, f0⟩, ⟨f0, f0, f0⟩, []⟩
    trace := [] }

/-- As `outputsMasked`, with `init_stage` and `inited` masked as well. -/
def stageMasked (s : AttState) : AttState :=
  { outputsMasked s with init_stage := 0, inited := false }

/-- The supervisor variables and the cached settings an estimator cycle never writes. -/
structure Supervisor where
  variance_error : Bool
  running_algorithm : Nat
  flightStatus : FlightStatusData
  homeLocation : HomeLocationData
  revoCalibration : RevoCalibrationData
  ekfConfiguration : EKFConfigurationData
  revoSettings : RevoSettingsData
  T : Vec3
  deriving DecidableEq, Repr

/-- The supervisor part of a state. -/
def supervisorOf (s : AttState) : Supervisor :=
  { variance_error := s.variance_error
    running_algorithm := s.running_algorithm
    flightStatus := s.flightStatus
    homeLocation := s.homeLocation
    revoCalibration := s.revoCalibration
    ekfConfiguration := s.ekfConfiguration
    revoSettings := s.revoSettings
    T := s.T }

/-- The state of a Running cycle after lines 896-919: state prediction, publication of
the attitude, covariance prediction. -/
def insPredicted (k : Consts) (x : Ext) (i : Readings) (gyrosBias : Vec3) (dT : Flt)
    (s : AttState) : AttState :=
  insCall x (INSCall.INSCovariancePrediction dT)
    (publishNavAttitude x
      (insCall x (INSCall.INSStatePrediction (insGyros k x i gyrosBias s) i.accelsData dT) s))

/-- The calls of lines 1004-1005: one `INSCorrection` when the sensor mask is not empty. -/
def correctionCalls (i : Readings) (m : Measurement) : List INSCall :=
  if m.sensors != 0
  then [INSCall.INSCorrection i.magData m.NED m.vel (i.baroAltitude + m.st.baroOffset) m.sensors]
  else []

/-- The three variables written by the re-initialisation block of the callback. -/
def reinitVars (s : AttState) : Bool × Bool × Nat :=
  (s.variance_error, s.initialization_required, s.running_algorithm)

/-- Along a run, every callback that enters the re-initialisation block does so with the
cached flight status ARMED and no initialisation pending. -/
def deferralHolds (k : Consts) (x : Ext) : AttState → List Step → Bool
  | _, [] => true
  | s, Step.cycle i :: rest => deferralHolds k x (step k x s (Step.cycle i)) rest
  | s, Step.callback ev o :: rest =>
    (!cbReinitGuard ev s ||
      ((cbRefresh ev o s).flightStatus.Armed == k.FLIGHTSTATUS_ARMED_ARMED &&
        !s.initialization_required)) &&
    deferralHolds k x (step k x s (Step.callback ev o)) rest

/-! ## Sequences of INS cycles -/

/-- A cycle of `updateAttitudeINSGPS` that is not a first run: the new state. -/
def insCycle (k : Consts) (x : Ext) (outdoor_mode : Bool) (s : AttState) (i : CycleIn) :
    AttState :=
  (updateAttitudeINSGPS k x false outdoor_mode i s).2

/-- A sequence of cycles of `updateAttitudeINSGPS`, none of them a first run. -/
def insCycles (k : Consts) (x : Ext) (outdoor_mode : Bool) (s : AttState)
    (cycles : List CycleIn) : AttState :=
  cycles.foldl (insCycle k x outdoor_mode) s

/-- The sensor part of the guard of line 780: magnetometer and barometer seen, a GPS fix
seen if in outdoor mode, no variance error. -/
def stagedFlags (outdoor_mode : Bool) (s : AttState) : Bool :=
  s.mag_updated && s.baro_updated && (s.gps_updated || !outdoor_mode) && !s.variance_error

/-- A qualifying cycle: it reaches the sensor gate (no timeout return, valid inertial
sample) and after gating `stagedFlags` holds. -/
def qualifying (k : Consts) (outdoor_mode : Bool) (i : CycleIn) (s : AttState) : Bool :=
  !sensorTimeout i && !insInertialInvalid i.toReadings &&
    stagedFlags outdoor_mode (insPrepared k outdoor_mode i.toReadings (insClearIfInited s))

/-- The number of qualifying cycles along a sequence of cycles. -/
def qualCount (k : Consts) (x : Ext) (outdoor_mode : Bool) : AttState → List CycleIn → Nat
  | _, [] => 0
  | s, i :: rest =>
    (if qualifying k outdoor_mode i s then 1 else 0) +
      qualCount k x outdoor_mode (insCycle k x outdoor_mode s i) rest

/-- The calls of stage 0 (lines 786-861) for a configuration, an initial position and an
initial attitude. -/
def seedCalls (k : Consts) (c : EKFConfigurationData) (pos : Vec3) (q : Quat) : List INSCall :=
  [INSCall.INSGPSInit,
   INSCall.INSSetMagVar ⟨idx c.R k.EKFCONFIGURATION_R_MAGX, idx c.R k.EKFCONFIGURATION_R_MAGY,
     idx c.R k.EKFCONFIGURATION_R_MAGZ⟩,
   INSCall.INSSetAccelVar ⟨idx c.Q k.EKFCONFIGURATION_Q_ACCELX,
     idx c.Q k.EKFCONFIGURATION_Q_ACCELY, idx c.Q k.EKFCONFIGURATION_Q_ACCELZ⟩,
   INSCall.INSSetGyroVar ⟨idx c.Q k.EKFCONFIGURATION_Q_GYROX, idx c.Q k.EKFCONFIGURATION_Q_GYROY,
     idx c.Q k.EKFCONFIGURATION_Q_GYROZ⟩,
   INSCall.INSSetGyroBiasVar ⟨idx c.Q k.EKFCONFIGURATION_Q_GYRODRIFTX,
     idx c.Q k.EKFCONFIGURATION_Q_GYRODRIFTY, idx c.Q k.EKFCONFIGURATION_Q_GYRODRIFTZ⟩,
   INSCall.INSSetBaroVar (idx c.R k.EKFCONFIGURATION_R_BAROZ),
   INSCall.INSSetGyroBias ⟨f0, f0, f0⟩,
   INSCall.INSSetState pos zeros q zeros zeros,
   INSCall.INSResetP c.P]

/-! ## Sample data

Concrete constants, library stand-ins and states at which the definitions are evaluated. -/

/-- Sample values for the header constants: the enumerations in declaration order, the
`EKFConfiguration` element indices in declaration order, and the sensor masks of `insgps.h`. -/
def sampleConsts : Consts :=
  { FLIGHTSTATUS_ARMED_ARMING := 1
    FLIGHTSTATUS_ARMED_ARMED := 2
    REVOSETTINGS_FUSIONALGORITHM_COMPLEMENTARY := 0
    REVOSETTINGS_FUSIONALGORITHM_INSOUTDOOR := 1
    REVOSETTINGS_FUSIONALGORITHM_INSINDOOR := 2
    HOMELOCATION_SET_TRUE := 1
    AIRSPEEDSENSOR_SENSORCONNECTED_TRUE := 1
    REVOCALIBRATION_BIASCORRECTEDRAW_TRUE := 1
    ATTITUDESETTINGS_ZERODURINGARMING_TRUE := 1
    EKFCONFIGURATION_R_GPSPOSNORTH := 0
    EKFCONFIGURATION_R_GPSPOSEAST := 1
    EKFCONFIGURATION_R_GPSPOSDOWN := 2
    EKFCONFIGURATION_R_GPSVELNORTH := 3
    EKFCONFIGURATION_R_GPSVELEAST := 4
    EKFCONFIGURATION_R_GPSVELDOWN := 5
    EKFCONFIGURATION_R_MAGX := 6
    EKFCONFIGURATION_R_MAGY := 7
    EKFCONFIGURATION_R_MAGZ := 8
    EKFCONFIGURATION_R_BAROZ := 9
    EKFCONFIGURATION_Q_ACCELX := 0
    EKFCONFIGURATION_Q_ACCELY := 1
    EKFCONFIGURATION_Q_ACCELZ := 2
    EKFCONFIGURATION_Q_GYROX := 3
    EKFCONFIGURATION_Q_GYROY := 4
    EKFCONFIGURATION_Q_GYROZ := 5
    EKFCONFIGURATION_Q_GYRODRIFTX := 6
    EKFCONFIGURATION_Q_GYRODRIFTY := 7
    EKFCONFIGURATION_Q_GYRODRIFTZ := 8
    EKFCONFIGURATION_FAKER_FAKEGPSPOSINDOOR := 0
    EKFCONFIGURATION_FAKER_FAKEGPSVELINDOOR := 1
    EKFCONFIGURATION_FAKER_FAKEGPSVELAIRSPEED := 2
    POS_SENSORS := 0x007
    HORIZ_POS_SENSORS := 0x003
    HORIZ_SENSORS := 0x018
    VERT_SENSORS := 0x020
    MAG_SENSORS := 0x1C0
    BARO_SENSOR := 0x200
    PIOS_INCLUDE_HMC5883 := true }

/-- A stand-in for the library functions, used only to evaluate the definitions at
sample inputs: angles are zero, the INS library leaves `Nav` as it is. -/
def sampleExt : Ext :=
  { atan2f := fun _ _ => f0
    cosf := fun _ => f1
    sinf := fun _ => f0
    sqrtf := fun a => a
    DEG2RAD := fun a => a
    RAD2DEG := fun a => a
    RPY2Quaternion := fun _ => ⟨f1, f0, f0, f0⟩
    Quaternion2RPY := fun _ => ⟨f0, f0, f0⟩
    Quaternion2R := fun _ => ⟨⟨f1, f0, f0⟩, ⟨f0, f1, f0⟩, ⟨f0, f0, f1⟩⟩
    rot_mult := fun _ v => v
    CrossProduct := fun _ _ => ⟨f0, f0, f0⟩
    ins := fun _ n => n
    INSGetP := fun n => n.hidden }

/-- A valid noise configuration: every magnitude is 1. -/
def sampleConfig : EKFConfigurationData :=
  { P := List.replicate 13 f1, Q := List.replicate 9 f1, R := List.replicate 10 f1,
    FakeR := List.replicate 3 f1 }

/-- A noise configuration with one negative magnitude (`Q[0] = -1`). -/
def negativeConfig : EKFConfigurationData :=
  { sampleConfig with Q := Flt.fin (-1) :: List.replicate 8 f1 }

/-- Home location at latitude 0, longitude 0, altitude 0, marked set, with a reference
field. -/
def sampleHome : HomeLocationData :=
  { Latitude := 0, Longitude := 0, Altitude := f0,
    Be := ⟨Flt.fin 400, f0, Flt.fin 800⟩, Set := 1 }

/-- The module variables as initialised at start-up (attitude.c 113-115, 288-289, 574,
594-605); variables without initialiser are zero. -/
def initState : AttState :=
  { attitudeSettings := ⟨f0, f0, f0, 0⟩
    homeLocation := ⟨0, 0, f0, ⟨f0, f0, f0⟩, 0⟩
    revoCalibration := ⟨0⟩
    ekfConfiguration := ⟨[], [], [], []⟩
    revoSettings := ⟨0⟩
    flightStatus := ⟨0⟩
    variance_error := true
    initialization_required := true
    running_algorithm := 0xffffffff
    accel_mag := f0
    qmag := f0
    mag_err := ⟨f0, f0, f0⟩
    magKi := Flt.fin (1 / 1000000)
    magKp := Flt.fin (1 / 100)
    T := ⟨f0, f0, f0⟩
    init_stage := 0
    timeval := 0
    init := 0
    mag_updated := false
    baro_updated := false
    airspeed_updated := false
    gps_updated := false
    gps_vel_updated := false
    value_error := false
    baroOffset := f0
    ins_last_time := 0
    inited := false
    attitudeActual := ⟨f1, f0, f0, f0, f0, f0, f0⟩
    positionActual := ⟨f0, f0, f0⟩
    velocityActual := ⟨f0, f0, f0⟩
    gyrosBias := ⟨f0, f0, f0⟩
    airspeedActual := ⟨f0, f0⟩
    ekfStateVariance := []
    alarm := AlarmSeverity.Clear
    nav := ⟨⟨f0, f0, f0⟩, ⟨f0, f0, f0⟩, ⟨f1, f0, f0, f0⟩, ⟨f0, f0, f0⟩, []⟩
    trace := [] }

/-- A state in which the outdoor INS is Running with a valid configuration, armed. -/
def runningState : AttState :=
  { initState with
    homeLocation := sampleHome
    ekfConfiguration := sampleConfig
    revoSettings := ⟨1⟩
    flightStatus := ⟨2⟩
    variance_error := false
    initialization_required := false
    running_algorithm := 1
    T := ⟨Flt.fin 6378137, Flt.fin 6378137, Flt.fin (-1)⟩
    init_stage := 11
    inited := true }

/-- A GPS fix with 8 satellites and PDOP 1 at latitude 0.0001 degrees. -/
def sampleGps : GPSPositionData :=
  { Latitude := 1000, Longitude := 0, Altitude := f0, GeoidSeparation := f0,
    Heading := f0, Groundspeed := f0, PDOP := f1, Satellites := 8 }

/-- A cycle in which every queue delivered a sample and all values are valid. -/
def sampleIn : CycleIn :=
  { gyroReceived := true
    accelReceived := true
    AttitudeActualReadOnly := false
    magReceived := true
    baroReceived := true
    airspeedReceived := true
    gpsReceived := true
    gpsVelReceived := true
    GPSPositionReadOnly := false
    GPSVelocityReadOnly := false
    gyrosData := ⟨f0, f0, f0⟩
    accelsData := ⟨f0, f0, Flt.fin (-981 / 100)⟩
    magData := ⟨Flt.fin 400, f0, Flt.fin 800⟩
    baroAltitude := f0
    airspeedData := ⟨Flt.fin 10, 1⟩
    gpsData := sampleGps
    gpsVelData := ⟨f1, f0, f0⟩
    DiffuS := 2000
    GetRaw := 0
    gpsPositionInit := sampleGps
    magDataInit := ⟨Flt.fin 400, f0, Flt.fin 800⟩
    tickCountA := 10000
    tickCountB := 10000
    attitudeSettingsObj := ⟨Flt.fin (5 / 100), Flt.fin (1 / 10000), f0, 0⟩ }

/-- The sample cycle with a satellite count of 3. -/
def threeSatIn : CycleIn :=
  { sampleIn with gpsData := { sampleGps with Satellites := 3 } }

/-- The sample settings objects with the complementary filter selected. -/
def complementaryObjects : Objects :=
  { flightStatus := ⟨2⟩
    revoCalibration := ⟨0⟩
    ekfConfiguration := sampleConfig
    revoSettings := ⟨0⟩
    homeLocation := sampleHome
    attitudeSettings := ⟨Flt.fin (5 / 100), Flt.fin (1 / 10000), f0, 0⟩ }

/-- The sample settings objects after a disarm (`FlightStatus.Armed` = DISARMED). -/
def disarmedObjects : Objects :=
  { complementaryObjects with flightStatus := ⟨0⟩ }

/-- The Running state with a re-initialisation deferred: armed, the complementary filter
selected in the settings, `variance_error` set (the state left by a configuration update
in `runningState`). -/
def deferredState : AttState :=
  { runningState with revoSettings := ⟨0⟩, variance_error := true }

/-- The sample cycle with the gyro sample missing (a timeout, not in simulation mode). -/
def timeoutIn : CycleIn :=
  { sampleIn with gyroReceived := false }

/-- The deferred state after a task cycle that timed out: a re-initialisation is pending. -/
def pendingState : AttState :=
  { deferredState with alarm := AlarmSeverity.Warning, initialization_required := true }

/-- A state in which the outdoor INS is selected but not yet initialised, with
`variance_error` set. -/
def stagingErrorState : AttState :=
  { runningState with variance_error := true, inited := false, init_stage := 0 }

/-- The sample cycle with a NaN gyro component. -/
def nanGyroIn : CycleIn :=
  { sampleIn with gyrosData := ⟨Flt.nan, f0, f0⟩ }

/-- The timeout cycle in simulation mode (`AttitudeActual` read-only). -/
def simulationTimeoutIn : CycleIn :=
  { timeoutIn with AttitudeActualReadOnly := true }

/-- The sample settings objects with the negative noise magnitude. -/
def negativeObjects : Objects :=
  { complementaryObjects with ekfConfiguration := negativeConfig }

/-- The settings objects holding the valid sample configuration, vehicle armed. -/
def sampleObjects : Objects :=
  { flightStatus := ⟨2⟩
    revoCalibration := ⟨0⟩
    ekfConfiguration := sampleConfig
    revoSettings := ⟨1⟩
    homeLocation := sampleHome
    attitudeSettings := ⟨Flt.fin (5 / 100), Flt.fin (1 / 10000), f0, 0⟩ }

/-! ## Devices for call sequences and the quaternion step -/

/-- Recogniser of the calls that set a parameter of the filter ahead of a correction
(`INSSetMagNorth`, `INSSetPosVelVar`). -/
def INSCall.isSetter : INSCall → Bool
  | INSCall.INSSetMagNorth _ => true
  | INSCall.INSSetPosVelVar _ _ => true
  | _ => false

/-- A sequence of cycles of `updateAttitudeINSGPS`, each with its `first_run` argument. -/
def insSequence (k : Consts) (x : Ext) (outdoor_mode : Bool) (s : AttState)
    (cycles : List (Bool × CycleIn)) : AttState :=
  cycles.foldl (fun t c => (updateAttitudeINSGPS k x c.1 outdoor_mode c.2 t).2) s

/-- The calls a cycle of `updateAttitudeINSGPS` may make on a filter that is not
initialised: none, the stage-0 calls, or one state prediction with the cycle time. -/
def stagedCalls (k : Consts) (i : Readings) (s : AttState) (cs : List INSCall) : Prop :=
  cs = [] ∨ (∃ pos q, cs = seedCalls k s.ekfConfiguration pos q) ∨
    ∃ gyros, cs = [INSCall.INSStatePrediction gyros i.accelsData (insDT i)]

/-- The calls a cycle of `updateAttitudeINSGPS` may make on an initialised filter: none, or
the two predictions with the cycle time, parameter settings, and the correction calls of
some measurement set. -/
def runningCalls (i : Readings) (cs : List INSCall) : Prop :=
  cs = [] ∨ ∃ gyros ps m, (∀ c ∈ ps, INSCall.isSetter c = true) ∧
    cs = INSCall.INSStatePrediction gyros i.accelsData (insDT i) ::
      INSCall.INSCovariancePrediction (insDT i) :: (ps ++ correctionCalls i m)

/-- The quaternion stored in an attitude object. -/
def quatOf (a : AttitudeActualData) : Quat := ⟨a.q1, a.q2, a.q3, a.q4⟩

/-- The elapsed time of a complementary cycle (line 386). -/
def compDT (i : Readings) : Flt := Flt.ofInt i.DiffuS / Flt.fin 1000000

/-- The gyro bias a steady-state cycle stores (line 453), from the state after the gain
schedule. -/
def compNewBias (x : Ext) (i : Readings) (s : AttState) : Vec3 :=
  compBias s (compAccelErr x (quatOf s.attitudeActual) i.accelsData).2
    (compMagErr x i (quatOf s.attitudeActual) s)

/-- The rate handed to the kinematic equation (after lines 455-465), from the state after
the gain schedule. -/
def compRate (k : Consts) (x : Ext) (i : Readings) (s : AttState) : Vec3 :=
  compRateCorrect s (compUnbias k s i.gyrosData (compNewBias x i s))
    (compAccelErr x (quatOf s.attitudeActual) i.accelsData).2
    (compMagErr x i (quatOf s.attitudeActual) s) (compDT i)

/-- The quaternion after the time step of line 479, before sign normalisation, from the
state after the gain schedule. -/
def compIntegrated (k : Consts) (x : Ext) (i : Readings) (s : AttState) : Quat :=
  compIntegrate x (quatOf s.attitudeActual) (compRate k x i s) (compDT i)

/-! ## Library functions in closed form, for sample evaluations -/

/-- A rational stand-in for pi (15 decimal places). -/
def piApprox : ℚ := 3141592653589793 / 1000000000000000

/-- The library functions in closed form where they are algebraic (`CrossProduct`,
`rot_mult` and `Quaternion2R` of `CoordinateConversions`; `DEG2RAD` and `RAD2DEG` as
multiplications, with `piApprox`), and stand-ins for the others that are exact at the
sample arguments: `sqrtf` is exact at 0, 1, 25/16, 962361/10000 and 250000, `cosf` and
`sinf` are their expansions at 0. -/
def algebraExt : Ext :=
  { sampleExt with
    cosf := fun a => f1 - a * a / Flt.fin 2
    sinf := fun a => a
    sqrtf := fun a =>
      if a = Flt.fin 250000 then Flt.fin 500
      else if a = Flt.fin (962361 / 10000) then Flt.fin (981 / 100)
      else if a = Flt.fin (25 / 16) then Flt.fin (5 / 4)
      else a
    DEG2RAD := fun a => a * Flt.fin (piApprox / 180)
    RAD2DEG := fun a => a * Flt.fin (180 / piApprox)
    Quaternion2R := fun q =>
      ⟨⟨q.q0 * q.q0 + q.q1 * q.q1 - q.q2 * q.q2 - q.q3 * q.q3,
        Flt.fin 2 * (q.q1 * q.q2 + q.q0 * q.q3),
        Flt.fin 2 * (q.q1 * q.q3 - q.q0 * q.q2)⟩,
       ⟨Flt.fin 2 * (q.q1 * q.q2 - q.q0 * q.q3),
        q.q0 * q.q0 - q.q1 * q.q1 + q.q2 * q.q2 - q.q3 * q.q3,
        Flt.fin 2 * (q.q2 * q.q3 + q.q0 * q.q1)⟩,
       ⟨Flt.fin 2 * (q.q1 * q.q3 + q.q0 * q.q2),
        Flt.fin 2 * (q.q2 * q.q3 - q.q0 * q.q1),
        q.q0 * q.q0 - q.q1 * q.q1 - q.q2 * q.q2 + q.q3 * q.q3⟩⟩
    rot_mult := fun R v =>
      ⟨R.r0.x * v.x + R.r0.y * v.y + R.r0.z * v.z,
       R.r1.x * v.x + R.r1.y * v.y + R.r1.z * v.z,
       R.r2.x * v.x + R.r2.y * v.y + R.r2.z * v.z⟩
    CrossProduct := fun a b =>
      ⟨a.y * b.z - a.z * b.y, a.z * b.x - a.x * b.z, a.x * b.y - a.y * b.x⟩ }

/-- The Running sample state with the vehicle disarmed. -/
def disarmedState : AttState :=
  { runningState with flightStatus := ⟨0⟩ }

/-- The sample settings objects, disarmed, with the home location moved to latitude
0.0001 degrees. -/
def movedHomeObjects : Objects :=
  { disarmedObjects with
    revoSettings := ⟨1⟩
    homeLocation := { sampleHome with Latitude := 1000 } }

/-! ## The heading error as the specification words it, and sample cycles of the
complementary filter -/

/-- The heading error of a cycle as the specification words it: with a magnetometer
sample available, the cross product of the normalised reading with the normalised
reference field rotated into the body frame; otherwise zero. -/
def headingErrorSpec (x : Ext) (q : Quat) (mag Be : Vec3) (available : Bool) : Vec3 :=
  if available then
    let brot := x.rot_mult (x.Quaternion2R q) Be
    let mag_len := x.sqrtf (mag.x * mag.x + mag.y * mag.y + mag.z * mag.z)
    let bmag := x.sqrtf (brot.x * brot.x + brot.y * brot.y + brot.z * brot.z)
    x.CrossProduct ⟨mag.x / mag_len, mag.y / mag_len, mag.z / mag_len⟩
      ⟨brot.x / bmag, brot.y / bmag, brot.z / bmag⟩
  else ⟨f0, f0, f0⟩

/-- Lines 462-502: rate correction, time step of the kinematic equation, sign
normalisation and renormalisation; the quaternion they produce. -/
def compQuatStep (x : Ext) (s : AttState) (q : Quat) (gyrosData accel_err mag_err : Vec3)
    (dT : Flt) : Quat :=
  (compNormalize x (compIntegrate x q (compRateCorrect s gyrosData accel_err mag_err dT) dT)).2

/-- A state of the complementary filter in steady state: level attitude (identity
quaternion), settled gains, reference field (400, 0, 300). -/
def levelState : AttState :=
  { runningState with
    running_algorithm := 0
    revoSettings := ⟨0⟩
    init := 1
    attitudeSettings := ⟨Flt.fin (5 / 100), Flt.fin (1 / 10000), f0, 0⟩
    attitudeActual := ⟨f1, f0, f0, f0, f0, f0, f0⟩
    homeLocation := { sampleHome with Be := ⟨Flt.fin 400, f0, Flt.fin 300⟩ } }

/-- The sample cycle with the magnetometer reading (300, 0, 400), a new magnetometer
sample being queued. -/
def freshMagIn : CycleIn :=
  { sampleIn with magData := ⟨Flt.fin 300, f0, Flt.fin 400⟩ }

/-- The same cycle with no new magnetometer sample queued: the reading is the stored one. -/
def staleMagIn : CycleIn :=
  { freshMagIn with magReceived := false }

/-! ## The parts of the renormalisation -/

/-- Lines 481-486: the quaternion with non-negative scalar component. -/
def signNormalize (q : Quat) : Quat :=
  if Flt.lt q.q0 f0 then ⟨-q.q0, -q.q1, -q.q2, -q.q3⟩ else q

/-- Line 489: the norm of a quaternion as the code computes it. -/
def quatNorm (x : Ext) (q : Quat) : Flt :=
  x.sqrtf (q.q0 * q.q0 + q.q1 * q.q1 + q.q2 * q.q2 + q.q3 * q.q3)

/-- The guard of line 497 on the computed norm. -/
def degenerateNorm (n : Flt) : Bool :=
  Flt.lt (Flt.fabsf n) (Flt.fin (1 / 1000)) || n.isnan

/-- The sample cycle half a second after the previous one, turning about the roll axis
at 540 / pi degrees per second (three quarters of a radian over the time step). -/
def spinIn : CycleIn :=
  { sampleIn with gyrosData := ⟨Flt.fin (540 / piApprox), f0, f0⟩, DiffuS := 500000 }

/-- The steady state of the complementary filter with the vehicle rolled by half a turn:
the attitude quaternion is (0, 1, 0, 0). -/
def rolledState : AttState :=
  { levelState with attitudeActual := ⟨f0, f1, f0, f0, f0, f0, f0⟩ }

/-- The sample cycle with no time elapsed since the previous one. -/
def zeroTimeIn : CycleIn :=
  { sampleIn with DiffuS := 0 }

/-- The level steady state with a stored gyro bias of (1, 2, 3) degrees per second. -/
def biasedState : AttState :=
  { levelState with gyrosBias := ⟨Flt.fin 1, Flt.fin 2, Flt.fin 3⟩ }

/-- The same state with the raw gyro values marked as bias corrected. -/
def correctedRawState : AttState :=
  { biasedState with revoCalibration := ⟨1⟩ }

/-! ## Devices and sample data for the gain schedule -/

/-- The gains a cycle of the complementary filter works with, and the `init` flag. -/
def gainVars (s : AttState) : AttitudeSettingsData × Flt × Nat :=
  (s.attitudeSettings, s.magKp, s.init)

/-- The condition of line 364: `init` is 0 and the tick count lies in the settling
window (the tick count is read twice). -/
def settlingWindow (i : Readings) (s : AttState) : Bool :=
  (s.init == 0 && decide (i.tickCountA < 7000)) && decide (i.tickCountB > 1000)

/-- The condition of line 370: zeroing during arming is enabled and the vehicle is arming. -/
def armingZero (k : Consts) (s : AttState) : Bool :=
  s.attitudeSettings.ZeroDuringArming == k.ATTITUDESETTINGS_ZERODURINGARMING_TRUE &&
    s.flightStatus.Armed == k.FLIGHTSTATUS_ARMED_ARMING

/-- The level state right after a first run of the complementary filter: `init` is 0. -/
def firstRunDoneState : AttState :=
  { levelState with init := 0 }

/-- The sample cycle half a second after power-on (tick count 500). -/
def earlyIn : CycleIn :=
  { sampleIn with tickCountA := 500, tickCountB := 500 }

/-- The sample cycle two seconds after power-on (tick count 2000). -/
def windowIn : CycleIn :=
  { sampleIn with tickCountA := 2000, tickCountB := 2000 }

/-! ## Devices for the sensor gate -/

/-- The outdoor INS in staged initialisation, after the seeding cycle: not initialised,
stage counter 1. -/
def predictOnlyState : AttState :=
  { runningState with inited := false, init_stage := 1 }

/-! ## Devices and sample data for the noise configuration -/

/-- The settings objects with the fake-GPS magnitudes of the configuration replaced. -/
def withFakeR (o : Objects) (F : List Flt) : Objects :=
  { o with ekfConfiguration := { o.ekfConfiguration with FakeR := F } }

/-- The valid sample configuration with invalid fake-GPS magnitudes: -1, NaN and 0. -/
def fakeInvalidConfig : EKFConfigurationData :=
  { sampleConfig with FakeR := [Flt.fin (-1), Flt.nan, f0] }

/-- The sample settings objects, disarmed, indoor INS selected, holding
`fakeInvalidConfig`. -/
def fakeInvalidObjects : Objects :=
  { disarmedObjects with ekfConfiguration := fakeInvalidConfig, revoSettings := ⟨2⟩ }

/-! ## Devices for the indoor pseudo-measurement -/

/-- The three position variances of the indoor pseudo-measurement (lines 954-956). -/
def fakePosVar (k : Consts) (c : EKFConfigurationData) : Vec3 :=
  ⟨idx c.FakeR k.EKFCONFIGURATION_FAKER_FAKEGPSPOSINDOOR,
   idx c.FakeR k.EKFCONFIGURATION_FAKER_FAKEGPSPOSINDOOR,
   idx c.FakeR k.EKFCONFIGURATION_FAKER_FAKEGPSPOSINDOOR⟩

/-- The three velocity variances of the indoor pseudo-measurement (lines 957-959). -/
def fakeVelVar (k : Consts) (c : EKFConfigurationData) : Vec3 :=
  ⟨idx c.FakeR k.EKFCONFIGURATION_FAKER_FAKEGPSVELINDOOR,
   idx c.FakeR k.EKFCONFIGURATION_FAKER_FAKEGPSVELINDOOR,
   idx c.FakeR k.EKFCONFIGURATION_FAKER_FAKEGPSVELINDOOR⟩

/-- The three velocity variances used when airspeed is fed to the filter (lines 988-990). -/
def fakeAirVar (k : Consts) (c : EKFConfigurationData) : Vec3 :=
  ⟨idx c.FakeR k.EKFCONFIGURATION_FAKER_FAKEGPSVELAIRSPEED,
   idx c.FakeR k.EKFCONFIGURATION_FAKER_FAKEGPSVELAIRSPEED,
   idx c.FakeR k.EKFCONFIGURATION_FAKER_FAKEGPSVELAIRSPEED⟩

/-- The sensor mask `n` contains every bit of `m`. -/
def hasBits (n m : Nat) : Prop := n &&& m = m

/-- Both GPS flags are false. -/
def gpsFlagsOff (s : AttState) : Prop :=
  s.gps_updated = false ∧ s.gps_vel_updated = false

/-- The Running sample state with the indoor INS selected. -/
def indoorState : AttState :=
  { runningState with running_algorithm := 2, revoSettings := ⟨2⟩ }

/-- The state with everything the settings callback may write masked out: two states
with the same `settingsMasked` agree on every other variable. -/
def settingsMasked (s : AttState) : AttState :=
  { s with
    flightStatus := ⟨0⟩
    revoCalibration := ⟨0⟩
    ekfConfiguration := ⟨[], [], [], []⟩
    revoSettings := ⟨0⟩
    variance_error := false
    running_algorithm := 0
    initialization_required := false
    homeLocation := ⟨0, 0, f0, ⟨f0, f0, f0⟩, 0⟩
    T := ⟨f0, f0, f0⟩
    attitudeSettings := ⟨f0, f0, f0, 0⟩ }

/-- The armed sample settings objects with every fake-GPS magnitude changed from 1 to 2. -/
def changedFakeObjects : Objects :=
  withFakeR sampleObjects [Flt.fin 2, Flt.fin 2, Flt.fin 2]

/-! ## Devices for runs with an invalid configuration -/

/-- Along a run, every callback that enters the re-initialisation block finds an invalid
value in P, Q or R. -/
def invalidHolds (k : Consts) (x : Ext) : AttState → List Step → Bool
  | _, [] => true
  | s, Step.cycle i :: rest => invalidHolds k x (step k x s (Step.cycle i)) rest
  | s, Step.callback ev o :: rest =>
    (!cbReinitGuard ev s || cbVarianceCheck o.ekfConfiguration) &&
    invalidHolds k x (step k x s (Step.callback ev o)) rest

/-- None of the three fusion algorithms has the start-up value of `running_algorithm` as
its code. -/
def knownAlgorithmsDiffer (k : Consts) (a : Nat) : Prop :=
  a ≠ k.REVOSETTINGS_FUSIONALGORITHM_COMPLEMENTARY ∧
  a ≠ k.REVOSETTINGS_FUSIONALGORITHM_INSOUTDOOR ∧
  a ≠ k.REVOSETTINGS_FUSIONALGORITHM_INSINDOOR

/-- A run from start-up with the invalid sample configuration: the forced settings update,
a task cycle, a configuration event, a task cycle. -/
def invalidRun : List Step :=
  [Step.callback none negativeObjects, Step.cycle sampleIn,
   Step.callback (some ⟨UAVObjHandle.EKFConfiguration⟩) negativeObjects, Step.cycle sampleIn]

/-- The file-scope variables of `pios_hcsr04.c` (lines 41-46), with the input-capture
polarity held in `TIM_ICInitStructure` and the two interrupt enables of the timer that the
driver switches.  The 16-bit variables are natural numbers kept below 65536, the 8-bit
ones below 256. -/
structure HCSR04 where
  CaptureState : Nat
  RiseValue : Nat
  FallValue : Nat
  CaptureValue : Nat
  CapCounter : Nat
  TimerCounter : Nat
  polarityFalling : Bool
  ccEnabled : Bool
  updateEnabled : Bool
  deriving DecidableEq, Repr

/-- What the timer presents to one run of the interrupt handler: whether the update flag
is pending, whether the capture flag is pending, the capture register and the auto-reload
register. -/
structure TimerIrq where
  update : Bool
  cc : Bool
  capture : Nat
  ARR : Nat
  deriving DecidableEq, Repr

/-- The variables at start-up: C statics are zero. -/
def hcsr04Startup : HCSR04 :=
  { CaptureState := 0, RiseValue := 0, FallValue := 0, CaptureValue := 0, CapCounter := 0,
    TimerCounter := 0, polarityFalling := false, ccEnabled := false, updateEnabled := false }

/-- Lines 79-140: `PIOS_HCSR04_Init` flushes four variables, selects the rising edge and
disables both interrupts. -/
def PIOS_HCSR04_Init (s : HCSR04) : HCSR04 :=
  { s with CaptureState := 0, RiseValue := 0, FallValue := 0, CaptureValue := 0,
           polarityFalling := false, ccEnabled := false, updateEnabled := false }

/-- Lines 155-158: `PIOS_HCSR04_Get` returns `CaptureValue`. -/
def PIOS_HCSR04_Get (s : HCSR04) : Nat :=
  s.CaptureValue

/-- Lines 164-167: `PIOS_HCSR04_Completed` returns `CapCounter`. -/
def PIOS_HCSR04_Completed (s : HCSR04) : Nat :=
  s.CapCounter

/-- Lines 171-180: `PIOS_HCSR04_Trigger` clears `CapCounter` and enables the capture
interrupt. -/
def PIOS_HCSR04_Trigger (s : HCSR04) : HCSR04 :=
  { s with CapCounter := 0, ccEnabled := true }

/-- Lines 221-225: the capture computation, in C `int` arithmetic before the store into the
16-bit `CaptureValue`. -/
def captureComputation (FallValue RiseValue : Nat) : Int :=
  if FallValue > RiseValue then (FallValue : Int) - (RiseValue : Int)
  else ((0xFFFF : Int) - (RiseValue : Int)) + (FallValue : Int)

/-- Lines 187-242: the interrupt handler.  A pending update flag adds the auto-reload value
to `TimerCounter` and returns.  Otherwise a pending capture flag stores the capture register
in `RiseValue` (state 0) or `TimerCounter` plus the capture register in `FallValue`
(state 1), and the state machine switches: from state 0 to state 1, or from state 1 to
state 0 with `CaptureValue` computed from `FallValue` and `RiseValue`. -/
def PIOS_HCSR04_IRQ_FUNC (q : TimerIrq) (s : HCSR04) : HCSR04 :=
  if q.update then
    { s with TimerCounter := (s.TimerCounter + q.ARR) % 65536 }
  else
    let s1 :=
      if q.cc then
        if s.CaptureState = 0 then
          { s with RiseValue := q.capture % 65536, TimerCounter := 0, updateEnabled := true }
        else
          { s with FallValue := (s.TimerCounter + q.capture) % 65536 }
      else s
    if s1.CaptureState = 0 then
      { s1 with CaptureState := 1, polarityFalling := true }
    else
      { s1 with
        CaptureValue := (captureComputation s1.FallValue s1.RiseValue % 65536).toNat
        CaptureState := 0
        CapCounter := (s1.CapCounter + 1) % 256
        ccEnabled := false
        updateEnabled := false
        polarityFalling := false }

/-- The driver after a list of interrupts, oldest first. -/
def hcsr04Run (s : HCSR04) : List TimerIrq → HCSR04
  | [] => s
  | q :: rest => hcsr04Run (PIOS_HCSR04_IRQ_FUNC q s) rest

/-- The pulse width as the specification words it: `FallValue - RiseValue` modulo 2^16. -/
def pulseWidthSpec (FallValue RiseValue : Nat) : Nat :=
  (((FallValue : Int) - (RiseValue : Int)) % 65536).toNat

/-- A measurement in which the counter wraps once: rising edge captured at 0xFFF0, one
update interrupt with auto-reload value 0xFFFF (the period set at line 128), falling edge
captured at 0x0010. -/
def wrappedPulse : List TimerIrq :=
  [{ update := false, cc := true, capture := 0xFFF0, ARR := 0xFFFF },
   { update := true, cc := false, capture := 0xFFF0, ARR := 0xFFFF },
   { update := false, cc := true, capture := 0x0010, ARR := 0xFFFF }]

/-- A measurement without a wrap: rising edge captured at 100, falling edge at 300. -/
def plainPulse : List TimerIrq :=
  [{ update := false, cc := true, capture := 100, ARR := 0xFFFF },
   { update := false, cc := true, capture := 300, ARR := 0xFFFF }]

/-- The driver waiting for the falling edge, the rising edge captured at `rise` and no
update interrupt seen since. -/
def awaitingFall (rise : Nat) : HCSR04 :=
  { hcsr04Startup with CaptureState := 1, RiseValue := rise, polarityFalling := true,
                       ccEnabled := true, updateEnabled := true }

/-- A capture interrupt with the capture register at `c`. -/
def captureIrq (c : Nat) : TimerIrq :=
  { update := false, cc := true, capture := c, ARR := 0xFFFF }

/-! ## The tangent-plane conversion as specified -/

/-- North, East and Down as the specification words them: the scale factors
`homeAlt + 6378137` and `cos(homeLat) * (homeAlt + 6378137)` times the latitude and the
longitude difference converted to radians, and minus the height above home. -/
def tangentPlaneSpec (x : Ext) (home : HomeLocationData) (gps : GPSPositionData) : Vec3 :=
  ⟨(home.Altitude + Flt.fin 6378137) *
     x.DEG2RAD (Flt.ofInt (gps.Latitude - home.Latitude) / Flt.fin 10000000),
   x.cosf (x.DEG2RAD (Flt.ofInt home.Latitude / Flt.fin 10000000)) *
     (home.Altitude + Flt.fin 6378137) *
     x.DEG2RAD (Flt.ofInt (gps.Longitude - home.Longitude) / Flt.fin 10000000),
   -(gps.Altitude + gps.GeoidSeparation - home.Altitude)⟩

/-- The sample settings objects with the home location on the equator at longitude
-180 degrees. -/
def westHomeObjects : Objects :=
  { sampleObjects with homeLocation := { sampleHome with Longitude := -1800000000 } }

/-- A GPS fix on the equator at longitude +180 degrees. -/
def eastGps : GPSPositionData :=
  { sampleGps with Latitude := 0, Longitude := 1800000000 }

/-! ## The renormalisation in exact arithmetic -/

/-- A quaternion with components in an ordered field `K`. -/
structure QuatOver (K : Type) where
  q0 : K
  q1 : K
  q2 : K
  q3 : K

/-- The squared norm of a quaternion over `K`. -/
def normSqOver {K : Type} [LinearOrderedField K] (q : QuatOver K) : K :=
  q.q0 * q.q0 + q.q1 * q.q1 + q.q2 * q.q2 + q.q3 * q.q3

/-- Lines 481-502 in exact arithmetic over an ordered field `K` whose square root function
is `sqrt`: sign normalisation, division by the computed norm, and the reset to the identity
when the computed norm is below 1e-3.  No value of `K` is a NaN, so the `isnan` test of
line 497 has no counterpart. -/
def renormalizeOver {K : Type} [LinearOrderedField K] (sqrt : K → K) (q : QuatOver K) :
    QuatOver K :=
  let q : QuatOver K := if q.q0 < 0 then ⟨-q.q0, -q.q1, -q.q2, -q.q3⟩ else q
  let qmag := sqrt (q.q0 * q.q0 + q.q1 * q.q1 + q.q2 * q.q2 + q.q3 * q.q3)
  let q : QuatOver K := ⟨q.q0 / qmag, q.q1 / qmag, q.q2 / qmag, q.q3 / qmag⟩
  if |qmag| < 1 / 1000 then ⟨1, 0, 0, 0⟩ else q

/-- A quaternion of rationals as a quaternion of finite floats. -/
def quatFin (q : QuatOver ℚ) : Quat :=
  ⟨Flt.fin q.q0, Flt.fin q.q1, Flt.fin q.q2, Flt.fin q.q3⟩

/-! ## Auxiliary lemmas -/

theorem or_and_eq_zero {a b c : Nat} (h1 : a &&& c = 0) (h2 : b &&& c = 0) :
    (a ||| b) &&& c = 0 := by
  rw [Nat.and_distrib_right, h1, h2]
  rfl

theorem mod_and_eq_zero {a c : Nat} (h : a &&& c = 0) : (a % 65536) &&& c = 0 := by
  have e : a % 65536 = a &&& (2 ^ 16 - 1) := (Nat.and_pow_two_sub_one_eq_mod a 16).symm
  rw [e, Nat.and_assoc, Nat.and_comm (2 ^ 16 - 1) c, ← Nat.and_assoc, h]
  exact Nat.zero_and _

theorem insCall_trace (x : Ext) (c : INSCall) (s : AttState) :
    (insCall x c s).trace = s.trace ++ [c] := rfl

theorem masked_homeLocation {s t : AttState} (h : flagsMasked s = flagsMasked t) :
    s.homeLocation = t.homeLocation := by
  have e := congrArg (fun u : AttState => u.homeLocation) h
  exact e

theorem masked_inited {s t : AttState} (h : flagsMasked s = flagsMasked t) :
    s.inited = t.inited := by
  have e := congrArg (fun u : AttState => u.inited) h
  exact e

theorem masked_variance_error {s t : AttState} (h : flagsMasked s = flagsMasked t) :
    s.variance_error = t.variance_error := by
  have e := congrArg (fun u : AttState => u.variance_error) h
  exact e

theorem masked_init_stage {s t : AttState} (h : flagsMasked s = flagsMasked t) :
    s.init_stage = t.init_stage := by
  have e := congrArg (fun u : AttState => u.init_stage) h
  exact e

theorem masked_trace {s t : AttState} (h : flagsMasked s = flagsMasked t) :
    s.trace = t.trace := by
  have e := congrArg (fun u : AttState => u.trace) h
  exact e

theorem gpsGateFails_congr (k : Consts) (i : Readings) {s t : AttState}
    (h : s.homeLocation = t.homeLocation) : gpsGateFails k i s = gpsGateFails k i t := by
  unfold gpsGateFails
  rw [h]

theorem gateMag_masked (i : Readings) (s : AttState) :
    flagsMasked (gateMag i s) = flagsMasked s := by
  unfold gateMag; split <;> rfl

theorem gateBe_masked (s : AttState) : flagsMasked (gateBe s) = flagsMasked s := by
  unfold gateBe; split <;> rfl

theorem gateBaro_masked (i : Readings) (s : AttState) :
    flagsMasked (gateBaro i s) = flagsMasked s := by
  unfold gateBaro; split <;> rfl

theorem gateAirspeed_masked (i : Readings) (s : AttState) :
    flagsMasked (gateAirspeed i s) = flagsMasked s := by
  unfold gateAirspeed; split <;> rfl

theorem gateGpsAltitude_masked (i : Readings) (s : AttState) :
    flagsMasked (gateGpsAltitude i s) = flagsMasked s := by
  unfold gateGpsAltitude; split <;> rfl

theorem gateGpsVar_masked (k : Consts) (s : AttState) :
    flagsMasked (gateGpsVar k s) = flagsMasked s := by
  unfold gateGpsVar; split <;> rfl

theorem gateGpsVel_masked (i : Readings) (s : AttState) :
    flagsMasked (gateGpsVel i s) = flagsMasked s := by
  unfold gateGpsVel; split <;> rfl

theorem gateAirspeedConnected_masked (k : Consts) (i : Readings) (s : AttState) :
    flagsMasked (gateAirspeedConnected k i s) = flagsMasked s := by
  unfold gateAirspeedConnected; split <;> rfl

theorem gateGpsMinimum_masked (k : Consts) (i : Readings) (s : AttState) :
    flagsMasked (gateGpsMinimum k i s) = flagsMasked s := by
  unfold gateGpsMinimum; split <;> rfl

theorem insValidity_masked (k : Consts) (i : Readings) (s : AttState) :
    flagsMasked (insValidity k i s) = flagsMasked s := by
  simp only [insValidity, gateAirspeedConnected_masked, gateGpsVel_masked, gateGpsVar_masked,
    gateGpsAltitude_masked, gateAirspeed_masked, gateBaro_masked, gateBe_masked, gateMag_masked]

/-- The sensor gate touches the per-sensor flags and `value_error` only. -/
theorem insGate_masked (k : Consts) (i : Readings) (s : AttState) :
    flagsMasked (insGate k i s) = flagsMasked s := by
  simp only [insGate, gateGpsMinimum_masked, insValidity_masked]

theorem insPoll_masked (outdoor_mode : Bool) (i : Readings) (s : AttState) :
    flagsMasked (insPoll outdoor_mode i s) = flagsMasked s := by
  unfold insPoll; split <;> split <;> rfl

theorem insClearIfInited_masked (s : AttState) :
    flagsMasked (insClearIfInited s) = flagsMasked s := by
  unfold insClearIfInited; split <;> rfl

/-- A failing minimum requirement leaves both GPS flags false after the gate. -/
theorem insGate_gps_fail (k : Consts) (i : Readings) (s : AttState)
    (h : gpsGateFails k i s = true) :
    (insGate k i s).gps_updated = false ∧ (insGate k i s).gps_vel_updated = false := by
  have hh : (insValidity k i s).homeLocation = s.homeLocation :=
    masked_homeLocation (insValidity_masked k i s)
  have hg : gpsGateFails k i (insValidity k i s) = true := by
    rw [← h]
    exact gpsGateFails_congr k i hh
  simp only [insGate, gateGpsMinimum, hg, if_true, and_self]

/-- The shape of `updateAttitudeINSGPS` on a cycle that passes the timeout check, is not a
first run and has valid inertial data. -/
theorem updateAttitudeINSGPS_valid (k : Consts) (x : Ext) (outdoor_mode : Bool) (i : CycleIn)
    (s : AttState) (h1 : sensorTimeout i = false) (h2 : insInertialInvalid i.toReadings = false) :
    updateAttitudeINSGPS k x false outdoor_mode i s =
      (0, insDispatch k x outdoor_mode i.toReadings
            (insGyrosBias (insPoll outdoor_mode i.toReadings (insClearIfInited s)))
            (insPrepared k outdoor_mode i.toReadings (insClearIfInited s))) := by
  unfold updateAttitudeINSGPS insDispatch insPrepared
  simp only [h1, h2, Bool.false_eq_true, if_false]
  split_ifs <;> rfl

theorem insPrepared_masked (k : Consts) (outdoor_mode : Bool) (i : Readings) (s : AttState) :
    flagsMasked (insPrepared k outdoor_mode i s) =
      { flagsMasked s with
        alarm := (insPrepared k outdoor_mode i s).alarm, ins_last_time := i.GetRaw } := by
  have h1 := insGate_masked k i { insPoll outdoor_mode i s with value_error := false }
  have h2 : flagsMasked { insPoll outdoor_mode i s with value_error := false } = flagsMasked s :=
    insPoll_masked outdoor_mode i s
  rw [h2] at h1
  unfold insPrepared
  simp only []
  generalize insGate k i { insPoll outdoor_mode i s with value_error := false } = g at h1 ⊢
  rw [← h1]
  rfl

theorem insPrepared_gps_fail (k : Consts) (outdoor_mode : Bool) (i : Readings) (s : AttState)
    (h : gpsGateFails k i s = true) :
    (insPrepared k outdoor_mode i s).gps_updated = false ∧
      (insPrepared k outdoor_mode i s).gps_vel_updated = false := by
  have hh : (insPoll outdoor_mode i s).homeLocation = s.homeLocation :=
    masked_homeLocation (insPoll_masked outdoor_mode i s)
  have hg : gpsGateFails k i { insPoll outdoor_mode i s with value_error := false } = true := by
    rw [← h]
    exact gpsGateFails_congr k i hh
  exact insGate_gps_fail k i _ hg


theorem insCall_outputs (x : Ext) (c : INSCall) (s : AttState) :
    outputsMasked (insCall x c s) = outputsMasked s := rfl

theorem publishNavAttitude_outputs (x : Ext) (s : AttState) :
    outputsMasked (publishNavAttitude x s) = outputsMasked s := rfl

theorem insPublish_outputs (x : Ext) (s : AttState) :
    outputsMasked (insPublish x s) = outputsMasked s := rfl

theorem insSeed_outputs (k : Consts) (x : Ext) (s : AttState) :
    outputsMasked (insSeed k x s) = outputsMasked s := by
  simp only [insSeed, insCall_outputs]

theorem insInitialPosition_outputs (x : Ext) (outdoor_mode : Bool) (i : Readings)
    (s : AttState) :
    outputsMasked (insInitialPosition x outdoor_mode i s).2 = outputsMasked s := by
  cases outdoor_mode <;> rfl

theorem insInitialState_outputs (x : Ext) (i : Readings) (pos : Vec3) (s : AttState) :
    outputsMasked (insInitialState x i pos s) = outputsMasked s := by
  simp only [insInitialState, insCall_outputs]
  rfl

theorem insStageZero_outputs (k : Consts) (x : Ext) (outdoor_mode : Bool) (i : Readings)
    (s : AttState) : outputsMasked (insStageZero k x outdoor_mode i s) = outputsMasked s := by
  unfold insStageZero
  simp only [insInitialState_outputs, insInitialPosition_outputs, insSeed_outputs]

theorem insStagePredict_outputs (k : Consts) (x : Ext) (i : Readings) (gyrosBias : Vec3)
    (dT : Flt) (s : AttState) :
    outputsMasked (insStagePredict k x i gyrosBias dT s) = outputsMasked s := by
  simp only [insStagePredict, publishNavAttitude_outputs, insCall_outputs]

theorem stageMasked_of_outputs {s t : AttState} (h : outputsMasked s = outputsMasked t) :
    stageMasked s = stageMasked t := by
  unfold stageMasked
  rw [h]

theorem insAdvanceStage_stage (s : AttState) :
    stageMasked (insAdvanceStage s) = stageMasked s := by
  unfold insAdvanceStage
  simp only []
  split_ifs <;> rfl

theorem insStaged_outputs (k : Consts) (x : Ext) (outdoor_mode : Bool) (i : Readings)
    (gyrosBias : Vec3) (dT : Flt) (s : AttState) :
    stageMasked (insStaged k x outdoor_mode i gyrosBias dT s) = stageMasked s := by
  unfold insStaged
  simp only [insAdvanceStage_stage]
  split_ifs
  · exact stageMasked_of_outputs (insStageZero_outputs k x outdoor_mode i s)
  · exact stageMasked_of_outputs (insStagePredict_outputs k x i gyrosBias dT s)

theorem insPosition_outputs (k : Consts) (x : Ext) (outdoor_mode : Bool) (i : Readings)
    (m : Measurement) :
    outputsMasked (insPosition k x outdoor_mode i m).st = outputsMasked m.st := by
  unfold insPosition
  simp only []
  split_ifs <;> rfl

theorem insVelocity_outputs (k : Consts) (outdoor_mode : Bool) (i : Readings)
    (m : Measurement) :
    outputsMasked (insVelocity k outdoor_mode i m).st = outputsMasked m.st := by
  unfold insVelocity
  split_ifs <;> rfl

theorem insAirspeed_outputs (k : Consts) (x : Ext) (i : Readings) (m : Measurement) :
    outputsMasked (insAirspeed k x i m).st = outputsMasked m.st := by
  unfold insAirspeed
  simp only []
  split_ifs <;> rfl

theorem insMeasurement_outputs (k : Consts) (x : Ext) (outdoor_mode : Bool) (i : Readings)
    (s : AttState) :
    outputsMasked (insMeasurement k x outdoor_mode i s).st = outputsMasked s := by
  unfold insMeasurement
  simp only [insAirspeed_outputs, insVelocity_outputs, insPosition_outputs]
  rfl

theorem insRunning_outputs (k : Consts) (x : Ext) (outdoor_mode : Bool) (i : Readings)
    (gyrosBias : Vec3) (dT : Flt) (s : AttState) :
    outputsMasked (insRunning k x outdoor_mode i gyrosBias dT s) = outputsMasked s := by
  unfold insRunning
  simp only [insPublish_outputs]
  split_ifs <;>
    simp only [insCall_outputs, insMeasurement_outputs, publishNavAttitude_outputs]

/-- From line 780 on a cycle writes only the filter outputs, `baroOffset`, `init_stage`,
`inited` and the INS library. -/
theorem insDispatch_outputs (k : Consts) (x : Ext) (outdoor_mode : Bool) (i : Readings)
    (gyrosBias : Vec3) (s : AttState) :
    stageMasked (insDispatch k x outdoor_mode i gyrosBias s) = stageMasked s := by
  unfold insDispatch
  split_ifs
  · exact insStaged_outputs k x outdoor_mode i gyrosBias _ s
  · rfl
  · exact stageMasked_of_outputs (insRunning_outputs k x outdoor_mode i gyrosBias _ s)

theorem publishNavAttitude_trace (x : Ext) (s : AttState) :
    (publishNavAttitude x s).trace = s.trace := rfl

theorem insPublish_trace (x : Ext) (s : AttState) : (insPublish x s).trace = s.trace := rfl

theorem insPredicted_trace (k : Consts) (x : Ext) (i : Readings) (gyrosBias : Vec3) (dT : Flt)
    (s : AttState) :
    (insPredicted k x i gyrosBias dT s).trace =
      s.trace ++ [INSCall.INSStatePrediction (insGyros k x i gyrosBias s) i.accelsData dT,
                  INSCall.INSCovariancePrediction dT] := by
  simp only [insPredicted, insCall_trace, publishNavAttitude_trace, List.append_assoc,
    List.singleton_append]

theorem insPredicted_outputs (k : Consts) (x : Ext) (i : Readings) (gyrosBias : Vec3) (dT : Flt)
    (s : AttState) : outputsMasked (insPredicted k x i gyrosBias dT s) = outputsMasked s := by
  simp only [insPredicted, insCall_outputs, publishNavAttitude_outputs]

theorem insRunning_eq (k : Consts) (x : Ext) (outdoor_mode : Bool) (i : Readings)
    (gyrosBias : Vec3) (dT : Flt) (s : AttState) :
    insRunning k x outdoor_mode i gyrosBias dT s =
      insPublish x
        (if (insMeasurement k x outdoor_mode i (insPredicted k x i gyrosBias dT s)).sensors != 0
         then insCall x
           (INSCall.INSCorrection i.magData
             (insMeasurement k x outdoor_mode i (insPredicted k x i gyrosBias dT s)).NED
             (insMeasurement k x outdoor_mode i (insPredicted k x i gyrosBias dT s)).vel
             (i.baroAltitude +
               (insMeasurement k x outdoor_mode i (insPredicted k x i gyrosBias dT s)).st.baroOffset)
             (insMeasurement k x outdoor_mode i (insPredicted k x i gyrosBias dT s)).sensors)
           (insMeasurement k x outdoor_mode i (insPredicted k x i gyrosBias dT s)).st
         else (insMeasurement k x outdoor_mode i (insPredicted k x i gyrosBias dT s)).st) := rfl

theorem insPosition_trace (k : Consts) (x : Ext) (outdoor_mode : Bool) (i : Readings)
    (m : Measurement) :
    ∃ cs, (insPosition k x outdoor_mode i m).st.trace = m.st.trace ++ cs ∧
      ∀ c ∈ cs, c.isCorrection = false := by
  unfold insPosition
  simp only []
  split_ifs
  · exact ⟨[_], rfl, by simp [INSCall.isCorrection]⟩
  · exact ⟨[_], rfl, by simp [INSCall.isCorrection]⟩
  · exact ⟨[], (List.append_nil _).symm, by simp⟩

theorem insVelocity_trace (k : Consts) (outdoor_mode : Bool) (i : Readings) (m : Measurement) :
    (insVelocity k outdoor_mode i m).st.trace = m.st.trace := by
  unfold insVelocity
  split_ifs <;> rfl

theorem insAirspeed_trace (k : Consts) (x : Ext) (i : Readings) (m : Measurement) :
    ∃ cs, (insAirspeed k x i m).st.trace = m.st.trace ++ cs ∧
      ∀ c ∈ cs, c.isCorrection = false := by
  unfold insAirspeed
  simp only []
  split_ifs
  · exact ⟨[_], rfl, by simp [INSCall.isCorrection]⟩
  · exact ⟨[], (List.append_nil _).symm, by simp⟩
  · exact ⟨[], (List.append_nil _).symm, by simp⟩

/-- Assembling the measurement set performs no correction. -/
theorem insMeasurement_trace (k : Consts) (x : Ext) (outdoor_mode : Bool) (i : Readings)
    (s : AttState) :
    ∃ cs, (insMeasurement k x outdoor_mode i s).st.trace = s.trace ++ cs ∧
      ∀ c ∈ cs, c.isCorrection = false := by
  unfold insMeasurement
  simp only []
  generalize hm0 : insMagBaro k x s = m0
  have h0 : m0.st.trace = s.trace ++ [INSCall.INSSetMagNorth s.homeLocation.Be] := by
    rw [← hm0]; rfl
  obtain ⟨c1, e1, n1⟩ := insPosition_trace k x outdoor_mode i m0
  have e2 := insVelocity_trace k outdoor_mode i (insPosition k x outdoor_mode i m0)
  obtain ⟨c3, e3, n3⟩ :=
    insAirspeed_trace k x i (insVelocity k outdoor_mode i (insPosition k x outdoor_mode i m0))
  refine ⟨INSCall.INSSetMagNorth s.homeLocation.Be :: (c1 ++ c3), ?_, ?_⟩
  · rw [e3, e2, e1, h0]
    simp only [List.append_assoc, List.singleton_append, List.cons_append, List.nil_append]
  · intro c hc
    simp only [List.mem_cons, List.mem_append] at hc
    rcases hc with rfl | hc | hc
    · rfl
    · exact n1 c hc
    · exact n3 c hc

/-- The calls of a Running cycle: the two predictions, measurement set-up without any
correction, then the calls of `correctionCalls`. -/
theorem insRunning_trace (k : Consts) (x : Ext) (outdoor_mode : Bool) (i : Readings)
    (gyrosBias : Vec3) (dT : Flt) (s : AttState) :
    ∃ cs, (∀ c ∈ cs, c.isCorrection = false) ∧
      (insRunning k x outdoor_mode i gyrosBias dT s).trace =
        s.trace ++ (cs ++ correctionCalls i
          (insMeasurement k x outdoor_mode i (insPredicted k x i gyrosBias dT s))) := by
  obtain ⟨c1, e1, n1⟩ :=
    insMeasurement_trace k x outdoor_mode i (insPredicted k x i gyrosBias dT s)
  rw [insPredicted_trace] at e1
  refine ⟨[INSCall.INSStatePrediction (insGyros k x i gyrosBias s) i.accelsData dT,
           INSCall.INSCovariancePrediction dT] ++ c1, ?_, ?_⟩
  · intro c hc
    simp only [List.mem_append, List.mem_cons, List.mem_singleton, List.not_mem_nil,
      or_false] at hc
    rcases hc with (rfl | rfl) | hc
    · rfl
    · rfl
    · exact n1 c hc
  · rw [insRunning_eq, insPublish_trace]
    unfold correctionCalls
    split_ifs
    · rw [insCall_trace, e1]
      simp only [List.append_assoc]
    · rw [e1]
      simp only [List.append_assoc, List.append_nil]

theorem masked_airspeed_outputs {s t : AttState} (h : outputsMasked s = outputsMasked t) :
    s.airspeed_updated = t.airspeed_updated := by
  have e := congrArg (fun u : AttState => u.airspeed_updated) h
  exact e

theorem masked_gps_stage {s t : AttState} (h : stageMasked s = stageMasked t) :
    s.gps_updated = t.gps_updated ∧ s.gps_vel_updated = t.gps_vel_updated := by
  have e1 := congrArg (fun u : AttState => u.gps_updated) h
  have e2 := congrArg (fun u : AttState => u.gps_vel_updated) h
  exact ⟨e1, e2⟩

theorem masked_gps_outputs {s t : AttState} (h : outputsMasked s = outputsMasked t) :
    s.gps_updated = t.gps_updated ∧ s.gps_vel_updated = t.gps_vel_updated := by
  have e1 := congrArg (fun u : AttState => u.gps_updated) h
  have e2 := congrArg (fun u : AttState => u.gps_vel_updated) h
  exact ⟨e1, e2⟩

/-- Outdoors, with both GPS flags false, the measurement set has no position bit, a zero
position, and a velocity that is zero or derived from airspeed. -/
theorem insMeasurement_outdoor_nogps (k : Consts) (x : Ext) (i : Readings) (s : AttState)
    (hg : s.gps_updated = false) (hv : s.gps_vel_updated = false)
    (hmag : k.MAG_SENSORS &&& k.POS_SENSORS = 0) (hbaro : k.BARO_SENSOR &&& k.POS_SENSORS = 0)
    (hhor : k.HORIZ_SENSORS &&& k.POS_SENSORS = 0)
    (hver : k.VERT_SENSORS &&& k.POS_SENSORS = 0) :
    (insMeasurement k x true i s).sensors &&& k.POS_SENSORS = 0 ∧
    (insMeasurement k x true i s).NED = zeros ∧
    ((insMeasurement k x true i s).vel = zeros ∨
      (s.airspeed_updated = true ∧
        ∃ q, (insMeasurement k x true i s).vel =
          airspeedVel x q (insMeasurement k x true i s).st.airspeedActual.TrueAirspeed)) := by
  have hbase : (insMagBaro k x s).sensors &&& k.POS_SENSORS = 0 := by
    unfold insMagBaro
    simp only []
    split_ifs
    · exact or_and_eq_zero (or_and_eq_zero (Nat.zero_and _) hmag) hbaro
    · exact or_and_eq_zero (Nat.zero_and _) hbaro
    · exact or_and_eq_zero (Nat.zero_and _) hmag
    · exact Nat.zero_and _
  have hp : insPosition k x true i (insMagBaro k x s) = insMagBaro k x s := by
    have e : (insMagBaro k x s).st.gps_updated = false := hg
    unfold insPosition
    simp only [e, Bool.false_and, Bool.false_eq_true, if_false, Bool.not_true]
  have hvel : insVelocity k true i (insMagBaro k x s) = insMagBaro k x s := by
    have e : (insMagBaro k x s).st.gps_vel_updated = false := hv
    unfold insVelocity
    simp only [e, Bool.false_and, Bool.false_eq_true, if_false]
  unfold insMeasurement
  simp only [hp, hvel]
  have ea : (insMagBaro k x s).st.airspeed_updated = s.airspeed_updated := rfl
  have eg : (insMagBaro k x s).st.gps_updated = false := hg
  have ev : (insMagBaro k x s).st.gps_vel_updated = false := hv
  unfold insAirspeed
  simp only [ea, eg, ev, Bool.not_false, Bool.and_self, if_true]
  cases hair : s.airspeed_updated
  · simp only [Bool.false_eq_true, if_false]
    exact ⟨mod_and_eq_zero hbase, rfl, Or.inl rfl⟩
  · simp only [if_true]
    refine ⟨mod_and_eq_zero (or_and_eq_zero hbase (or_and_eq_zero hhor hver)), rfl,
      Or.inr ⟨trivial, _, rfl⟩⟩

theorem insPrepared_trace (k : Consts) (outdoor_mode : Bool) (i : Readings) (s : AttState) :
    (insPrepared k outdoor_mode i s).trace = s.trace := by
  have e := congrArg (fun u : AttState => u.trace) (insPrepared_masked k outdoor_mode i s)
  exact e

theorem insPrepared_inited (k : Consts) (outdoor_mode : Bool) (i : Readings) (s : AttState) :
    (insPrepared k outdoor_mode i s).inited = s.inited := by
  have e := congrArg (fun u : AttState => u.inited) (insPrepared_masked k outdoor_mode i s)
  exact e

theorem insPrepared_variance_error (k : Consts) (outdoor_mode : Bool) (i : Readings)
    (s : AttState) : (insPrepared k outdoor_mode i s).variance_error = s.variance_error := by
  have e := congrArg (fun u : AttState => u.variance_error)
    (insPrepared_masked k outdoor_mode i s)
  exact e

theorem insPrepared_init_stage (k : Consts) (outdoor_mode : Bool) (i : Readings)
    (s : AttState) : (insPrepared k outdoor_mode i s).init_stage = s.init_stage := by
  have e := congrArg (fun u : AttState => u.init_stage)
    (insPrepared_masked k outdoor_mode i s)
  exact e

theorem insClearIfInited_trace (s : AttState) : (insClearIfInited s).trace = s.trace :=
  masked_trace (insClearIfInited_masked s)

theorem insRunning_airspeedActual (k : Consts) (x : Ext) (outdoor_mode : Bool) (i : Readings)
    (gyrosBias : Vec3) (dT : Flt) (s : AttState) :
    (insRunning k x outdoor_mode i gyrosBias dT s).airspeedActual =
      (insMeasurement k x outdoor_mode i (insPredicted k x i gyrosBias dT s)).st.airspeedActual
    := by
  rw [insRunning_eq]
  split_ifs <;> rfl

theorem mem_correctionCalls {i : Readings} {m : Measurement} {mag pos vel : Vec3} {baro : Flt}
    {sensors : Nat} (h : INSCall.INSCorrection mag pos vel baro sensors ∈ correctionCalls i m) :
    pos = m.NED ∧ vel = m.vel ∧ sensors = m.sensors := by
  unfold correctionCalls at h
  split_ifs at h
  · simp only [List.mem_singleton, INSCall.INSCorrection.injEq] at h
    exact ⟨h.2.1, h.2.2.1, h.2.2.2.2⟩
  · simp only [List.not_mem_nil] at h

/-- C1 (`updateAttitudeINSGPS`, lines 749-756 and 929-972): in a cycle that reaches the
sensor gate (no timeout return, not a first run, finite gyro and accelerometer values), if the
satellite count is below 7, or PDOP exceeds 4.0, or latitude and longitude are both 0, or
the home location is not marked set, then `gps_updated` and `gps_vel_updated` are false
after the cycle, whatever the queues delivered and whatever the read-only flags; and in
outdoor mode every `INSCorrection` of the cycle has a sensor mask without position bits, a
zero position, and a velocity that is zero or derived from airspeed. -/
theorem C1_gps_gate_excludes_gps (k : Consts) (x : Ext) (outdoor_mode : Bool) (i : CycleIn)
    (s : AttState)
    (hreach : sensorTimeout i = false)
    (hvalid : insInertialInvalid i.toReadings = false)
    (hgate : i.gpsData.Satellites < 7 ∨ Flt.gt i.gpsData.PDOP (Flt.fin 4) = true ∨
      (i.gpsData.Latitude = 0 ∧ i.gpsData.Longitude = 0) ∨
      s.homeLocation.Set ≠ k.HOMELOCATION_SET_TRUE)
    (hmag : k.MAG_SENSORS &&& k.POS_SENSORS = 0) (hbaro : k.BARO_SENSOR &&& k.POS_SENSORS = 0)
    (hhor : k.HORIZ_SENSORS &&& k.POS_SENSORS = 0)
    (hver : k.VERT_SENSORS &&& k.POS_SENSORS = 0) :
    (updateAttitudeINSGPS k x false outdoor_mode i s).2.gps_updated = false ∧
    (updateAttitudeINSGPS k x false outdoor_mode i s).2.gps_vel_updated = false ∧
    (outdoor_mode = true →
      ∃ cs, (updateAttitudeINSGPS k x false outdoor_mode i s).2.trace = s.trace ++ cs ∧
        ∀ mag pos vel baro sensors, INSCall.INSCorrection mag pos vel baro sensors ∈ cs →
          sensors &&& k.POS_SENSORS = 0 ∧ pos = zeros ∧
          (vel = zeros ∨
            ((updateAttitudeINSGPS k x false outdoor_mode i s).2.airspeed_updated = true ∧
              ∃ q, vel = airspeedVel x q
                (updateAttitudeINSGPS k x false outdoor_mode i s).2.airspeedActual.TrueAirspeed)))
    := by
  have hfail : gpsGateFails k i.toReadings (insClearIfInited s) = true := by
    have hh : (insClearIfInited s).homeLocation = s.homeLocation :=
      masked_homeLocation (insClearIfInited_masked s)
    rw [gpsGateFails_congr k i.toReadings hh]
    unfold gpsGateFails
    rcases hgate with h | h | h | h
    · simp [h]
    · simp [h]
    · simp [h.1, h.2]
    · simp [h]
  rw [updateAttitudeINSGPS_valid k x outdoor_mode i s hreach hvalid]
  obtain ⟨hg, hv⟩ := insPrepared_gps_fail k outdoor_mode i.toReadings (insClearIfInited s) hfail
  have htr : (insPrepared k outdoor_mode i.toReadings (insClearIfInited s)).trace = s.trace := by
    rw [insPrepared_trace, insClearIfInited_trace]
  generalize insGyrosBias (insPoll outdoor_mode i.toReadings (insClearIfInited s)) = gb
  generalize insPrepared k outdoor_mode i.toReadings (insClearIfInited s) = p at hg hv htr
  obtain ⟨e1, e2⟩ := masked_gps_stage (insDispatch_outputs k x outdoor_mode i.toReadings gb p)
  refine ⟨e1.trans hg, e2.trans hv, ?_⟩
  intro ho
  subst ho
  have hguard : insStagedGuard true p = false := by
    simp [insStagedGuard, hg]
  unfold insDispatch
  simp only [hguard, Bool.false_eq_true, if_false]
  cases hin : p.inited
  · refine ⟨[], ?_, ?_⟩
    · simp [htr]
    · intro mag pos vel baro sensors hc
      simp at hc
  · simp only [Bool.not_true, Bool.false_eq_true, if_false]
    obtain ⟨cs, hn, ht⟩ := insRunning_trace k x true i.toReadings gb (insDT i.toReadings) p
    obtain ⟨g1, g2⟩ := masked_gps_outputs (insPredicted_outputs k x i.toReadings gb (insDT i.toReadings) p)
    have ha := masked_airspeed_outputs (insPredicted_outputs k x i.toReadings gb (insDT i.toReadings) p)
    have hr := masked_airspeed_outputs (insRunning_outputs k x true i.toReadings gb (insDT i.toReadings) p)
    obtain ⟨m1, m2, m3⟩ := insMeasurement_outdoor_nogps k x i.toReadings (insPredicted k x i.toReadings gb (insDT i.toReadings) p)
      (g1.trans hg) (g2.trans hv) hmag hbaro hhor hver
    refine ⟨_, by rw [ht, htr], ?_⟩
    intro mag pos vel baro sensors hc
    rcases List.mem_append.1 hc with hc | hc
    · have := hn _ hc
      simp [INSCall.isCorrection] at this
    · obtain ⟨p1, p2, p3⟩ := mem_correctionCalls hc
      subst p1 p2 p3
      refine ⟨m1, m2, ?_⟩
      rcases m3 with m3 | ⟨m3, q, m4⟩
      · exact Or.inl m3
      · refine Or.inr ⟨?_, q, ?_⟩
        · rw [hr, ← ha]
          exact m3
        · rw [insRunning_airspeedActual]
          exact m4

/-- C1 at a sample input: an outdoor Running cycle with a satellite count of 3 and
otherwise valid data leaves both GPS flags false. -/
theorem C1_witness_three_satellites :
    threeSatIn.gpsData.Satellites = 3 ∧
    (updateAttitudeINSGPS sampleConsts sampleExt false true threeSatIn
      runningState).2.gps_updated = false ∧
    (updateAttitudeINSGPS sampleConsts sampleExt false true threeSatIn
      runningState).2.gps_vel_updated = false :=
  have h := C1_gps_gate_excludes_gps sampleConsts sampleExt true threeSatIn runningState
    (by decide) (by decide) (Or.inl (by decide)) (by decide) (by decide) (by decide)
    (by decide)
  ⟨rfl, h.1, h.2.1⟩

/-! ## The settings callback -/

theorem cbRefresh_reinitVars (ev : Option UAVObjEvent) (o : Objects) (s : AttState) :
    reinitVars (cbRefresh ev o s) = reinitVars s := by
  unfold cbRefresh
  simp only []
  split_ifs <;> rfl

theorem cbReload_reinitVars (x : Ext) (ev : Option UAVObjEvent) (o : Objects) (s : AttState) :
    reinitVars (cbReload x ev o s) = reinitVars s := by
  unfold cbReload
  simp only []
  split_ifs <;> rfl

theorem reinitVars_eq {s t : AttState} (h : reinitVars s = reinitVars t) :
    s.variance_error = t.variance_error ∧
    s.initialization_required = t.initialization_required ∧
    s.running_algorithm = t.running_algorithm := by
  unfold reinitVars at h
  simp only [Prod.mk.injEq] at h
  exact h

theorem cbReinitGuard_congr (ev : Option UAVObjEvent) {s t : AttState}
    (h : s.variance_error = t.variance_error) : cbReinitGuard ev s = cbReinitGuard ev t := by
  unfold cbReinitGuard
  rw [h]

theorem cbRefresh_guard (ev : Option UAVObjEvent) (o : Objects) (s : AttState) :
    cbReinitGuard ev (cbRefresh ev o s) = cbReinitGuard ev s :=
  cbReinitGuard_congr ev (reinitVars_eq (cbRefresh_reinitVars ev o s)).1

/-- The re-initialisation block when the request is deferred or the configuration is
invalid: only the error flag is raised. -/
theorem cbReinit_error (k : Consts) (o : Objects) (s : AttState)
    (h : cbVarianceCheck o.ekfConfiguration = true ∨
      (s.flightStatus.Armed = k.FLIGHTSTATUS_ARMED_ARMED ∧ s.initialization_required = false)) :
    reinitVars (cbReinit k o s) = (true, s.initialization_required, s.running_algorithm) := by
  unfold cbReinit
  simp only []
  rcases h with h | ⟨h1, h2⟩
  · simp only [h, ite_self, if_true]
    rfl
  · simp only [h1, h2, beq_self_eq_true, Bool.not_false, Bool.and_self, if_true]
    rfl

/-- The re-initialisation block when the configuration is valid and the request is not
deferred: the selected algorithm is installed and initialisation requested. -/
theorem cbReinit_apply (k : Consts) (o : Objects) (s : AttState)
    (h : cbVarianceCheck o.ekfConfiguration = false)
    (h2 : ¬ (s.flightStatus.Armed = k.FLIGHTSTATUS_ARMED_ARMED ∧
      s.initialization_required = false)) :
    reinitVars (cbReinit k o s) = (false, true, o.revoSettings.FusionAlgorithm) := by
  unfold cbReinit
  have hc : (s.flightStatus.Armed == k.FLIGHTSTATUS_ARMED_ARMED &&
      !s.initialization_required) = false := by
    cases hi : s.initialization_required
    · have : s.flightStatus.Armed ≠ k.FLIGHTSTATUS_ARMED_ARMED := fun e => h2 ⟨e, hi⟩
      simp [this]
    · simp
  simp only [h, hc, Bool.false_eq_true, if_false]
  rfl

/-- C2 (`settingsUpdatedCb`, lines 1069-1112): a call that enters the re-initialisation
block (NULL, EKFConfiguration or RevoSettings event, or a FlightStatus event while
`variance_error` is set) with the cached flight status ARMED and `initialization_required`
false leaves `running_algorithm` and `initialization_required` unchanged and sets
`variance_error`, whatever configuration and fusion algorithm are stored. -/
theorem C2_armed_request_recorded_not_applied (k : Consts) (x : Ext)
    (ev : Option UAVObjEvent) (o : Objects) (s : AttState)
    (henter : cbReinitGuard ev s = true)
    (harmed : (cbRefresh ev o s).flightStatus.Armed = k.FLIGHTSTATUS_ARMED_ARMED)
    (hinit : s.initialization_required = false) :
    (settingsUpdatedCb k x ev o s).running_algorithm = s.running_algorithm ∧
    (settingsUpdatedCb k x ev o s).initialization_required = s.initialization_required ∧
    (settingsUpdatedCb k x ev o s).variance_error = true := by
  obtain ⟨r1, r2, r3⟩ := reinitVars_eq (cbRefresh_reinitVars ev o s)
  have hg : cbReinitGuard ev (cbRefresh ev o s) = true := by
    rw [cbRefresh_guard]; exact henter
  have h := cbReinit_error k o (cbRefresh ev o s) (Or.inr ⟨harmed, by rw [r2]; exact hinit⟩)
  have e : reinitVars (settingsUpdatedCb k x ev o s) =
      (true, s.initialization_required, s.running_algorithm) := by
    unfold settingsUpdatedCb cbReinitBlock
    rw [cbReload_reinitVars, if_pos hg, h, r2, r3]
  unfold reinitVars at e
  simp only [Prod.mk.injEq] at e
  exact ⟨e.2.2, e.2.1, e.1⟩

/-- C2 at a sample input: armed and Running on the outdoor INS, a configuration event
selecting the complementary filter is recorded but not applied. -/
theorem C2_witness_armed_update :
    (settingsUpdatedCb sampleConsts sampleExt (some ⟨UAVObjHandle.EKFConfiguration⟩)
      complementaryObjects runningState).running_algorithm = 1 ∧
    (settingsUpdatedCb sampleConsts sampleExt (some ⟨UAVObjHandle.EKFConfiguration⟩)
      complementaryObjects runningState).variance_error = true :=
  have h := C2_armed_request_recorded_not_applied sampleConsts sampleExt
    (some ⟨UAVObjHandle.EKFConfiguration⟩) complementaryObjects runningState
    (by decide) (by decide) (by decide)
  ⟨h.1, h.2.2⟩

theorem invalid_var_f1 : invalid_var f1 = false := by
  norm_num [invalid_var, invalid, f1, Flt.isnan, Flt.isinf, Flt.lt]

theorem cbVarianceCheck_false (c : EKFConfigurationData)
    (h : ∀ d, d ∈ c.P ∨ d ∈ c.Q ∨ d ∈ c.R → invalid_var d = false) :
    cbVarianceCheck c = false := by
  unfold cbVarianceCheck
  simp only [Bool.or_eq_false_iff, List.any_eq_false]
  refine ⟨⟨?_, ?_⟩, ?_⟩
  · intro d hd
    simp [h d (Or.inl hd)]
  · intro d hd
    simp [h d (Or.inr (Or.inl hd))]
  · intro d hd
    simp [h d (Or.inr (Or.inr hd))]

theorem cbVarianceCheck_true (c : EKFConfigurationData) (d : Flt)
    (hd : d ∈ c.P ∨ d ∈ c.Q ∨ d ∈ c.R) (h : invalid_var d = true) :
    cbVarianceCheck c = true := by
  unfold cbVarianceCheck
  simp only [Bool.or_eq_true, List.any_eq_true]
  rcases hd with hd | hd | hd
  · exact Or.inl (Or.inl ⟨d, hd, h⟩)
  · exact Or.inl (Or.inr ⟨d, hd, h⟩)
  · exact Or.inr ⟨d, hd, h⟩

/-- C3 (`settingsUpdatedCb` 1058-1112, `AttitudeTask` 250-282): with `variance_error` set
(a re-initialisation was deferred), a FlightStatus event reporting a status other than
ARMED, with every stored P, Q and R element valid, installs the stored fusion algorithm,
clears `variance_error` and sets `initialization_required`; the next task cycle therefore
runs the selected algorithm with `first_run = true`. -/
theorem C3_disarm_applies_deferred (k : Consts) (x : Ext) (o : Objects) (s : AttState)
    (hdef : s.variance_error = true)
    (hdis : o.flightStatus.Armed ≠ k.FLIGHTSTATUS_ARMED_ARMED)
    (hvalid : ∀ d, d ∈ o.ekfConfiguration.P ∨ d ∈ o.ekfConfiguration.Q ∨
      d ∈ o.ekfConfiguration.R → invalid_var d = false) :
    (settingsUpdatedCb k x (some ⟨UAVObjHandle.FlightStatus⟩) o s).revoSettings
      = o.revoSettings ∧
    (settingsUpdatedCb k x (some ⟨UAVObjHandle.FlightStatus⟩) o s).running_algorithm
      = (settingsUpdatedCb k x (some ⟨UAVObjHandle.FlightStatus⟩) o s).revoSettings.FusionAlgorithm ∧
    (settingsUpdatedCb k x (some ⟨UAVObjHandle.FlightStatus⟩) o s).variance_error = false ∧
    (settingsUpdatedCb k x (some ⟨UAVObjHandle.FlightStatus⟩) o s).initialization_required
      = true ∧
    ∀ i, AttitudeTask k x i (settingsUpdatedCb k x (some ⟨UAVObjHandle.FlightStatus⟩) o s) =
      taskFinish (runAlgorithm k x o.revoSettings.FusionAlgorithm true i
        { settingsUpdatedCb k x (some ⟨UAVObjHandle.FlightStatus⟩) o s with
          initialization_required := false }) := by
  have hr : cbRefresh (some ⟨UAVObjHandle.FlightStatus⟩) o s =
      { s with flightStatus := o.flightStatus } := rfl
  have hg : cbReinitGuard (some ⟨UAVObjHandle.FlightStatus⟩)
      (cbRefresh (some ⟨UAVObjHandle.FlightStatus⟩) o s) = true := by
    rw [cbRefresh_guard]
    simp [cbReinitGuard, hdef]
  have hl : ∀ t, cbReload x (some ⟨UAVObjHandle.FlightStatus⟩) o t = t := fun t => rfl
  have ha := cbReinit_apply k o (cbRefresh (some ⟨UAVObjHandle.FlightStatus⟩) o s)
    (cbVarianceCheck_false _ hvalid) (by rw [hr]; exact fun h => hdis h.1)
  have hrs : (cbReinit k o (cbRefresh (some ⟨UAVObjHandle.FlightStatus⟩) o s)).revoSettings
      = o.revoSettings := by
    unfold cbReinit
    simp only []
    split_ifs <;> rfl
  have hs : settingsUpdatedCb k x (some ⟨UAVObjHandle.FlightStatus⟩) o s =
      cbReinit k o (cbRefresh (some ⟨UAVObjHandle.FlightStatus⟩) o s) := by
    unfold settingsUpdatedCb cbReinitBlock
    rw [hl, if_pos hg]
  rw [hs]
  generalize cbReinit k o (cbRefresh (some ⟨UAVObjHandle.FlightStatus⟩) o s) = t at ha hrs
  unfold reinitVars at ha
  simp only [Prod.mk.injEq] at ha
  obtain ⟨a1, a2, a3⟩ := ha
  refine ⟨hrs, by rw [a3, hrs], a1, a2, ?_⟩
  intro i
  unfold AttitudeTask
  simp only [a2, a3, if_true]

/-- C3 at a sample input: the deferred state receives a FlightStatus event after a disarm;
the complementary filter selected in the settings becomes the running algorithm. -/
theorem C3_witness_disarm :
    (settingsUpdatedCb sampleConsts sampleExt (some ⟨UAVObjHandle.FlightStatus⟩)
      disarmedObjects deferredState).running_algorithm = 0 ∧
    (settingsUpdatedCb sampleConsts sampleExt (some ⟨UAVObjHandle.FlightStatus⟩)
      disarmedObjects deferredState).variance_error = false ∧
    (settingsUpdatedCb sampleConsts sampleExt (some ⟨UAVObjHandle.FlightStatus⟩)
      disarmedObjects deferredState).initialization_required = true :=
  have h := C3_disarm_applies_deferred sampleConsts sampleExt disarmedObjects deferredState
    (by decide) (by decide)
    (by
      intro d hd
      have e : d = f1 := by
        simp only [disarmedObjects, complementaryObjects, sampleConfig, List.mem_replicate] at hd
        rcases hd with hd | hd | hd <;> exact hd.2
      subst e
      exact invalid_var_f1)
  ⟨h.2.1.trans (congrArg RevoSettingsData.FusionAlgorithm h.1), h.2.2.1, h.2.2.2.1⟩

/-! ## Estimator cycles leave the supervisor variables alone -/

theorem supervisor_of_flagsMasked {s t : AttState} (h : flagsMasked s = flagsMasked t) :
    supervisorOf s = supervisorOf t := by
  have e := congrArg supervisorOf h
  exact e

theorem supervisor_of_stageMasked {s t : AttState} (h : stageMasked s = stageMasked t) :
    supervisorOf s = supervisorOf t := by
  have e := congrArg supervisorOf h
  exact e

theorem insPrepared_supervisor (k : Consts) (outdoor_mode : Bool) (i : Readings) (s : AttState) :
    supervisorOf (insPrepared k outdoor_mode i s) = supervisorOf s := by
  have e := congrArg supervisorOf (insPrepared_masked k outdoor_mode i s)
  exact e

theorem updateAttitudeINSGPS_supervisor (k : Consts) (x : Ext) (first_run outdoor_mode : Bool)
    (i : CycleIn) (s : AttState) :
    supervisorOf (updateAttitudeINSGPS k x first_run outdoor_mode i s).2 = supervisorOf s := by
  have hc := supervisor_of_flagsMasked (insClearIfInited_masked s)
  cases ht : sensorTimeout i
  · cases first_run
    · cases hv : insInertialInvalid i.toReadings
      · rw [updateAttitudeINSGPS_valid k x outdoor_mode i s ht hv]
        rw [supervisor_of_stageMasked (insDispatch_outputs k x outdoor_mode i.toReadings _ _),
          insPrepared_supervisor, hc]
      · unfold updateAttitudeINSGPS
        simp only [ht, hv, Bool.false_eq_true, if_false, if_true]
        exact (supervisor_of_flagsMasked
          (insPoll_masked outdoor_mode i.toReadings (insClearIfInited s))).trans hc
    · unfold updateAttitudeINSGPS
      simp only [ht, Bool.false_eq_true, if_false, if_true]
      exact hc
  · unfold updateAttitudeINSGPS
    simp only [ht, if_true]
    rfl

theorem compGains_supervisor (k : Consts) (i : Readings) (s : AttState) :
    supervisorOf (compGains k i s) = supervisorOf s := by
  unfold compGains
  split_ifs <;> rfl

theorem compFlush_supervisor (k : Consts) (x : Ext) (i : Readings) (s : AttState) :
    supervisorOf (compFlush k x i s) = supervisorOf s := by
  unfold compFlush
  simp only []
  split_ifs <;> rfl

theorem compUpdate_supervisor (k : Consts) (x : Ext) (i : Readings) (s : AttState) :
    supervisorOf (compUpdate k x i s) = supervisorOf s := rfl

theorem compAlarm_supervisor (s : AttState) : supervisorOf (compAlarm s) = supervisorOf s := by
  unfold compAlarm
  split_ifs <;> rfl

theorem compSteady_supervisor (k : Consts) (x : Ext) (i : Readings) (s : AttState) :
    supervisorOf (compSteady k x i s) = supervisorOf s := by
  unfold compSteady
  simp only [compAlarm_supervisor, compFlush_supervisor, compUpdate_supervisor,
    compGains_supervisor]

theorem updateAttitudeComplementary_supervisor (k : Consts) (x : Ext) (first_run : Bool)
    (i : CycleIn) (s : AttState) :
    supervisorOf (updateAttitudeComplementary k x first_run i s).2 = supervisorOf s := by
  unfold updateAttitudeComplementary
  split_ifs
  · rfl
  · rfl
  · rfl
  · exact compSteady_supervisor k x i.toReadings s

theorem runAlgorithm_supervisor (k : Consts) (x : Ext) (algorithm : Nat) (first_run : Bool)
    (i : CycleIn) (s : AttState) :
    supervisorOf (runAlgorithm k x algorithm first_run i s).2 = supervisorOf s := by
  unfold runAlgorithm
  split_ifs
  · exact updateAttitudeComplementary_supervisor k x first_run i s
  · exact updateAttitudeINSGPS_supervisor k x first_run true i s
  · exact updateAttitudeINSGPS_supervisor k x first_run false i s
  · rfl

theorem taskFinish_supervisor (r : Int × AttState) :
    supervisorOf (taskFinish r) = supervisorOf r.2 := by
  unfold taskFinish
  split_ifs <;> rfl

/-- A task-loop iteration never writes `variance_error`, `running_algorithm` or the cached
settings. -/
theorem AttitudeTask_supervisor (k : Consts) (x : Ext) (i : CycleIn) (s : AttState) :
    supervisorOf (AttitudeTask k x i s) = supervisorOf s := by
  unfold AttitudeTask
  simp only []
  rw [taskFinish_supervisor, runAlgorithm_supervisor]
  split_ifs <;> rfl

theorem supervisorOf_eq {s t : AttState} (h : supervisorOf s = supervisorOf t) :
    s.variance_error = t.variance_error ∧ s.running_algorithm = t.running_algorithm ∧
    s.flightStatus = t.flightStatus := by
  have e1 := congrArg Supervisor.variance_error h
  have e2 := congrArg Supervisor.running_algorithm h
  have e3 := congrArg Supervisor.flightStatus h
  exact ⟨e1, e2, e3⟩

/-! ## Deferred re-initialisation and the variance error over runs -/

theorem settingsUpdatedCb_reinitVars (k : Consts) (x : Ext) (ev : Option UAVObjEvent)
    (o : Objects) (s : AttState) :
    reinitVars (settingsUpdatedCb k x ev o s) =
      if cbReinitGuard ev s then reinitVars (cbReinit k o (cbRefresh ev o s))
      else reinitVars s := by
  unfold settingsUpdatedCb cbReinitBlock
  rw [cbReload_reinitVars, cbRefresh_guard]
  split_ifs
  · rfl
  · exact cbRefresh_reinitVars ev o s

theorem settingsUpdatedCb_flightStatus (k : Consts) (x : Ext) (ev : Option UAVObjEvent)
    (o : Objects) (s : AttState) :
    (settingsUpdatedCb k x ev o s).flightStatus = (cbRefresh ev o s).flightStatus := by
  unfold settingsUpdatedCb cbReload cbReinitBlock cbReinit cbHomeLocation
  simp only []
  split_ifs <;> rfl

theorem sampleConfig_valid : cbVarianceCheck sampleConfig = false := by
  norm_num [cbVarianceCheck, sampleConfig, List.replicate, invalid_var, invalid, f1, Flt.isnan,
    Flt.isinf, Flt.lt]

/-- C4, as stated, fails: armed and Running on the outdoor INS, a configuration update is
deferred (`variance_error` set, state `deferredState`); a task cycle with a gyro timeout
then sets `initialization_required`, and the next configuration callback, the vehicle
still armed, clears `variance_error` and installs the complementary filter. -/
theorem C4_counterexample_timeout_then_update :
    settingsUpdatedCb sampleConsts sampleExt (some ⟨UAVObjHandle.EKFConfiguration⟩)
      complementaryObjects runningState = deferredState ∧
    deferredState.variance_error = true ∧
    deferredState.flightStatus.Armed = sampleConsts.FLIGHTSTATUS_ARMED_ARMED ∧
    (run sampleConsts sampleExt deferredState [Step.cycle timeoutIn]).flightStatus.Armed
      = sampleConsts.FLIGHTSTATUS_ARMED_ARMED ∧
    (run sampleConsts sampleExt deferredState [Step.cycle timeoutIn]).variance_error = true ∧
    (run sampleConsts sampleExt deferredState
      [Step.cycle timeoutIn,
       Step.callback (some ⟨UAVObjHandle.EKFConfiguration⟩) complementaryObjects]
      ).flightStatus.Armed = sampleConsts.FLIGHTSTATUS_ARMED_ARMED ∧
    (run sampleConsts sampleExt deferredState
      [Step.cycle timeoutIn,
       Step.callback (some ⟨UAVObjHandle.EKFConfiguration⟩) complementaryObjects]
      ).variance_error = false ∧
    (run sampleConsts sampleExt deferredState
      [Step.cycle timeoutIn,
       Step.callback (some ⟨UAVObjHandle.EKFConfiguration⟩) complementaryObjects]
      ).running_algorithm = 0 ∧
    deferredState.running_algorithm = 1 := by
  have h1 : run sampleConsts sampleExt deferredState [Step.cycle timeoutIn] = pendingState :=
    rfl
  have h2 : run sampleConsts sampleExt deferredState
      [Step.cycle timeoutIn,
       Step.callback (some ⟨UAVObjHandle.EKFConfiguration⟩) complementaryObjects] =
      settingsUpdatedCb sampleConsts sampleExt (some ⟨UAVObjHandle.EKFConfiguration⟩)
        complementaryObjects pendingState := rfl
  have h3 := settingsUpdatedCb_reinitVars sampleConsts sampleExt
    (some ⟨UAVObjHandle.EKFConfiguration⟩) complementaryObjects pendingState
  rw [if_pos (by decide)] at h3
  rw [cbReinit_apply sampleConsts complementaryObjects _ sampleConfig_valid
    (by intro h; exact absurd h.2 (by decide))] at h3
  obtain ⟨e1, -, e3⟩ : _ ∧ _ ∧ _ := by
    simpa only [reinitVars, Prod.mk.injEq] using h3
  rw [h2]
  refine ⟨rfl, rfl, rfl, by rw [h1]; rfl, by rw [h1]; rfl, ?_, e1, e3, rfl⟩
  rw [settingsUpdatedCb_flightStatus]
  rfl

theorem run_cons (k : Consts) (x : Ext) (s : AttState) (st : Step) (rest : List Step) :
    run k x s (st :: rest) = run k x (step k x s st) rest := rfl

/-- C4, amended (`settingsUpdatedCb` 1097-1111, `AttitudeTask` 252-278): over every sequence
of task cycles and settings callbacks in which each callback that enters the
re-initialisation block finds the cached flight status ARMED and no initialisation pending
(`initialization_required` false), `variance_error` stays set and `running_algorithm` keeps
its value. -/
theorem C4_deferred_flag_held_while_armed (k : Consts) (x : Ext) (s : AttState)
    (steps : List Step)
    (hflag : s.variance_error = true)
    (hdef : deferralHolds k x s steps = true) :
    (run k x s steps).variance_error = true ∧
    (run k x s steps).running_algorithm = s.running_algorithm := by
  induction steps generalizing s with
  | nil => exact ⟨hflag, rfl⟩
  | cons st rest ih =>
    rw [run_cons]
    cases st with
    | cycle i =>
      obtain ⟨e1, e2, -⟩ := supervisorOf_eq (AttitudeTask_supervisor k x i s)
      have h := ih (step k x s (Step.cycle i)) (e1.trans hflag) hdef
      exact ⟨h.1, h.2.trans e2⟩
    | callback ev o =>
      simp only [deferralHolds, Bool.and_eq_true, Bool.or_eq_true, Bool.not_eq_true',
        beq_iff_eq] at hdef
      obtain ⟨hc, hrest⟩ := hdef
      have hv := settingsUpdatedCb_reinitVars k x ev o s
      have hkeep : reinitVars (settingsUpdatedCb k x ev o s) =
          (true, s.initialization_required, s.running_algorithm) := by
        rcases hc with hc | ⟨ha, hi⟩
        · rw [hv, if_neg (by simp [hc])]
          unfold reinitVars
          rw [hflag]
        · by_cases hg : cbReinitGuard ev s = true
          · obtain ⟨-, r2, r3⟩ := reinitVars_eq (cbRefresh_reinitVars ev o s)
            rw [hv, if_pos hg, cbReinit_error k o _ (Or.inr ⟨ha, by rw [r2]; exact hi⟩), r2, r3]
          · rw [hv, if_neg hg]
            unfold reinitVars
            rw [hflag]
      unfold reinitVars at hkeep
      simp only [Prod.mk.injEq] at hkeep
      have h := ih (step k x s (Step.callback ev o)) hkeep.1 hrest
      exact ⟨h.1, h.2.trans hkeep.2.2⟩

/-- C4 (amended) at a sample run: armed, with nothing pending, a configuration update and
a flight status update leave the deferred flag set and the outdoor INS running. -/
theorem C4_witness_armed_run :
    (run sampleConsts sampleExt deferredState
      [Step.callback (some ⟨UAVObjHandle.EKFConfiguration⟩) complementaryObjects,
       Step.callback (some ⟨UAVObjHandle.FlightStatus⟩) complementaryObjects]
      ).variance_error = true ∧
    (run sampleConsts sampleExt deferredState
      [Step.callback (some ⟨UAVObjHandle.EKFConfiguration⟩) complementaryObjects,
       Step.callback (some ⟨UAVObjHandle.FlightStatus⟩) complementaryObjects]
      ).running_algorithm = 1 :=
  C4_deferred_flag_held_while_armed sampleConsts sampleExt deferredState
    [Step.callback (some ⟨UAVObjHandle.EKFConfiguration⟩) complementaryObjects,
     Step.callback (some ⟨UAVObjHandle.FlightStatus⟩) complementaryObjects]
    (by decide) (by decide)

theorem invalid_var_iff (d : Flt) :
    invalid_var d = true ↔
      (d = Flt.nan ∨ d = Flt.pinf ∨ d = Flt.ninf ∨ ∃ q : ℚ, d = Flt.fin q ∧ q < 1 / 10 ^ 15) := by
  cases d with
  | fin q => simp [invalid_var, invalid, Flt.isnan, Flt.isinf, Flt.lt]
  | pinf => simp [invalid_var, invalid, Flt.isnan, Flt.isinf]
  | ninf => simp [invalid_var, invalid, Flt.isnan, Flt.isinf]
  | nan => simp [invalid_var, invalid, Flt.isnan, Flt.isinf]

/-- A callback that enters the re-initialisation block with an invalid P, Q or R element
raises `variance_error` and leaves the other two supervisor variables alone. -/
theorem settingsUpdatedCb_invalid (k : Consts) (x : Ext) (ev : Option UAVObjEvent)
    (o : Objects) (s : AttState) (hg : cbReinitGuard ev s = true)
    (hbad : cbVarianceCheck o.ekfConfiguration = true) :
    reinitVars (settingsUpdatedCb k x ev o s) =
      (true, s.initialization_required, s.running_algorithm) := by
  obtain ⟨-, r2, r3⟩ := reinitVars_eq (cbRefresh_reinitVars ev o s)
  rw [settingsUpdatedCb_reinitVars, if_pos hg, cbReinit_error k o _ (Or.inl hbad), r2, r3]

/-- C5 (`invalid_var` 127-143, `settingsUpdatedCb` 1075-1111): `invalid_var` holds exactly
of NaN, the infinities and the values below 1e-15, so of zero and of every negative value;
a configuration update processed by the callback with an invalid element in P, Q or R sets
`variance_error` and leaves `running_algorithm` and `initialization_required` unchanged;
and `variance_error` then stays set through every sequence of task cycles and callbacks in
which every callback finds an invalid element. -/
theorem C5_invalid_variance_held (k : Consts) (x : Ext) :
    (∀ d : Flt, invalid_var d = true ↔
      (d = Flt.nan ∨ d = Flt.pinf ∨ d = Flt.ninf ∨
        ∃ q : ℚ, d = Flt.fin q ∧ q < 1 / 10 ^ 15)) ∧
    (∀ q : ℚ, q ≤ 0 → invalid_var (Flt.fin q) = true) ∧
    (∀ (ev : Option UAVObjEvent) (o : Objects) (s : AttState) (d : Flt),
      cbReinitGuard ev s = true →
      (d ∈ o.ekfConfiguration.P ∨ d ∈ o.ekfConfiguration.Q ∨ d ∈ o.ekfConfiguration.R) →
      invalid_var d = true →
      (settingsUpdatedCb k x ev o s).variance_error = true ∧
      (settingsUpdatedCb k x ev o s).running_algorithm = s.running_algorithm ∧
      (settingsUpdatedCb k x ev o s).initialization_required = s.initialization_required) ∧
    (∀ (s : AttState) (steps : List Step),
      s.variance_error = true →
      (∀ ev o, Step.callback ev o ∈ steps →
        ∃ d, (d ∈ o.ekfConfiguration.P ∨ d ∈ o.ekfConfiguration.Q ∨ d ∈ o.ekfConfiguration.R) ∧
          invalid_var d = true) →
      (run k x s steps).variance_error = true) := by
  refine ⟨invalid_var_iff, ?_, ?_, ?_⟩
  · intro q hq
    rw [invalid_var_iff]
    refine Or.inr (Or.inr (Or.inr ⟨q, rfl, lt_of_le_of_lt hq (by norm_num)⟩))
  · intro ev o s d hg hd hbad
    have h := settingsUpdatedCb_invalid k x ev o s hg (cbVarianceCheck_true _ d hd hbad)
    unfold reinitVars at h
    simp only [Prod.mk.injEq] at h
    exact ⟨h.1, h.2.2, h.2.1⟩
  · intro s steps
    induction steps generalizing s with
    | nil => exact fun h _ => h
    | cons st rest ih =>
      intro hflag hall
      rw [run_cons]
      refine ih _ ?_ (fun ev o hm => hall ev o (List.mem_cons_of_mem _ hm))
      cases st with
      | cycle i =>
        exact (supervisorOf_eq (AttitudeTask_supervisor k x i s)).1.trans hflag
      | callback ev o =>
        obtain ⟨d, hd, hbad⟩ := hall ev o (List.mem_cons_self _ _)
        have hv := settingsUpdatedCb_reinitVars k x ev o s
        by_cases hg : cbReinitGuard ev s = true
        · have h := settingsUpdatedCb_invalid k x ev o s hg (cbVarianceCheck_true _ d hd hbad)
          exact (reinitVars_eq (h.trans (by rw [← hflag]; rfl))).1.trans hflag
        · rw [if_neg hg] at hv
          exact (reinitVars_eq hv).1.trans hflag

theorem negativeConfig_invalid : invalid_var (Flt.fin (-1)) = true := by
  norm_num [invalid_var, invalid, Flt.isnan, Flt.isinf, Flt.lt]

/-- C5 at a sample input: a configuration update with the magnitude `Q[0] = -1` raises
`variance_error` in the Running state, and a following task cycle and a second update
with the same configuration keep it raised. -/
theorem C5_witness_negative_magnitude :
    (settingsUpdatedCb sampleConsts sampleExt (some ⟨UAVObjHandle.EKFConfiguration⟩)
      negativeObjects runningState).variance_error = true ∧
    (run sampleConsts sampleExt
      (settingsUpdatedCb sampleConsts sampleExt (some ⟨UAVObjHandle.EKFConfiguration⟩)
        negativeObjects runningState)
      [Step.cycle sampleIn,
       Step.callback (some ⟨UAVObjHandle.EKFConfiguration⟩) negativeObjects]
      ).variance_error = true :=
  have h := C5_invalid_variance_held sampleConsts sampleExt
  have h1 := h.2.2.1 (some ⟨UAVObjHandle.EKFConfiguration⟩) negativeObjects runningState
    (Flt.fin (-1)) (by decide) (Or.inr (Or.inl (by decide))) negativeConfig_invalid
  ⟨h1.1, h.2.2.2 _ [Step.cycle sampleIn,
      Step.callback (some ⟨UAVObjHandle.EKFConfiguration⟩) negativeObjects] h1.1
    (by
      intro ev o hm
      simp only [List.mem_cons, List.mem_singleton, Step.callback.injEq, List.not_mem_nil,
        or_false, false_or, reduceCtorEq] at hm
      obtain ⟨-, rfl⟩ := hm
      exact ⟨Flt.fin (-1), Or.inr (Or.inl (by decide)), negativeConfig_invalid⟩)⟩

/-! ## Alarm selection -/

/-- The effect of the early return of lines 684-686. -/
theorem inertialInvalid_frame (k : Consts) (x : Ext) (outdoor_mode : Bool) (i : CycleIn)
    (s : AttState) (hreach : sensorTimeout i = false) (hbad : insInertialInvalid i.toReadings = true) :
    (updateAttitudeINSGPS k x false outdoor_mode i s).1 = 0 ∧
    (updateAttitudeINSGPS k x false outdoor_mode i s).2.alarm = AlarmSeverity.Error ∧
    (updateAttitudeINSGPS k x false outdoor_mode i s).2.trace = s.trace ∧
    (updateAttitudeINSGPS k x false outdoor_mode i s).2.nav = s.nav ∧
    (updateAttitudeINSGPS k x false outdoor_mode i s).2.inited = s.inited ∧
    (updateAttitudeINSGPS k x false outdoor_mode i s).2.init_stage = s.init_stage ∧
    (updateAttitudeINSGPS k x false outdoor_mode i s).2.baroOffset = s.baroOffset ∧
    (updateAttitudeINSGPS k x false outdoor_mode i s).2.attitudeActual = s.attitudeActual ∧
    (updateAttitudeINSGPS k x false outdoor_mode i s).2.positionActual = s.positionActual ∧
    (updateAttitudeINSGPS k x false outdoor_mode i s).2.velocityActual = s.velocityActual ∧
    (updateAttitudeINSGPS k x false outdoor_mode i s).2.gyrosBias = s.gyrosBias := by
  have e : updateAttitudeINSGPS k x false outdoor_mode i s =
      (0, { insPoll outdoor_mode i.toReadings (insClearIfInited s) with
            value_error := false, alarm := AlarmSeverity.Error }) := by
    unfold updateAttitudeINSGPS
    simp only [hreach, hbad, Bool.false_eq_true, if_false, if_true]
  have hm : flagsMasked (insPoll outdoor_mode i.toReadings (insClearIfInited s)) = flagsMasked s :=
    (insPoll_masked outdoor_mode i.toReadings (insClearIfInited s)).trans (insClearIfInited_masked s)
  rw [e]
  refine ⟨rfl, rfl, ?_, ?_, ?_, ?_, ?_, ?_, ?_, ?_, ?_⟩
  · exact (congrArg (fun u : AttState => u.trace) hm :)
  · exact (congrArg (fun u : AttState => u.nav) hm :)
  · exact (congrArg (fun u : AttState => u.inited) hm :)
  · exact (congrArg (fun u : AttState => u.init_stage) hm :)
  · exact (congrArg (fun u : AttState => u.baroOffset) hm :)
  · exact (congrArg (fun u : AttState => u.attitudeActual) hm :)
  · exact (congrArg (fun u : AttState => u.positionActual) hm :)
  · exact (congrArg (fun u : AttState => u.velocityActual) hm :)
  · exact (congrArg (fun u : AttState => u.gyrosBias) hm :)

/-- The alarm left by an INS cycle that reaches the alarm selection is chosen by the first
matching rule of lines 758-768, on `inited` and `variance_error` as the cycle found them
and on the `value_error` it computed. -/
theorem ins_alarm_selected (k : Consts) (x : Ext) (outdoor_mode : Bool) (i : CycleIn)
    (s : AttState) (h1 : sensorTimeout i = false) (h2 : insInertialInvalid i.toReadings = false) :
    (updateAttitudeINSGPS k x false outdoor_mode i s).2.alarm =
      if !s.inited then AlarmSeverity.Error
      else if (updateAttitudeINSGPS k x false outdoor_mode i s).2.value_error
        then AlarmSeverity.Critical
      else if s.variance_error then AlarmSeverity.Critical
      else if outdoor_mode && decide (i.gpsData.Satellites < 7) then AlarmSeverity.Error
      else AlarmSeverity.Clear := by
  rw [updateAttitudeINSGPS_valid k x outdoor_mode i s h1 h2]
  generalize insGyrosBias (insPoll outdoor_mode i.toReadings (insClearIfInited s)) = gb
  have ha := congrArg (fun u : AttState => u.alarm)
    (insDispatch_outputs k x outdoor_mode i.toReadings gb (insPrepared k outdoor_mode i.toReadings (insClearIfInited s)))
  have hv := congrArg (fun u : AttState => u.value_error)
    (insDispatch_outputs k x outdoor_mode i.toReadings gb (insPrepared k outdoor_mode i.toReadings (insClearIfInited s)))
  have ha2 : (insDispatch k x outdoor_mode i.toReadings gb
      (insPrepared k outdoor_mode i.toReadings (insClearIfInited s))).alarm =
      (insPrepared k outdoor_mode i.toReadings (insClearIfInited s)).alarm := ha
  have hv2 : (insDispatch k x outdoor_mode i.toReadings gb
      (insPrepared k outdoor_mode i.toReadings (insClearIfInited s))).value_error =
      (insPrepared k outdoor_mode i.toReadings (insClearIfInited s)).value_error := hv
  simp only [ha2, hv2]
  have hg := insGate_masked k i.toReadings
    { insPoll outdoor_mode i.toReadings (insClearIfInited s) with value_error := false }
  have hp : flagsMasked
      ({ insPoll outdoor_mode i.toReadings (insClearIfInited s) with value_error := false } : AttState)
      = flagsMasked s :=
    (insPoll_masked outdoor_mode i.toReadings (insClearIfInited s)).trans (insClearIfInited_masked s)
  have hi := masked_inited (hg.trans hp)
  have hve := masked_variance_error (hg.trans hp)
  unfold insPrepared
  simp only []
  unfold insAlarm
  rw [hi, hve]

theorem compSteady_alarm (k : Consts) (x : Ext) (i : Readings) (s : AttState) :
    (compSteady k x i s).alarm =
      if s.variance_error then AlarmSeverity.Critical else AlarmSeverity.Clear := by
  have h : supervisorOf (compFlush k x i (compUpdate k x i (compGains k i s))) = supervisorOf s := by
    rw [compFlush_supervisor, compUpdate_supervisor, compGains_supervisor]
  have hv := (supervisorOf_eq h).1
  unfold compSteady compAlarm
  simp only [hv]
  split_ifs <;> rfl

/-- C6, as stated, fails: with `variance_error` set and no timeout, an outdoor INS cycle on
a filter that is not yet initialised returns 0 with the alarm at Error; an INS cycle on the
initialised filter with a NaN gyro component returns 0 with the alarm at Error; and a
first-run cycle of either estimator returns 0 without touching the alarm (here Clear). -/
theorem C6_counterexample_uninitialised_filter :
    stagingErrorState.variance_error = true ∧ deferredState.variance_error = true ∧
    sensorTimeout sampleIn = false ∧ sensorTimeout nanGyroIn = false ∧
    (updateAttitudeINSGPS sampleConsts sampleExt false true sampleIn stagingErrorState).1 = 0 ∧
    (updateAttitudeINSGPS sampleConsts sampleExt false true sampleIn stagingErrorState).2.alarm
      = AlarmSeverity.Error ∧
    (updateAttitudeINSGPS sampleConsts sampleExt false true nanGyroIn deferredState).1 = 0 ∧
    (updateAttitudeINSGPS sampleConsts sampleExt false true nanGyroIn deferredState).2.alarm
      = AlarmSeverity.Error ∧
    (updateAttitudeINSGPS sampleConsts sampleExt true true sampleIn deferredState).1 = 0 ∧
    (updateAttitudeINSGPS sampleConsts sampleExt true true sampleIn deferredState).2.alarm
      = AlarmSeverity.Clear ∧
    (updateAttitudeComplementary sampleConsts sampleExt true sampleIn deferredState).1 = 0 ∧
    (updateAttitudeComplementary sampleConsts sampleExt true sampleIn deferredState).2.alarm
      = AlarmSeverity.Clear := by
  have hnan := inertialInvalid_frame sampleConsts sampleExt true nanGyroIn deferredState
    (by decide) (by decide)
  refine ⟨rfl, rfl, by decide, by decide, ?_, ?_, hnan.1, hnan.2.1, rfl, rfl, rfl, rfl⟩
  · rw [updateAttitudeINSGPS_valid sampleConsts sampleExt true sampleIn stagingErrorState
      (by decide) (by decide)]
  · rw [ins_alarm_selected sampleConsts sampleExt true sampleIn stagingErrorState
      (by decide) (by decide)]
    rfl

/-- C6, amended (complementary 561-565, INS 758-768): while `variance_error` is set, every
steady-state (not first-run) cycle of the complementary filter that passes the timeout
check sets the alarm to Critical, and so does every INS cycle that passes the timeout
check, is not a first run, has finite gyro and accelerometer values and finds the filter
initialised. -/
theorem C6_variance_error_alarm_critical (k : Consts) (x : Ext) (i : CycleIn) (s : AttState)
    (hvar : s.variance_error = true) (hreach : sensorTimeout i = false) :
    (updateAttitudeComplementary k x false i s).2.alarm = AlarmSeverity.Critical ∧
    ∀ outdoor_mode : Bool, insInertialInvalid i.toReadings = false → s.inited = true →
      (updateAttitudeINSGPS k x false outdoor_mode i s).2.alarm = AlarmSeverity.Critical := by
  constructor
  · unfold updateAttitudeComplementary
    simp only [hreach, Bool.false_eq_true, if_false]
    rw [compSteady_alarm, hvar]
    rfl
  · intro outdoor_mode hvalid hin
    rw [ins_alarm_selected k x outdoor_mode i s hreach hvalid, hin, hvar]
    simp only [Bool.not_true, Bool.false_eq_true, if_false, if_true, ite_self]

/-- C6 (amended) at a sample input: the Running state with `variance_error` set. -/
theorem C6_witness_deferred_state :
    (updateAttitudeComplementary sampleConsts sampleExt false sampleIn deferredState).2.alarm
      = AlarmSeverity.Critical ∧
    (updateAttitudeINSGPS sampleConsts sampleExt false true sampleIn deferredState).2.alarm
      = AlarmSeverity.Critical :=
  have h := C6_variance_error_alarm_critical sampleConsts sampleExt sampleIn deferredState
    (by decide) (by decide)
  ⟨h.1, h.2 true (by decide) (by decide)⟩

/-- C7, as stated, fails: on a filter that is not yet initialised, with `variance_error`
set, an indoor INS cycle sets the alarm to Error although the most severe applicable
condition is Critical. -/
theorem C7_counterexample_error_masks_critical :
    (updateAttitudeINSGPS sampleConsts sampleExt false false sampleIn stagingErrorState).2.alarm
      = AlarmSeverity.Error ∧
    mostSevere (applicableSeverities (!stagingErrorState.inited)
      (updateAttitudeINSGPS sampleConsts sampleExt false false sampleIn
        stagingErrorState).2.value_error
      stagingErrorState.variance_error
      (false && decide (sampleIn.gpsData.Satellites < 7))) = AlarmSeverity.Critical := by
  constructor
  · rw [ins_alarm_selected sampleConsts sampleExt false sampleIn stagingErrorState
      (by decide) (by decide)]
    rfl
  · cases (updateAttitudeINSGPS sampleConsts sampleExt false false sampleIn
      stagingErrorState).2.value_error <;> rfl

/-- C7, amended (`updateAttitudeINSGPS` 758-768): in every INS cycle that reaches the alarm
selection, the alarm is Error while the filter is not yet initialised, whatever else
applies; once the filter is initialised it is the most severe of the remaining conditions
(value error Critical, variance error Critical, outdoor mode with fewer than 7 satellites
Error), and Clear when none applies. -/
theorem C7_alarm_first_match (k : Consts) (x : Ext) (outdoor_mode : Bool) (i : CycleIn)
    (s : AttState) (hreach : sensorTimeout i = false) (hvalid : insInertialInvalid i.toReadings = false) :
    (updateAttitudeINSGPS k x false outdoor_mode i s).2.alarm =
      if s.inited then
        mostSevere (applicableSeverities false
          (updateAttitudeINSGPS k x false outdoor_mode i s).2.value_error
          s.variance_error
          (outdoor_mode && decide (i.gpsData.Satellites < 7)))
      else AlarmSeverity.Error := by
  rw [ins_alarm_selected k x outdoor_mode i s hreach hvalid]
  generalize (updateAttitudeINSGPS k x false outdoor_mode i s).2.value_error = ve
  generalize (outdoor_mode && decide (i.gpsData.Satellites < 7)) = few
  cases s.inited <;> cases ve <;> cases s.variance_error <;> cases few <;> rfl

/-- C7 (amended) at a sample input: Running outdoors with 3 satellites and no other
condition, the alarm is Error. -/
theorem C7_witness_few_satellites :
    (updateAttitudeINSGPS sampleConsts sampleExt false true threeSatIn runningState).2.alarm =
      mostSevere (applicableSeverities false
        (updateAttitudeINSGPS sampleConsts sampleExt false true threeSatIn
          runningState).2.value_error
        false true) :=
  C7_alarm_first_match sampleConsts sampleExt true threeSatIn runningState
    (by decide) (by decide)

/-! ## Invalid inertial samples and timeouts -/

/-- C8 (`updateAttitudeINSGPS` 676-687): in a cycle that is not a first run and reads a
gyro or accelerometer sample with a NaN or infinite component (the timeout check having
let the cycle through), the alarm is set to Error, the function returns 0, no INS library
function is called, and `inited`, `init_stage`, the baro offset and the published
attitude, position, velocity and gyro bias are unchanged. -/
theorem C8_invalid_inertial_sample (k : Consts) (x : Ext) (outdoor_mode : Bool) (i : CycleIn)
    (s : AttState) (hreach : sensorTimeout i = false) (hbad : insInertialInvalid i.toReadings = true) :
    (updateAttitudeINSGPS k x false outdoor_mode i s).1 = 0 ∧
    (updateAttitudeINSGPS k x false outdoor_mode i s).2.alarm = AlarmSeverity.Error ∧
    (updateAttitudeINSGPS k x false outdoor_mode i s).2.trace = s.trace ∧
    (updateAttitudeINSGPS k x false outdoor_mode i s).2.nav = s.nav ∧
    (updateAttitudeINSGPS k x false outdoor_mode i s).2.inited = s.inited ∧
    (updateAttitudeINSGPS k x false outdoor_mode i s).2.init_stage = s.init_stage ∧
    (updateAttitudeINSGPS k x false outdoor_mode i s).2.baroOffset = s.baroOffset ∧
    (updateAttitudeINSGPS k x false outdoor_mode i s).2.attitudeActual = s.attitudeActual ∧
    (updateAttitudeINSGPS k x false outdoor_mode i s).2.positionActual = s.positionActual ∧
    (updateAttitudeINSGPS k x false outdoor_mode i s).2.velocityActual = s.velocityActual ∧
    (updateAttitudeINSGPS k x false outdoor_mode i s).2.gyrosBias = s.gyrosBias := by
  have e : updateAttitudeINSGPS k x false outdoor_mode i s =
      (0, { insPoll outdoor_mode i.toReadings (insClearIfInited s) with
            value_error := false, alarm := AlarmSeverity.Error }) := by
    unfold updateAttitudeINSGPS
    simp only [hreach, hbad, Bool.false_eq_true, if_false, if_true]
  have hm : flagsMasked (insPoll outdoor_mode i.toReadings (insClearIfInited s)) = flagsMasked s :=
    (insPoll_masked outdoor_mode i.toReadings (insClearIfInited s)).trans (insClearIfInited_masked s)
  rw [e]
  refine ⟨rfl, rfl, ?_, ?_, ?_, ?_, ?_, ?_, ?_, ?_, ?_⟩
  · exact (congrArg (fun u : AttState => u.trace) hm :)
  · exact (congrArg (fun u : AttState => u.nav) hm :)
  · exact (congrArg (fun u : AttState => u.inited) hm :)
  · exact (congrArg (fun u : AttState => u.init_stage) hm :)
  · exact (congrArg (fun u : AttState => u.baroOffset) hm :)
  · exact (congrArg (fun u : AttState => u.attitudeActual) hm :)
  · exact (congrArg (fun u : AttState => u.positionActual) hm :)
  · exact (congrArg (fun u : AttState => u.velocityActual) hm :)
  · exact (congrArg (fun u : AttState => u.gyrosBias) hm :)

/-- C8 at a sample input: a NaN gyro component in the Running state. -/
theorem C8_witness_nan_gyro :
    nanGyroIn.gyrosData.x = Flt.nan ∧
    (updateAttitudeINSGPS sampleConsts sampleExt false true nanGyroIn runningState).1 = 0 ∧
    (updateAttitudeINSGPS sampleConsts sampleExt false true nanGyroIn runningState).2.alarm
      = AlarmSeverity.Error ∧
    (updateAttitudeINSGPS sampleConsts sampleExt false true nanGyroIn runningState).2.trace
      = [] :=
  have h := C8_invalid_inertial_sample sampleConsts sampleExt true nanGyroIn runningState
    (by decide) (by decide)
  ⟨rfl, h.1, h.2.1, h.2.2.1⟩

theorem sensorTimeout_of_miss (i : CycleIn)
    (hmiss : i.gyroReceived = false ∨ i.accelReceived = false) :
    sensorTimeout i = !i.AttitudeActualReadOnly := by
  unfold sensorTimeout
  rcases hmiss with h | h <;> simp [h]

/-- C9 (complementary 300-310, INS 615-624): when the gyro or the accelerometer sample does
not arrive in time and `AttitudeActual` is not read-only, both update functions set the
alarm to Warning, return -1 and change nothing else; when `AttitudeActual` is read-only
both behave exactly as if the two samples had arrived. -/
theorem C9_timeout_warning_or_simulation (k : Consts) (x : Ext) (first_run outdoor_mode : Bool)
    (i : CycleIn) (s : AttState)
    (hmiss : i.gyroReceived = false ∨ i.accelReceived = false) :
    (i.AttitudeActualReadOnly = false →
      updateAttitudeComplementary k x first_run i s =
        (-1, { s with alarm := AlarmSeverity.Warning }) ∧
      updateAttitudeINSGPS k x first_run outdoor_mode i s =
        (-1, { s with alarm := AlarmSeverity.Warning })) ∧
    (i.AttitudeActualReadOnly = true →
      updateAttitudeComplementary k x first_run i s =
        updateAttitudeComplementary k x first_run
          { i with gyroReceived := true, accelReceived := true } s ∧
      updateAttitudeINSGPS k x first_run outdoor_mode i s =
        updateAttitudeINSGPS k x first_run outdoor_mode
          { i with gyroReceived := true, accelReceived := true } s) := by
  have ht := sensorTimeout_of_miss i hmiss
  constructor
  · intro hro
    rw [hro] at ht
    unfold updateAttitudeComplementary updateAttitudeINSGPS
    simp only [ht, Bool.not_false, if_true, and_self]
  · intro hro
    rw [hro] at ht
    have ht2 : sensorTimeout { i with gyroReceived := true, accelReceived := true } = false := rfl
    unfold updateAttitudeComplementary updateAttitudeINSGPS
    simp only [ht, ht2, Bool.not_true, Bool.false_eq_true, if_false, and_self]

/-- C9 at sample inputs: a missing gyro sample in the Running state, outside and inside
simulation mode. -/
theorem C9_witness_missing_gyro :
    updateAttitudeINSGPS sampleConsts sampleExt false true timeoutIn runningState =
      (-1, { runningState with alarm := AlarmSeverity.Warning }) ∧
    updateAttitudeINSGPS sampleConsts sampleExt false true simulationTimeoutIn runningState =
      updateAttitudeINSGPS sampleConsts sampleExt false true
        { simulationTimeoutIn with gyroReceived := true, accelReceived := true } runningState :=
  ⟨((C9_timeout_warning_or_simulation sampleConsts sampleExt false true timeoutIn runningState
      (Or.inl rfl)).1 rfl).2,
   ((C9_timeout_warning_or_simulation sampleConsts sampleExt false true simulationTimeoutIn
      runningState (Or.inl rfl)).2 rfl).2⟩

/-! ## Staged initialisation -/

theorem insStagedGuard_eq (outdoor_mode : Bool) (s : AttState) :
    insStagedGuard outdoor_mode s = (!s.inited && stagedFlags outdoor_mode s) := by
  unfold insStagedGuard stagedFlags
  simp only [Bool.and_assoc]

theorem outputs_inited {s t : AttState} (h : outputsMasked s = outputsMasked t) :
    s.inited = t.inited ∧ s.init_stage = t.init_stage := by
  have e1 := congrArg (fun u : AttState => u.inited) h
  have e2 := congrArg (fun u : AttState => u.init_stage) h
  exact ⟨e1, e2⟩

theorem outputs_ekfConfiguration {s t : AttState} (h : outputsMasked s = outputsMasked t) :
    s.ekfConfiguration = t.ekfConfiguration := by
  have e1 := congrArg (fun u : AttState => u.ekfConfiguration) h
  exact e1

theorem insAdvanceStage_init_stage (s : AttState) :
    (insAdvanceStage s).init_stage = s.init_stage + 1 := by
  unfold insAdvanceStage
  simp only []
  split_ifs <;> rfl

theorem insAdvanceStage_inited (s : AttState) :
    (insAdvanceStage s).inited = if s.init_stage + 1 > 10 then true else s.inited := by
  unfold insAdvanceStage
  simp only []
  split_ifs <;> rfl

theorem insAdvanceStage_trace (s : AttState) : (insAdvanceStage s).trace = s.trace := by
  unfold insAdvanceStage
  simp only []
  split_ifs <;> rfl

theorem insStaged_init_stage (k : Consts) (x : Ext) (outdoor_mode : Bool) (i : Readings)
    (gyrosBias : Vec3) (dT : Flt) (s : AttState) :
    (insStaged k x outdoor_mode i gyrosBias dT s).init_stage = s.init_stage + 1 ∧
    (insStaged k x outdoor_mode i gyrosBias dT s).inited =
      if s.init_stage + 1 > 10 then true else s.inited := by
  have h : ∀ t : AttState, outputsMasked t = outputsMasked s →
      (insAdvanceStage t).init_stage = s.init_stage + 1 ∧
      (insAdvanceStage t).inited = if s.init_stage + 1 > 10 then true else s.inited := by
    intro t ht
    obtain ⟨e0, e1⟩ := outputs_inited ht
    rw [insAdvanceStage_init_stage, insAdvanceStage_inited, e0, e1]
    exact ⟨rfl, rfl⟩
  unfold insStaged
  simp only []
  by_cases h0 : (s.init_stage == 0) = true
  · rw [if_pos h0]
    exact h _ (insStageZero_outputs k x outdoor_mode i s)
  · rw [if_neg h0]
    exact h _ (insStagePredict_outputs k x i gyrosBias dT s)

theorem insSeed_trace (k : Consts) (x : Ext) (s : AttState) :
    (insSeed k x s).trace = s.trace ++ (seedCalls k s.ekfConfiguration zeros ⟨f0, f0, f0, f0⟩).take 7
    := by
  simp only [insSeed, insCall_trace, seedCalls, List.take, List.append_assoc,
    List.singleton_append]
  rfl

theorem insInitialPosition_trace (x : Ext) (outdoor_mode : Bool) (i : Readings) (s : AttState) :
    (insInitialPosition x outdoor_mode i s).2.trace = s.trace := by
  cases outdoor_mode <;> rfl

theorem insInitialState_trace (x : Ext) (i : Readings) (pos : Vec3) (s : AttState) :
    ∃ q, (insInitialState x i pos s).trace =
      s.trace ++ [INSCall.INSSetState pos zeros q zeros zeros,
                  INSCall.INSResetP s.ekfConfiguration.P] := by
  refine ⟨⟨(initialAttitude x i.accelsData i.magDataInit s.attitudeActual).q1,
    (initialAttitude x i.accelsData i.magDataInit s.attitudeActual).q2,
    (initialAttitude x i.accelsData i.magDataInit s.attitudeActual).q3,
    (initialAttitude x i.accelsData i.magDataInit s.attitudeActual).q4⟩, ?_⟩
  simp only [insInitialState, insCall_trace, List.append_assoc, List.singleton_append]
  rfl

/-- Stage 0 calls exactly the reset and seeding functions, in the order of `seedCalls`. -/
theorem insStageZero_trace (k : Consts) (x : Ext) (outdoor_mode : Bool) (i : Readings)
    (s : AttState) :
    ∃ pos q, (insStageZero k x outdoor_mode i s).trace =
      s.trace ++ seedCalls k s.ekfConfiguration pos q := by
  unfold insStageZero
  simp only []
  obtain ⟨q, hq⟩ := insInitialState_trace x i
    (insInitialPosition x outdoor_mode i (insSeed k x s)).1
    (insInitialPosition x outdoor_mode i (insSeed k x s)).2
  have hc : (insInitialPosition x outdoor_mode i (insSeed k x s)).2.ekfConfiguration =
      s.ekfConfiguration :=
    (outputs_ekfConfiguration (insInitialPosition_outputs x outdoor_mode i _)).trans
      (outputs_ekfConfiguration (insSeed_outputs k x s))
  refine ⟨(insInitialPosition x outdoor_mode i (insSeed k x s)).1, q, ?_⟩
  rw [hq, insInitialPosition_trace, insSeed_trace, hc]
  simp only [seedCalls, List.take, List.append_assoc, List.cons_append, List.nil_append]

theorem insStagePredict_trace (k : Consts) (x : Ext) (i : Readings) (gyrosBias : Vec3)
    (dT : Flt) (s : AttState) :
    (insStagePredict k x i gyrosBias dT s).trace =
      s.trace ++ [INSCall.INSStatePrediction (insGyros k x i gyrosBias s) i.accelsData dT] :=
  rfl

/-- A qualifying cycle on a filter that is not initialised: the stage counter advances by
one, the filter is promoted when the counter passes 10, and the only library calls are the
seeding calls (stage 0) or one state prediction (later stages). -/
theorem insCycle_qualifying (k : Consts) (x : Ext) (outdoor_mode : Bool) (i : CycleIn)
    (s : AttState) (hin : s.inited = false) (hq : qualifying k outdoor_mode i s = true) :
    (insCycle k x outdoor_mode s i).init_stage = s.init_stage + 1 ∧
    (insCycle k x outdoor_mode s i).inited = (if s.init_stage + 1 > 10 then true else false) ∧
    (s.init_stage = 0 → ∃ pos q, (insCycle k x outdoor_mode s i).trace =
      s.trace ++ seedCalls k s.ekfConfiguration pos q) ∧
    (s.init_stage ≠ 0 → ∃ gyros dT, (insCycle k x outdoor_mode s i).trace =
      s.trace ++ [INSCall.INSStatePrediction gyros i.accelsData dT]) := by
  unfold qualifying at hq
  simp only [Bool.and_eq_true, Bool.not_eq_true'] at hq
  obtain ⟨⟨h1, h2⟩, h3⟩ := hq
  have hci : (insClearIfInited s) = s := by
    unfold insClearIfInited
    simp only [hin, Bool.false_eq_true, if_false]
  unfold insCycle
  rw [updateAttitudeINSGPS_valid k x outdoor_mode i s h1 h2]
  rw [hci] at h3 ⊢
  generalize insGyrosBias (insPoll outdoor_mode i.toReadings s) = gb
  have pin : (insPrepared k outdoor_mode i.toReadings s).inited = false := by
    rw [insPrepared_inited, hin]
  have pst := insPrepared_init_stage k outdoor_mode i.toReadings s
  have ptr := insPrepared_trace k outdoor_mode i.toReadings s
  have pcf : (insPrepared k outdoor_mode i.toReadings s).ekfConfiguration = s.ekfConfiguration :=
    congrArg Supervisor.ekfConfiguration (insPrepared_supervisor k outdoor_mode i.toReadings s)
  generalize insPrepared k outdoor_mode i.toReadings s = p at h3 pin pst ptr pcf
  have hg : insStagedGuard outdoor_mode p = true := by
    rw [insStagedGuard_eq, pin, h3]
    rfl
  unfold insDispatch
  simp only [hg, if_true]
  obtain ⟨e1, e2⟩ := insStaged_init_stage k x outdoor_mode i.toReadings gb (insDT i.toReadings) p
  rw [pst, pin] at e2
  rw [pst] at e1
  refine ⟨e1, e2, ?_, ?_⟩
  · intro h0
    have hz : (p.init_stage == 0) = true := by
      rw [pst, h0]
      rfl
    obtain ⟨pos, q, ht⟩ := insStageZero_trace k x outdoor_mode i.toReadings p
    refine ⟨pos, q, ?_⟩
    unfold insStaged
    simp only [hz, if_true, insAdvanceStage_trace]
    rw [ht, ptr, pcf]
  · intro h0
    have hz : (p.init_stage == 0) = false := by
      rw [pst]
      exact beq_false_of_ne h0
    refine ⟨insGyros k x i.toReadings gb p, insDT i.toReadings, ?_⟩
    unfold insStaged
    simp only [hz, Bool.false_eq_true, if_false, insAdvanceStage_trace]
    rw [insStagePredict_trace, ptr]

/-- A cycle that does not qualify leaves a filter that is not initialised where it is: same
stage counter, no promotion, no library call. -/
theorem insCycle_not_qualifying (k : Consts) (x : Ext) (outdoor_mode : Bool) (i : CycleIn)
    (s : AttState) (hin : s.inited = false) (hq : qualifying k outdoor_mode i s = false) :
    (insCycle k x outdoor_mode s i).init_stage = s.init_stage ∧
    (insCycle k x outdoor_mode s i).inited = false ∧
    (insCycle k x outdoor_mode s i).trace = s.trace := by
  have hci : (insClearIfInited s) = s := by
    unfold insClearIfInited
    simp only [hin, Bool.false_eq_true, if_false]
  unfold insCycle
  cases h1 : sensorTimeout i
  · cases h2 : insInertialInvalid i.toReadings
    · rw [updateAttitudeINSGPS_valid k x outdoor_mode i s h1 h2, hci]
      have h3 : stagedFlags outdoor_mode (insPrepared k outdoor_mode i.toReadings s) = false := by
        unfold qualifying at hq
        rw [h1, h2, hci] at hq
        simpa using hq
      have pin : (insPrepared k outdoor_mode i.toReadings s).inited = false := by
        rw [insPrepared_inited, hin]
      have hg : insStagedGuard outdoor_mode (insPrepared k outdoor_mode i.toReadings s) = false := by
        rw [insStagedGuard_eq, h3]
        exact Bool.and_false _
      unfold insDispatch
      simp only [hg, pin, Bool.false_eq_true, if_false, Bool.not_false, if_true]
      exact ⟨insPrepared_init_stage k outdoor_mode i.toReadings s, trivial,
        insPrepared_trace k outdoor_mode i.toReadings s⟩
    · obtain ⟨-, -, c3, -, c5, c6, -⟩ := inertialInvalid_frame k x outdoor_mode i s h1 h2
      exact ⟨c6, c5.trans hin, c3⟩
  · unfold updateAttitudeINSGPS
    simp only [h1, if_true]
    exact ⟨trivial, hin, trivial⟩

/-- Without a first run, an initialised filter stays initialised and its stage counter
stays put. -/
theorem insCycle_inited (k : Consts) (x : Ext) (outdoor_mode : Bool) (i : CycleIn)
    (s : AttState) (hin : s.inited = true) :
    (insCycle k x outdoor_mode s i).inited = true ∧
    (insCycle k x outdoor_mode s i).init_stage = s.init_stage := by
  unfold insCycle
  cases h1 : sensorTimeout i
  · cases h2 : insInertialInvalid i.toReadings
    · rw [updateAttitudeINSGPS_valid k x outdoor_mode i s h1 h2]
      have pin : (insPrepared k outdoor_mode i.toReadings (insClearIfInited s)).inited = true := by
        rw [insPrepared_inited, masked_inited (insClearIfInited_masked s), hin]
      have pst : (insPrepared k outdoor_mode i.toReadings (insClearIfInited s)).init_stage
          = s.init_stage := by
        rw [insPrepared_init_stage, masked_init_stage (insClearIfInited_masked s)]
      generalize insPrepared k outdoor_mode i.toReadings (insClearIfInited s) = p at pin pst
      have hg : insStagedGuard outdoor_mode p = false := by
        rw [insStagedGuard_eq, pin]
        rfl
      unfold insDispatch
      simp only [hg, pin, Bool.false_eq_true, if_false, Bool.not_true]
      obtain ⟨e1, e2⟩ := outputs_inited (insRunning_outputs k x outdoor_mode i.toReadings
        (insGyrosBias (insPoll outdoor_mode i.toReadings (insClearIfInited s)))
        (insDT i.toReadings) p)
      exact ⟨e1.trans pin, e2.trans pst⟩
    · obtain ⟨-, -, -, -, c5, c6, -⟩ := inertialInvalid_frame k x outdoor_mode i s h1 h2
      exact ⟨c5.trans hin, c6⟩
  · unfold updateAttitudeINSGPS
    simp only [h1, if_true]
    exact ⟨hin, trivial⟩

theorem insCycles_cons (k : Consts) (x : Ext) (outdoor_mode : Bool) (s : AttState)
    (i : CycleIn) (rest : List CycleIn) :
    insCycles k x outdoor_mode s (i :: rest) =
      insCycles k x outdoor_mode (insCycle k x outdoor_mode s i) rest := rfl

/-- Along a sequence of cycles the stage counter counts the qualifying cycles up to 11, and
the filter is initialised exactly when 11 of them have been seen. -/
theorem insCycles_count (k : Consts) (x : Ext) (outdoor_mode : Bool) (cycles : List CycleIn) :
    ∀ (s : AttState) (c : Nat),
      ((s.inited = false ∧ s.init_stage = (c : Int) ∧ c ≤ 10) ∨
        (s.inited = true ∧ s.init_stage = 11 ∧ 11 ≤ c)) →
      (((insCycles k x outdoor_mode s cycles).inited = false ∧
          (insCycles k x outdoor_mode s cycles).init_stage
            = ((c + qualCount k x outdoor_mode s cycles : Nat) : Int) ∧
          c + qualCount k x outdoor_mode s cycles ≤ 10) ∨
        ((insCycles k x outdoor_mode s cycles).inited = true ∧
          (insCycles k x outdoor_mode s cycles).init_stage = 11 ∧
          11 ≤ c + qualCount k x outdoor_mode s cycles)) := by
  induction cycles with
  | nil =>
    intro s c h
    simpa [insCycles, qualCount] using h
  | cons i rest ih =>
    intro s c h
    rw [insCycles_cons]
    have hstep : ((insCycle k x outdoor_mode s i).inited = false ∧
        (insCycle k x outdoor_mode s i).init_stage
          = ((c + (if qualifying k outdoor_mode i s then 1 else 0) : Nat) : Int) ∧
        c + (if qualifying k outdoor_mode i s then 1 else 0) ≤ 10) ∨
        ((insCycle k x outdoor_mode s i).inited = true ∧
          (insCycle k x outdoor_mode s i).init_stage = 11 ∧
          11 ≤ c + (if qualifying k outdoor_mode i s then 1 else 0)) := by
      rcases h with ⟨hin, hst, hc⟩ | ⟨hin, hst, hc⟩
      · cases hq : qualifying k outdoor_mode i s
        · obtain ⟨e1, e2, -⟩ := insCycle_not_qualifying k x outdoor_mode i s hin hq
          left
          refine ⟨e2, ?_, ?_⟩
          · rw [e1, hst]
            simp
          · simpa using hc
        · obtain ⟨e1, e2, -⟩ := insCycle_qualifying k x outdoor_mode i s hin hq
          rw [hst] at e1 e2
          by_cases h10 : c + 1 ≤ 10
          · left
            refine ⟨?_, ?_, ?_⟩
            · rw [e2, if_neg (by omega)]
            · rw [e1]
              simp
            · simpa using h10
          · right
            have hc10 : c = 10 := by omega
            subst hc10
            refine ⟨?_, ?_, ?_⟩
            · rw [e2, if_pos (by norm_num)]
            · rw [e1]
              norm_num
            · simp
      · obtain ⟨e1, e2⟩ := insCycle_inited k x outdoor_mode i s hin
        right
        exact ⟨e1, e2.trans hst, Nat.le_trans hc (Nat.le_add_right _ _)⟩
    have := ih (insCycle k x outdoor_mode s i) _ hstep
    simpa only [qualCount, Nat.add_assoc] using this

/-- C10 (`updateAttitudeINSGPS` 626-664, 780-894): let `s0` be the state after a first-run
cycle that passed the timeout check, followed by any sequence of cycles that are not first
runs.  Then `s0` is not initialised at stage 0; the filter is initialised after the
sequence exactly when it contains at least 11 qualifying cycles, and the stage counter is
the number of qualifying cycles capped at 11.  On a filter that is not initialised a
qualifying cycle advances the counter by one and calls only the reset and seeding functions
(at stage 0) or a single state prediction (at later stages); a cycle that does not qualify
leaves counter, phase and filter untouched. -/
theorem C10_promotion_after_eleven_qualifying_cycles (k : Consts) (x : Ext)
    (outdoor_mode : Bool) (i0 : CycleIn) (s s0 : AttState)
    (hs0 : s0 = (updateAttitudeINSGPS k x true outdoor_mode i0 s).2)
    (hfirst : sensorTimeout i0 = false) (cycles : List CycleIn) :
    (s0.inited = false ∧ s0.init_stage = 0) ∧
    ((insCycles k x outdoor_mode s0 cycles).inited = true ↔
      11 ≤ qualCount k x outdoor_mode s0 cycles) ∧
    (insCycles k x outdoor_mode s0 cycles).init_stage =
      ((min (qualCount k x outdoor_mode s0 cycles) 11 : Nat) : Int) ∧
    (∀ (t : AttState) (i : CycleIn), t.inited = false → qualifying k outdoor_mode i t = true →
      (insCycle k x outdoor_mode t i).init_stage = t.init_stage + 1 ∧
      (t.init_stage = 0 → ∃ pos q, (insCycle k x outdoor_mode t i).trace =
        t.trace ++ seedCalls k t.ekfConfiguration pos q) ∧
      (t.init_stage ≠ 0 → ∃ gyros dT, (insCycle k x outdoor_mode t i).trace =
        t.trace ++ [INSCall.INSStatePrediction gyros i.accelsData dT])) ∧
    (∀ (t : AttState) (i : CycleIn), t.inited = false → qualifying k outdoor_mode i t = false →
      (insCycle k x outdoor_mode t i).init_stage = t.init_stage ∧
      (insCycle k x outdoor_mode t i).inited = false ∧
      (insCycle k x outdoor_mode t i).trace = t.trace) := by
  have h0 : s0.inited = false ∧ s0.init_stage = 0 := by
    rw [hs0]
    unfold updateAttitudeINSGPS
    simp only [hfirst, Bool.false_eq_true, if_false, if_true]
    exact ⟨rfl, rfl⟩
  have hc := insCycles_count k x outdoor_mode cycles s0 0
    (Or.inl ⟨h0.1, by rw [h0.2]; rfl, Nat.zero_le _⟩)
  simp only [Nat.zero_add] at hc
  refine ⟨h0, ?_, ?_, ?_, ?_⟩
  · rcases hc with ⟨a, -, c⟩ | ⟨a, -, c⟩
    · rw [a]
      constructor
      · intro h
        cases h
      · intro h
        omega
    · rw [a]
      exact ⟨fun _ => c, fun _ => rfl⟩
  · rcases hc with ⟨-, b, c⟩ | ⟨-, b, c⟩
    · rw [b, Nat.min_eq_left (by omega)]
    · rw [b, Nat.min_eq_right c]
      rfl
  · intro t i hin hq
    obtain ⟨e1, -, e3, e4⟩ := insCycle_qualifying k x outdoor_mode i t hin hq
    exact ⟨e1, e3, e4⟩
  · intro t i hin hq
    exact insCycle_not_qualifying k x outdoor_mode i t hin hq

/-- With the sample home location and configuration and no variance error, the sample
cycle qualifies in outdoor mode. -/
theorem sample_qualifies (t : AttState) (h1 : t.homeLocation = sampleHome)
    (h2 : t.ekfConfiguration = sampleConfig) (h3 : t.variance_error = false) :
    qualifying sampleConsts true sampleIn t = true := by
  have hs := supervisor_of_flagsMasked (insClearIfInited_masked t)
  have g1 : (insClearIfInited t).homeLocation = sampleHome :=
    (congrArg Supervisor.homeLocation hs).trans h1
  have g2 : (insClearIfInited t).ekfConfiguration = sampleConfig :=
    (congrArg Supervisor.ekfConfiguration hs).trans h2
  have g3 : (insClearIfInited t).variance_error = false :=
    (congrArg Supervisor.variance_error hs).trans h3
  unfold qualifying
  generalize insClearIfInited t = u at g1 g2 g3
  have e1 : sensorTimeout sampleIn = false := by decide
  have e2 : insInertialInvalid sampleIn.toReadings = false := by decide
  rw [e1, e2]
  simp only [Bool.not_false, Bool.true_and]
  unfold stagedFlags insPrepared insGate insValidity
  simp only []
  norm_num [gateGpsMinimum, gateAirspeedConnected, gateGpsVel, gateGpsVar, gateGpsAltitude,
    gateAirspeed, gateBaro, gateBe, gateMag, insPoll, gpsGateFails, gpsVarInvalid, g1, g2, g3,
    sampleIn, sampleGps, sampleHome, sampleConfig, sampleConsts, invalid, invalid_var,
    Flt.isnan, Flt.isinf, Flt.lt, Flt.gt, f0, f1, idx, List.replicate, HMul.hMul, Mul.mul,
    Flt.mul, HAdd.hAdd, Add.add, Flt.add]

theorem sample_qualCount (n : Nat) :
    ∀ t : AttState, t.homeLocation = sampleHome → t.ekfConfiguration = sampleConfig →
      t.variance_error = false →
      qualCount sampleConsts sampleExt true t (List.replicate n sampleIn) = n := by
  induction n with
  | zero => intro t _ _ _; rfl
  | succ n ih =>
    intro t h1 h2 h3
    have hs := updateAttitudeINSGPS_supervisor sampleConsts sampleExt false true sampleIn t
    have g1 : (insCycle sampleConsts sampleExt true t sampleIn).homeLocation = sampleHome :=
      (congrArg Supervisor.homeLocation hs).trans h1
    have g2 : (insCycle sampleConsts sampleExt true t sampleIn).ekfConfiguration
        = sampleConfig := (congrArg Supervisor.ekfConfiguration hs).trans h2
    have g3 : (insCycle sampleConsts sampleExt true t sampleIn).variance_error = false :=
      (congrArg Supervisor.variance_error hs).trans h3
    rw [List.replicate_succ, qualCount, sample_qualifies t h1 h2 h3, ih _ g1 g2 g3]
    simp only [if_true]
    omega

/-- C10 at a sample run: after a first run in the sample state, eleven sample cycles
(outdoor mode, all sensors valid) are eleven qualifying cycles and leave the filter
initialised at stage counter 11, while ten of them leave it not initialised. -/
theorem C10_witness_eleven_cycles :
    qualCount sampleConsts sampleExt true
      (updateAttitudeINSGPS sampleConsts sampleExt true true sampleIn runningState).2
      (List.replicate 11 sampleIn) = 11 ∧
    (insCycles sampleConsts sampleExt true
      (updateAttitudeINSGPS sampleConsts sampleExt true true sampleIn runningState).2
      (List.replicate 11 sampleIn)).inited = true ∧
    ¬ (insCycles sampleConsts sampleExt true
      (updateAttitudeINSGPS sampleConsts sampleExt true true sampleIn runningState).2
      (List.replicate 10 sampleIn)).inited = true := by
  have hs := updateAttitudeINSGPS_supervisor sampleConsts sampleExt true true sampleIn
    runningState
  have c11 := sample_qualCount 11 _ (congrArg Supervisor.homeLocation hs)
    (congrArg Supervisor.ekfConfiguration hs) (congrArg Supervisor.variance_error hs)
  have c10 := sample_qualCount 10 _ (congrArg Supervisor.homeLocation hs)
    (congrArg Supervisor.ekfConfiguration hs) (congrArg Supervisor.variance_error hs)
  have h11 := C10_promotion_after_eleven_qualifying_cycles sampleConsts sampleExt true sampleIn
    runningState _ rfl (by decide) (List.replicate 11 sampleIn)
  have h10 := C10_promotion_after_eleven_qualifying_cycles sampleConsts sampleExt true sampleIn
    runningState _ rfl (by decide) (List.replicate 10 sampleIn)
  refine ⟨c11, h11.2.1.2 (by rw [c11]), ?_⟩
  intro h
  have := h10.2.1.1 h
  rw [c10] at this
  omega

/-! ## The quaternion step of the complementary filter -/

theorem compUpdate_attitude (k : Consts) (x : Ext) (i : Readings) (s : AttState) :
    quatOf (compUpdate k x i s).attitudeActual = (compNormalize x (compIntegrated k x i s)).2 ∧
    (compUpdate k x i s).gyrosBias = compNewBias x i s ∧
    (compUpdate k x i s).mag_err = compMagErr x i (quatOf s.attitudeActual) s :=
  ⟨rfl, rfl, rfl⟩

/-! ## The library calls of one INS cycle -/

theorem insPosition_setters (k : Consts) (x : Ext) (outdoor_mode : Bool) (i : Readings)
    (m : Measurement) :
    ∃ cs, (insPosition k x outdoor_mode i m).st.trace = m.st.trace ++ cs ∧
      ∀ c ∈ cs, INSCall.isSetter c = true := by
  unfold insPosition
  simp only []
  split_ifs
  · exact ⟨[_], rfl, by simp [INSCall.isSetter]⟩
  · exact ⟨[_], rfl, by simp [INSCall.isSetter]⟩
  · exact ⟨[], (List.append_nil _).symm, by simp⟩

theorem insAirspeed_setters (k : Consts) (x : Ext) (i : Readings) (m : Measurement) :
    ∃ cs, (insAirspeed k x i m).st.trace = m.st.trace ++ cs ∧
      ∀ c ∈ cs, INSCall.isSetter c = true := by
  unfold insAirspeed
  simp only []
  split_ifs
  · exact ⟨[_], rfl, by simp [INSCall.isSetter]⟩
  · exact ⟨[], (List.append_nil _).symm, by simp⟩
  · exact ⟨[], (List.append_nil _).symm, by simp⟩

/-- Assembling the measurement set only sets parameters of the filter. -/
theorem insMeasurement_setters (k : Consts) (x : Ext) (outdoor_mode : Bool) (i : Readings)
    (s : AttState) :
    ∃ cs, (insMeasurement k x outdoor_mode i s).st.trace = s.trace ++ cs ∧
      ∀ c ∈ cs, INSCall.isSetter c = true := by
  unfold insMeasurement
  simp only []
  generalize hm0 : insMagBaro k x s = m0
  have h0 : m0.st.trace = s.trace ++ [INSCall.INSSetMagNorth s.homeLocation.Be] := by
    rw [← hm0]; rfl
  obtain ⟨c1, e1, n1⟩ := insPosition_setters k x outdoor_mode i m0
  have e2 := insVelocity_trace k outdoor_mode i (insPosition k x outdoor_mode i m0)
  obtain ⟨c3, e3, n3⟩ :=
    insAirspeed_setters k x i (insVelocity k outdoor_mode i (insPosition k x outdoor_mode i m0))
  refine ⟨INSCall.INSSetMagNorth s.homeLocation.Be :: (c1 ++ c3), ?_, ?_⟩
  · rw [e3, e2, e1, h0]
    simp only [List.append_assoc, List.singleton_append, List.cons_append, List.nil_append]
  · intro c hc
    simp only [List.mem_cons, List.mem_append] at hc
    rcases hc with rfl | hc | hc
    · rfl
    · exact n1 c hc
    · exact n3 c hc

/-- The calls of a Running cycle in order: state prediction and covariance prediction with
the cycle time, parameter settings, then the calls of `correctionCalls`. -/
theorem insRunning_calls (k : Consts) (x : Ext) (outdoor_mode : Bool) (i : Readings)
    (gyrosBias : Vec3) (dT : Flt) (s : AttState) :
    ∃ ps, (∀ c ∈ ps, INSCall.isSetter c = true) ∧
      (insRunning k x outdoor_mode i gyrosBias dT s).trace =
        s.trace ++ (INSCall.INSStatePrediction (insGyros k x i gyrosBias s) i.accelsData dT ::
          INSCall.INSCovariancePrediction dT :: (ps ++ correctionCalls i
            (insMeasurement k x outdoor_mode i (insPredicted k x i gyrosBias dT s)))) := by
  obtain ⟨c1, e1, n1⟩ :=
    insMeasurement_setters k x outdoor_mode i (insPredicted k x i gyrosBias dT s)
  rw [insPredicted_trace] at e1
  refine ⟨c1, n1, ?_⟩
  rw [insRunning_eq, insPublish_trace]
  unfold correctionCalls
  split_ifs
  · rw [insCall_trace, e1]
    simp only [List.append_assoc, List.cons_append, List.nil_append]
  · rw [e1]
    simp only [List.append_assoc, List.append_nil, List.cons_append, List.nil_append]

theorem seedCalls_no_correction (k : Consts) (c : EKFConfigurationData) (pos : Vec3)
    (q : Quat) : ∀ a ∈ seedCalls k c pos q, INSCall.isCorrection a = false := by
  intro a ha
  simp only [seedCalls, List.mem_cons, List.mem_singleton, List.not_mem_nil, or_false] at ha
  rcases ha with h | h | h | h | h | h | h | h | h <;> rw [h] <;> rfl

theorem setter_no_correction (c : INSCall) (h : INSCall.isSetter c = true) :
    INSCall.isCorrection c = false := by
  cases c <;> first | rfl | exact absurd h Bool.false_ne_true

/-- The calls of any cycle of `updateAttitudeINSGPS`: none in a first run; on a filter
that is not initialised none, the stage-0 calls or one state prediction; on an initialised
filter none or the calls of a Running cycle. -/
theorem ins_cycle_calls (k : Consts) (x : Ext) (first_run outdoor_mode : Bool) (i : CycleIn)
    (s : AttState) :
    ∃ cs, (updateAttitudeINSGPS k x first_run outdoor_mode i s).2.trace = s.trace ++ cs ∧
      (first_run = true → cs = []) ∧
      (s.inited = false → stagedCalls k i.toReadings s cs) ∧
      (s.inited = true → runningCalls i.toReadings cs) := by
  cases h1 : sensorTimeout i
  swap
  · refine ⟨[], ?_, fun _ => rfl, fun _ => Or.inl rfl, fun _ => Or.inl rfl⟩
    unfold updateAttitudeINSGPS
    simp only [h1, if_true, List.append_nil]
  cases first_run
  swap
  · refine ⟨[], ?_, fun _ => rfl, fun _ => Or.inl rfl, fun _ => Or.inl rfl⟩
    unfold updateAttitudeINSGPS
    simp only [h1, Bool.false_eq_true, if_false, if_true, List.append_nil]
    exact insClearIfInited_trace s
  cases h2 : insInertialInvalid i.toReadings
  swap
  · obtain ⟨-, -, c3, -⟩ := inertialInvalid_frame k x outdoor_mode i s h1 h2
    exact ⟨[], by rw [c3, List.append_nil], fun _ => rfl, fun _ => Or.inl rfl,
      fun _ => Or.inl rfl⟩
  rw [updateAttitudeINSGPS_valid k x outdoor_mode i s h1 h2]
  have ptr : (insPrepared k outdoor_mode i.toReadings (insClearIfInited s)).trace = s.trace := by
    rw [insPrepared_trace, insClearIfInited_trace]
  have pin : (insPrepared k outdoor_mode i.toReadings (insClearIfInited s)).inited
      = s.inited := by
    rw [insPrepared_inited, masked_inited (insClearIfInited_masked s)]
  have pcf : (insPrepared k outdoor_mode i.toReadings (insClearIfInited s)).ekfConfiguration
      = s.ekfConfiguration := by
    have e1 : (insPrepared k outdoor_mode i.toReadings (insClearIfInited s)).ekfConfiguration
        = (insClearIfInited s).ekfConfiguration :=
      congrArg Supervisor.ekfConfiguration
        (insPrepared_supervisor k outdoor_mode i.toReadings (insClearIfInited s))
    have e2 : (insClearIfInited s).ekfConfiguration = s.ekfConfiguration :=
      congrArg Supervisor.ekfConfiguration
        (supervisor_of_flagsMasked (insClearIfInited_masked s))
    exact e1.trans e2
  generalize insGyrosBias (insPoll outdoor_mode i.toReadings (insClearIfInited s)) = gb
  generalize insPrepared k outdoor_mode i.toReadings (insClearIfInited s) = p at ptr pin pcf
  unfold insDispatch
  cases hin : s.inited
  · rw [hin] at pin
    by_cases hg : insStagedGuard outdoor_mode p = true
    · rw [if_pos hg]
      unfold insStaged
      by_cases h0 : (p.init_stage == 0) = true
      · simp only [h0, if_true, insAdvanceStage_trace]
        obtain ⟨pos, q, ht⟩ := insStageZero_trace k x outdoor_mode i.toReadings p
        exact ⟨seedCalls k s.ekfConfiguration pos q, by rw [ht, ptr, pcf],
          fun h => by simp at h, fun _ => Or.inr (Or.inl ⟨pos, q, rfl⟩),
          fun h => by simp at h⟩
      · simp only [h0, Bool.false_eq_true, if_false, insAdvanceStage_trace]
        exact ⟨[INSCall.INSStatePrediction (insGyros k x i.toReadings gb p) i.accelsData
            (insDT i.toReadings)], by rw [insStagePredict_trace, ptr],
          fun h => by simp at h, fun _ => Or.inr (Or.inr ⟨_, rfl⟩),
          fun h => by simp at h⟩
    · rw [if_neg hg]
      simp only [pin, Bool.not_false, if_true]
      exact ⟨[], by rw [ptr, List.append_nil], fun h => by simp at h,
        fun _ => Or.inl rfl, fun h => by simp at h⟩
  · rw [hin] at pin
    have hg : insStagedGuard outdoor_mode p = false := by
      rw [insStagedGuard_eq, pin]
      rfl
    simp only [hg, pin, Bool.false_eq_true, if_false, Bool.not_true]
    obtain ⟨ps, hps, ht⟩ := insRunning_calls k x outdoor_mode i.toReadings gb
      (insDT i.toReadings) p
    exact ⟨_, by rw [ht, ptr], fun h => by simp at h, fun h => by simp at h,
      fun _ => Or.inr ⟨_, ps, _, hps, rfl⟩⟩

theorem sensorTimeout_arrived (i : CycleIn) (hg : i.gyroReceived = true)
    (ha : i.accelReceived = true) : sensorTimeout i = false := by
  unfold sensorTimeout
  rw [hg, ha]
  rfl

theorem correctionCalls_isCorrection (i : Readings) (m : Measurement) (c : INSCall)
    (h : c ∈ correctionCalls i m) : INSCall.isCorrection c = true := by
  unfold correctionCalls at h
  split_ifs at h
  · rw [List.mem_singleton] at h
    rw [h]
    rfl
  · exact absurd h (List.not_mem_nil c)

/-- C11: over every sequence of `updateAttitudeINSGPS` cycles, a cycle in which
`INSCorrection` is invoked started with `inited` true and is not a first run, and a cycle
that starts with `inited` false (staged initialisation) invokes no filter operation, the
stage-0 reset and seed calls, or a single state prediction. -/
theorem C11_correction_only_when_running (k : Consts) (x : Ext) (outdoor_mode : Bool)
    (s0 : AttState) (before : List (Bool × CycleIn)) (first_run : Bool) (i : CycleIn) :
    ∃ cs,
      (updateAttitudeINSGPS k x first_run outdoor_mode i
        (insSequence k x outdoor_mode s0 before)).2.trace =
          (insSequence k x outdoor_mode s0 before).trace ++ cs ∧
      ((∃ c ∈ cs, INSCall.isCorrection c = true) →
        (insSequence k x outdoor_mode s0 before).inited = true ∧ first_run = false) ∧
      ((insSequence k x outdoor_mode s0 before).inited = false →
        cs = [] ∨
        (∃ pos q, cs = seedCalls k (insSequence k x outdoor_mode s0 before).ekfConfiguration
          pos q) ∨
        ∃ gyros, cs = [INSCall.INSStatePrediction gyros i.accelsData (insDT i.toReadings)]) := by
  generalize insSequence k x outdoor_mode s0 before = s
  obtain ⟨cs, ht, hf, hs, -⟩ := ins_cycle_calls k x first_run outdoor_mode i s
  refine ⟨cs, ht, ?_, hs⟩
  rintro ⟨c, hc, hcorr⟩
  have hfr : first_run = false := by
    cases first_run
    · rfl
    · rw [hf rfl] at hc
      exact absurd hc (List.not_mem_nil c)
  refine ⟨?_, hfr⟩
  cases hin : s.inited
  · exfalso
    rcases hs hin with h | ⟨pos, q, h⟩ | ⟨g, h⟩
    · rw [h] at hc
      exact absurd hc (List.not_mem_nil c)
    · rw [h] at hc
      rw [seedCalls_no_correction k _ pos q c hc] at hcorr
      exact Bool.noConfusion hcorr
    · rw [h, List.mem_singleton] at hc
      rw [hc] at hcorr
      exact Bool.noConfusion hcorr
  · rfl

/-- C11 at a sample run: after a first run the filter is not initialised, and the next
sample cycle invokes nothing, the stage-0 calls or one state prediction. -/
theorem C11_witness_cycle_after_first_run :
    (insSequence sampleConsts sampleExt true runningState [(true, sampleIn)]).inited = false ∧
    ∃ cs,
      (updateAttitudeINSGPS sampleConsts sampleExt false true sampleIn
        (insSequence sampleConsts sampleExt true runningState [(true, sampleIn)])).2.trace =
          (insSequence sampleConsts sampleExt true runningState [(true, sampleIn)]).trace
            ++ cs ∧
      (cs = [] ∨
        (∃ pos q, cs = seedCalls sampleConsts
          (insSequence sampleConsts sampleExt true runningState
            [(true, sampleIn)]).ekfConfiguration pos q) ∨
        ∃ gyros, cs = [INSCall.INSStatePrediction gyros sampleIn.accelsData
          (insDT sampleIn.toReadings)]) := by
  obtain ⟨cs, h1, -, h3⟩ := C11_correction_only_when_running sampleConsts sampleExt true
    runningState [(true, sampleIn)] false sampleIn
  exact ⟨rfl, cs, h1, h3 rfl⟩

/-- C12: a call of `updateAttitudeINSGPS` with `first_run` true in which the gyro and the
accelerometer samples arrived returns 0 with `inited` false, `init_stage` 0 and the five
per-sensor flags false, and it invokes no filter operation (call trace and library state
are unchanged). -/
theorem C12_first_run_resets_stage (k : Consts) (x : Ext) (outdoor_mode : Bool) (i : CycleIn)
    (s : AttState) (hg : i.gyroReceived = true) (ha : i.accelReceived = true) :
    (updateAttitudeINSGPS k x true outdoor_mode i s).1 = 0 ∧
    (updateAttitudeINSGPS k x true outdoor_mode i s).2.inited = false ∧
    (updateAttitudeINSGPS k x true outdoor_mode i s).2.init_stage = 0 ∧
    (updateAttitudeINSGPS k x true outdoor_mode i s).2.mag_updated = false ∧
    (updateAttitudeINSGPS k x true outdoor_mode i s).2.baro_updated = false ∧
    (updateAttitudeINSGPS k x true outdoor_mode i s).2.airspeed_updated = false ∧
    (updateAttitudeINSGPS k x true outdoor_mode i s).2.gps_updated = false ∧
    (updateAttitudeINSGPS k x true outdoor_mode i s).2.gps_vel_updated = false ∧
    (updateAttitudeINSGPS k x true outdoor_mode i s).2.trace = s.trace ∧
    (updateAttitudeINSGPS k x true outdoor_mode i s).2.nav = s.nav := by
  have h1 := sensorTimeout_arrived i hg ha
  have e : updateAttitudeINSGPS k x true outdoor_mode i s =
      (0, insFirstRun i.toReadings (insClearIfInited s)) := by
    unfold updateAttitudeINSGPS
    simp only [h1, Bool.false_eq_true, if_false, if_true]
  rw [e]
  have hn : (insClearIfInited s).nav = s.nav :=
    (congrArg (fun u : AttState => u.nav) (insClearIfInited_masked s) :)
  exact ⟨rfl, rfl, rfl, rfl, rfl, rfl, rfl, rfl, insClearIfInited_trace s, hn⟩

/-- C12 at a sample input: a first run on the initialised sample state. -/
theorem C12_witness_first_run :
    runningState.inited = true ∧
    (updateAttitudeINSGPS sampleConsts sampleExt true true sampleIn runningState).1 = 0 ∧
    (updateAttitudeINSGPS sampleConsts sampleExt true true sampleIn runningState).2.inited
      = false ∧
    (updateAttitudeINSGPS sampleConsts sampleExt true true sampleIn runningState).2.init_stage
      = 0 ∧
    (updateAttitudeINSGPS sampleConsts sampleExt true true sampleIn runningState).2.trace = [] :=
  have h := C12_first_run_resets_stage sampleConsts sampleExt true sampleIn runningState rfl rfl
  ⟨rfl, h.1, h.2.1, h.2.2.1, h.2.2.2.2.2.2.2.2.1⟩

/-! ## The cycle time of the INS estimator -/

theorem clampDT_fin (t : ℚ) :
    clampDT (Flt.fin t) = Flt.fin
      (if t > 1 / 100 then 1 / 100 else if t ≤ 1 / 1000 then 1 / 1000 else t) := by
  unfold clampDT Flt.gt Flt.lt Flt.le
  by_cases h1 : t > 1 / 100
  · simp only [h1, decide_True, if_true]
  · by_cases h2 : t ≤ 1 / 1000
    · simp only [h1, h2, decide_True, decide_False, Bool.false_eq_true, if_true, if_false]
    · simp only [h1, h2, decide_False, Bool.false_eq_true, if_false]

theorem insDT_eq (i : Readings) :
    insDT i = clampDT (Flt.fin ((i.DiffuS : ℚ) / 1000000)) := by
  unfold insDT Flt.ofInt
  have h : (Flt.fin ((i.DiffuS : ℤ) : ℚ) / Flt.fin 1000000 : Flt)
      = Flt.fin ((i.DiffuS : ℚ) / 1000000) := by
    show Flt.div _ _ = _
    unfold Flt.div
    simp
  rw [h]

theorem seedCalls_no_prediction (k : Consts) (c : EKFConfigurationData) (pos : Vec3)
    (q : Quat) (a : INSCall) (ha : a ∈ seedCalls k c pos q) :
    (∀ g acc dT, a ≠ INSCall.INSStatePrediction g acc dT) ∧
    (∀ dT, a ≠ INSCall.INSCovariancePrediction dT) := by
  simp only [seedCalls, List.mem_cons, List.mem_singleton, List.not_mem_nil, or_false] at ha
  rcases ha with h | h | h | h | h | h | h | h | h <;> rw [h] <;>
    exact ⟨fun _ _ _ e => INSCall.noConfusion e, fun _ e => INSCall.noConfusion e⟩

theorem other_no_prediction (a : INSCall)
    (h : INSCall.isSetter a = true ∨ INSCall.isCorrection a = true) :
    (∀ g acc dT, a ≠ INSCall.INSStatePrediction g acc dT) ∧
    (∀ dT, a ≠ INSCall.INSCovariancePrediction dT) := by
  refine ⟨fun g acc dT e => ?_, fun dT e => ?_⟩ <;>
  · rw [e] at h
    rcases h with h | h <;> exact absurd h Bool.false_ne_true

/-- Every prediction call of a cycle of `updateAttitudeINSGPS` carries the clamped cycle
time `insDT`. -/
theorem ins_cycle_prediction_time (k : Consts) (x : Ext) (first_run outdoor_mode : Bool)
    (i : CycleIn) (s : AttState) (cs : List INSCall)
    (h : (updateAttitudeINSGPS k x first_run outdoor_mode i s).2.trace = s.trace ++ cs) :
    (∀ g a dT, INSCall.INSStatePrediction g a dT ∈ cs → dT = insDT i.toReadings) ∧
    (∀ dT, INSCall.INSCovariancePrediction dT ∈ cs → dT = insDT i.toReadings) := by
  obtain ⟨cs1, ht, -, hs, hr⟩ := ins_cycle_calls k x first_run outdoor_mode i s
  have hcs : cs = cs1 := List.append_cancel_left (h.symm.trans ht)
  have key : ∀ c ∈ cs1,
      (∀ g a dT, c = INSCall.INSStatePrediction g a dT → dT = insDT i.toReadings) ∧
      (∀ dT, c = INSCall.INSCovariancePrediction dT → dT = insDT i.toReadings) := by
    intro c hc
    cases hin : s.inited
    · rcases hs hin with e | ⟨pos, q, e⟩ | ⟨g, e⟩
      · rw [e] at hc
        exact absurd hc (List.not_mem_nil c)
      · rw [e] at hc
        obtain ⟨n1, n2⟩ := seedCalls_no_prediction k _ pos q c hc
        exact ⟨fun g a dT e1 => absurd e1 (n1 g a dT), fun dT e1 => absurd e1 (n2 dT)⟩
      · rw [e, List.mem_singleton] at hc
        rw [hc]
        refine ⟨fun g1 a dT e1 => ?_, fun dT e1 => INSCall.noConfusion e1⟩
        simp only [INSCall.INSStatePrediction.injEq] at e1
        exact e1.2.2.symm
    · rcases hr hin with e | ⟨g, ps, m, hps, e⟩
      · rw [e] at hc
        exact absurd hc (List.not_mem_nil c)
      · rw [e] at hc
        simp only [List.mem_cons, List.mem_append] at hc
        rcases hc with e1 | e1 | e1 | e1
        · rw [e1]
          refine ⟨fun g1 a dT e2 => ?_, fun dT e2 => INSCall.noConfusion e2⟩
          simp only [INSCall.INSStatePrediction.injEq] at e2
          exact e2.2.2.symm
        · rw [e1]
          refine ⟨fun g1 a dT e2 => INSCall.noConfusion e2, fun dT e2 => ?_⟩
          simp only [INSCall.INSCovariancePrediction.injEq] at e2
          exact e2.symm
        · obtain ⟨n1, n2⟩ := other_no_prediction c (Or.inl (hps c e1))
          exact ⟨fun g a dT e2 => absurd e2 (n1 g a dT), fun dT e2 => absurd e2 (n2 dT)⟩
        · obtain ⟨n1, n2⟩ := other_no_prediction c
            (Or.inr (correctionCalls_isCorrection i.toReadings m c e1))
          exact ⟨fun g a dT e2 => absurd e2 (n1 g a dT), fun dT e2 => absurd e2 (n2 dT)⟩
  rw [hcs]
  exact ⟨fun g a dT hm => (key _ hm).1 g a dT rfl, fun dT hm => (key _ hm).2 dT rfl⟩

/-- C13: with t the measured elapsed time (microseconds over 10^6), the cycle time of the
INS estimator is 0.01 when t > 0.01, 0.001 when t <= 0.001 and t otherwise; it always lies
between 0.001 and 0.01; the clamp is the identity strictly inside the range; and it is
the time every prediction call of the cycle receives. -/
theorem C13_cycle_time_clamped :
    (∀ i : Readings, insDT i = Flt.fin
      (if (i.DiffuS : ℚ) / 1000000 > 1 / 100 then 1 / 100
       else if (i.DiffuS : ℚ) / 1000000 ≤ 1 / 1000 then 1 / 1000
       else (i.DiffuS : ℚ) / 1000000)) ∧
    (∀ i : Readings, ∃ d : ℚ, insDT i = Flt.fin d ∧ 1 / 1000 ≤ d ∧ d ≤ 1 / 100) ∧
    (∀ t : ℚ, 1 / 1000 < t → t < 1 / 100 → clampDT (Flt.fin t) = Flt.fin t) ∧
    (∀ (k : Consts) (x : Ext) (first_run outdoor_mode : Bool) (i : CycleIn) (s : AttState)
       (cs : List INSCall),
       (updateAttitudeINSGPS k x first_run outdoor_mode i s).2.trace = s.trace ++ cs →
       (∀ g a dT, INSCall.INSStatePrediction g a dT ∈ cs → dT = insDT i.toReadings) ∧
       (∀ dT, INSCall.INSCovariancePrediction dT ∈ cs → dT = insDT i.toReadings)) := by
  refine ⟨fun i => ?_, fun i => ?_, fun t h1 h2 => ?_, ins_cycle_prediction_time⟩
  · rw [insDT_eq, clampDT_fin]
  · refine ⟨_, (insDT_eq i).trans (clampDT_fin _), ?_, ?_⟩
    · split_ifs with a b
      · norm_num
      · norm_num
      · exact le_of_lt (not_le.mp b)
    · split_ifs with a b
      · norm_num
      · norm_num
      · exact not_lt.mp a
  · rw [clampDT_fin, if_neg (not_lt.mpr (le_of_lt h2)), if_neg (not_le.mpr h1)]

/-- C13 at sample values: 2000 microseconds give 0.002, half a second gives 0.01, no
elapsed time gives 0.001, and 0.005 is kept. -/
theorem C13_witness_sample_times :
    insDT sampleIn.toReadings = Flt.fin (2 / 1000) ∧
    insDT { sampleIn.toReadings with DiffuS := 500000 } = Flt.fin (1 / 100) ∧
    insDT { sampleIn.toReadings with DiffuS := 0 } = Flt.fin (1 / 1000) ∧
    clampDT (Flt.fin (5 / 1000)) = Flt.fin (5 / 1000) := by
  refine ⟨?_, ?_, ?_, C13_cycle_time_clamped.2.2.1 (5 / 1000) (by norm_num) (by norm_num)⟩
  · rw [C13_cycle_time_clamped.1]
    norm_num [sampleIn]
  · rw [C13_cycle_time_clamped.1]
    norm_num
  · rw [C13_cycle_time_clamped.1]
    norm_num

/-! ## Home location, `T` and `getNED` -/

theorem fin_add (a b : ℚ) : Flt.fin a + Flt.fin b = Flt.fin (a + b) := rfl

theorem fin_mul (a b : ℚ) : Flt.fin a * Flt.fin b = Flt.fin (a * b) := rfl

theorem fin_neg (a : ℚ) : -Flt.fin a = Flt.fin (-a) := rfl

theorem fin_sub (a b : ℚ) : Flt.fin a - Flt.fin b = Flt.fin (a - b) := by
  show Flt.add (Flt.fin a) (Flt.neg (Flt.fin b)) = _
  simp only [Flt.neg, Flt.add, sub_eq_add_neg]

theorem fin_div (a b : ℚ) (h : b ≠ 0) : Flt.fin a / Flt.fin b = Flt.fin (a / b) := by
  show Flt.div (Flt.fin a) (Flt.fin b) = _
  simp only [Flt.div, h, if_false]

theorem neg_one_mul (d : Flt) : Flt.fin (-1) * d = -d := by
  show Flt.mul (Flt.fin (-1)) d = Flt.neg d
  cases d with
  | fin q => simp only [Flt.mul, Flt.neg, neg_mul, one_mul]
  | pinf => norm_num [Flt.mul, Flt.neg, Flt.infMul]
  | ninf => norm_num [Flt.mul, Flt.neg, Flt.infMul]
  | nan => rfl

/-- A callback for a NULL or a HomeLocation event reloads the home location and computes
`T` from it. -/
theorem settingsUpdatedCb_home (k : Consts) (x : Ext) (ev : Option UAVObjEvent) (o : Objects)
    (s : AttState) (h : evIs ev UAVObjHandle.HomeLocation = true) :
    (settingsUpdatedCb k x ev o s).homeLocation = o.homeLocation ∧
    (settingsUpdatedCb k x ev o s).T =
      ⟨o.homeLocation.Altitude + Flt.fin 6378137,
       x.cosf (x.DEG2RAD (Flt.ofInt o.homeLocation.Latitude / Flt.fin 10000000)) *
         (o.homeLocation.Altitude + Flt.fin 6378137),
       Flt.fin (-1)⟩ := by
  unfold settingsUpdatedCb
  generalize cbReinitBlock k ev o (cbRefresh ev o s) = t
  unfold cbReload
  simp only [h, if_true]
  split_ifs <;> exact ⟨rfl, rfl⟩

theorem cbRefresh_home (ev : Option UAVObjEvent) (o : Objects) (s : AttState) :
    (cbRefresh ev o s).T = s.T ∧ (cbRefresh ev o s).homeLocation = s.homeLocation := by
  unfold cbRefresh
  simp only []
  split_ifs <;> exact ⟨rfl, rfl⟩

theorem cbReinitBlock_home (k : Consts) (ev : Option UAVObjEvent) (o : Objects)
    (s : AttState) :
    (cbReinitBlock k ev o s).T = s.T ∧
    (cbReinitBlock k ev o s).homeLocation = s.homeLocation := by
  unfold cbReinitBlock cbReinit
  simp only []
  split_ifs <;> exact ⟨rfl, rfl⟩

theorem cbReload_home_other (x : Ext) (ev : Option UAVObjEvent) (o : Objects) (s : AttState)
    (h : evIs ev UAVObjHandle.HomeLocation = false) :
    (cbReload x ev o s).T = s.T ∧ (cbReload x ev o s).homeLocation = s.homeLocation := by
  unfold cbReload
  simp only [h, Bool.false_eq_true, if_false]
  split_ifs <;> exact ⟨rfl, rfl⟩

/-- A callback for an event that is neither NULL nor HomeLocation leaves `T` and the
cached home location alone. -/
theorem settingsUpdatedCb_home_other (k : Consts) (x : Ext) (ev : Option UAVObjEvent)
    (o : Objects) (s : AttState) (h : evIs ev UAVObjHandle.HomeLocation = false) :
    (settingsUpdatedCb k x ev o s).T = s.T ∧
    (settingsUpdatedCb k x ev o s).homeLocation = s.homeLocation := by
  unfold settingsUpdatedCb
  obtain ⟨a1, a2⟩ := cbReload_home_other x ev o (cbReinitBlock k ev o (cbRefresh ev o s)) h
  obtain ⟨b1, b2⟩ := cbReinitBlock_home k ev o (cbRefresh ev o s)
  obtain ⟨c1, c2⟩ := cbRefresh_home ev o s
  exact ⟨a1.trans (b1.trans c1), a2.trans (b2.trans c2)⟩

theorem wrapInt32_of_range (z : Int) (h1 : -2147483648 ≤ z) (h2 : z ≤ 2147483647) :
    wrapInt32 z = z := by
  unfold wrapInt32
  omega

theorem wrapInt32_range (z : Int) :
    -2147483648 ≤ wrapInt32 z ∧ wrapInt32 z ≤ 2147483647 := by
  unfold wrapInt32
  omega

/-- What `getNED` returns after `settingsUpdatedCb` has loaded a home location. -/
theorem getNED_loaded (k : Consts) (x : Ext) (ev : Option UAVObjEvent)
    (o : Objects) (s : AttState) (gps : GPSPositionData)
    (hev : evIs ev UAVObjHandle.HomeLocation = true) :
    getNED x (settingsUpdatedCb k x ev o s) gps =
      (0, ⟨(o.homeLocation.Altitude + Flt.fin 6378137) *
            x.DEG2RAD (Flt.ofInt (wrapInt32 (gps.Latitude - o.homeLocation.Latitude)) /
              Flt.fin 10000000),
          x.cosf (x.DEG2RAD (Flt.ofInt o.homeLocation.Latitude / Flt.fin 10000000)) *
            (o.homeLocation.Altitude + Flt.fin 6378137) *
            x.DEG2RAD (Flt.ofInt (wrapInt32 (gps.Longitude - o.homeLocation.Longitude)) /
              Flt.fin 10000000),
          -(gps.Altitude + gps.GeoidSeparation - o.homeLocation.Altitude)⟩) := by
  obtain ⟨h1, h2⟩ := settingsUpdatedCb_home k x ev o s hev
  unfold getNED
  simp only [h1, h2, neg_one_mul]

/-- C14, the claim as worded fails: with home on the equator at longitude -180 degrees and
a GPS fix on the equator at +180 degrees the longitude difference, 3600000000, does not fit
32 bits; the code computes East from the wrapped difference -694967296 and obtains a
negative value, where the specified formula gives a positive one. -/
theorem C14_counterexample_longitude_wrap :
    eastGps.Longitude - westHomeObjects.homeLocation.Longitude = 3600000000 ∧
    wrapInt32 (eastGps.Longitude - westHomeObjects.homeLocation.Longitude) = -694967296 ∧
    (getNED algebraExt (settingsUpdatedCb sampleConsts algebraExt
        (some ⟨UAVObjHandle.HomeLocation⟩) westHomeObjects initState) eastGps).2.y =
      Flt.fin (6378137 * (-694967296 / 10000000 * (piApprox / 180))) ∧
    (tangentPlaneSpec algebraExt westHomeObjects.homeLocation eastGps).y =
      Flt.fin (6378137 * (3600000000 / 10000000 * (piApprox / 180))) ∧
    (getNED algebraExt (settingsUpdatedCb sampleConsts algebraExt
        (some ⟨UAVObjHandle.HomeLocation⟩) westHomeObjects initState) eastGps).2 ≠
      tangentPlaneSpec algebraExt westHomeObjects.homeLocation eastGps := by
  have hw : wrapInt32 (eastGps.Longitude - westHomeObjects.homeLocation.Longitude) =
      -694967296 := by decide
  have h1 : (getNED algebraExt (settingsUpdatedCb sampleConsts algebraExt
        (some ⟨UAVObjHandle.HomeLocation⟩) westHomeObjects initState) eastGps).2.y =
      Flt.fin (6378137 * (-694967296 / 10000000 * (piApprox / 180))) := by
    rw [getNED_loaded sampleConsts algebraExt (some ⟨UAVObjHandle.HomeLocation⟩)
      westHomeObjects initState eastGps rfl]
    simp only [hw]
    norm_num [algebraExt, westHomeObjects, sampleObjects, sampleHome, Flt.ofInt, f0, f1,
      fin_add, fin_mul, fin_sub, fin_neg, fin_div]
  have h2 : (tangentPlaneSpec algebraExt westHomeObjects.homeLocation eastGps).y =
      Flt.fin (6378137 * (3600000000 / 10000000 * (piApprox / 180))) := by
    norm_num [tangentPlaneSpec, algebraExt, westHomeObjects, sampleObjects, sampleHome,
      eastGps, sampleGps, Flt.ofInt, f0, f1, fin_add, fin_mul, fin_sub, fin_neg, fin_div]
  refine ⟨by decide, hw, h1, h2, ?_⟩
  intro h
  have e := congrArg Vec3.y h
  rw [h1, h2] at e
  norm_num [piApprox] at e

/-- C14: after `settingsUpdatedCb` has loaded a home location (NULL or HomeLocation
event), `getNED` returns 0 and writes North = (homeAlt + 6378137) * dLat,
East = cos(homeLat) * (homeAlt + 6378137) * dLon and Down = -(gpsAlt + geoidSeparation -
homeAlt), with dLat and dLon the 32-bit differences of the 1e-7 degree coordinates
converted to radians.  When both differences lie in -2^31 .. 2^31 - 1 the 32-bit
differences are the differences themselves and the result is the specified one. -/
theorem C14_getNED_tangent_plane (k : Consts) (x : Ext) (ev : Option UAVObjEvent)
    (o : Objects) (s : AttState) (gps : GPSPositionData)
    (hev : evIs ev UAVObjHandle.HomeLocation = true) :
    (getNED x (settingsUpdatedCb k x ev o s) gps).1 = 0 ∧
    (getNED x (settingsUpdatedCb k x ev o s) gps).2.x =
      (o.homeLocation.Altitude + Flt.fin 6378137) *
        x.DEG2RAD (Flt.ofInt (wrapInt32 (gps.Latitude - o.homeLocation.Latitude)) /
          Flt.fin 10000000) ∧
    (getNED x (settingsUpdatedCb k x ev o s) gps).2.y =
      x.cosf (x.DEG2RAD (Flt.ofInt o.homeLocation.Latitude / Flt.fin 10000000)) *
        (o.homeLocation.Altitude + Flt.fin 6378137) *
        x.DEG2RAD (Flt.ofInt (wrapInt32 (gps.Longitude - o.homeLocation.Longitude)) /
          Flt.fin 10000000) ∧
    (getNED x (settingsUpdatedCb k x ev o s) gps).2.z =
      -(gps.Altitude + gps.GeoidSeparation - o.homeLocation.Altitude) ∧
    (-2147483648 ≤ gps.Latitude - o.homeLocation.Latitude →
      gps.Latitude - o.homeLocation.Latitude ≤ 2147483647 →
      -2147483648 ≤ gps.Longitude - o.homeLocation.Longitude →
      gps.Longitude - o.homeLocation.Longitude ≤ 2147483647 →
      getNED x (settingsUpdatedCb k x ev o s) gps =
        (0, tangentPlaneSpec x o.homeLocation gps)) := by
  have h := getNED_loaded k x ev o s gps hev
  refine ⟨?_, ?_, ?_, ?_, ?_⟩
  · rw [h]
  · rw [h]
  · rw [h]
  · rw [h]
  · intro a1 a2 b1 b2
    rw [h, wrapInt32_of_range _ a1 a2, wrapInt32_of_range _ b1 b2]
    rfl

/-- C14 at the sample scenario: home at (0 deg, 0 deg, 0 m), a GPS position at latitude
0.0001 degrees, longitude 0, altitude 0, geoid separation 0: North is within 0.1 m of
11.1 m, East and Down are 0. -/
theorem C14_witness_equator :
    sampleObjects.homeLocation.Latitude = 0 ∧ sampleGps.Latitude = 1000 ∧
    ∃ n : ℚ, |n - 111 / 10| < 1 / 10 ∧
      (getNED algebraExt (settingsUpdatedCb sampleConsts algebraExt
        (some ⟨UAVObjHandle.HomeLocation⟩) sampleObjects initState) sampleGps) =
          (0, ⟨Flt.fin n, Flt.fin 0, Flt.fin 0⟩) := by
  have h := (C14_getNED_tangent_plane sampleConsts algebraExt
    (some ⟨UAVObjHandle.HomeLocation⟩) sampleObjects initState sampleGps rfl).2.2.2.2
      (by decide) (by decide) (by decide) (by decide)
  refine ⟨rfl, rfl, 6378137 * (1000 / 10000000 * (piApprox / 180)), ?_, ?_⟩
  · norm_num [piApprox, abs_lt]
  · rw [h]
    norm_num [tangentPlaneSpec, algebraExt, sampleObjects, sampleHome, sampleGps, Flt.ofInt,
      f0, f1, fin_add, fin_mul, fin_sub, fin_neg, fin_div]

/-- C15: a `settingsUpdatedCb` call for an event that is not NULL and whose object is not
HomeLocation leaves `T` and the cached home location unchanged, and neither estimator
update function (the only callers of `getNED`, which returns its values without writing
any module variable) changes `T` or the cached home location. -/
theorem C15_T_changes_only_with_home (k : Consts) (x : Ext) :
    (∀ (e : UAVObjEvent) (o : Objects) (s : AttState), e.obj ≠ UAVObjHandle.HomeLocation →
      (settingsUpdatedCb k x (some e) o s).T = s.T ∧
      (settingsUpdatedCb k x (some e) o s).homeLocation = s.homeLocation) ∧
    (∀ (first_run : Bool) (i : CycleIn) (s : AttState),
      (updateAttitudeComplementary k x first_run i s).2.T = s.T ∧
      (updateAttitudeComplementary k x first_run i s).2.homeLocation = s.homeLocation) ∧
    (∀ (first_run outdoor_mode : Bool) (i : CycleIn) (s : AttState),
      (updateAttitudeINSGPS k x first_run outdoor_mode i s).2.T = s.T ∧
      (updateAttitudeINSGPS k x first_run outdoor_mode i s).2.homeLocation
        = s.homeLocation) := by
  refine ⟨fun e o s he => ?_, fun first_run i s => ?_, fun first_run outdoor_mode i s => ?_⟩
  · refine settingsUpdatedCb_home_other k x (some e) o s ?_
    unfold evIs
    exact beq_false_of_ne he
  · have h := updateAttitudeComplementary_supervisor k x first_run i s
    exact ⟨congrArg Supervisor.T h, congrArg Supervisor.homeLocation h⟩
  · have h := updateAttitudeINSGPS_supervisor k x first_run outdoor_mode i s
    exact ⟨congrArg Supervisor.T h, congrArg Supervisor.homeLocation h⟩

/-- C15 at a sample input: a configuration event with settings objects that hold a moved
home location leaves the cached home location and `T` of the Running state as they are. -/
theorem C15_witness_configuration_event :
    movedHomeObjects.homeLocation ≠ disarmedState.homeLocation ∧
    (settingsUpdatedCb sampleConsts sampleExt (some ⟨UAVObjHandle.EKFConfiguration⟩)
      movedHomeObjects disarmedState).T = disarmedState.T ∧
    (settingsUpdatedCb sampleConsts sampleExt (some ⟨UAVObjHandle.EKFConfiguration⟩)
      movedHomeObjects disarmedState).homeLocation = disarmedState.homeLocation :=
  ⟨by decide,
   (C15_T_changes_only_with_home sampleConsts sampleExt).1 ⟨UAVObjHandle.EKFConfiguration⟩
     movedHomeObjects disarmedState (by decide)⟩

/-! ## A home location update and re-initialisation -/

theorem cbReinitGuard_home (e : UAVObjEvent) (s : AttState)
    (he : e.obj = UAVObjHandle.HomeLocation) : cbReinitGuard (some e) s = false := by
  unfold cbReinitGuard
  simp only [he]
  cases s.variance_error <;> rfl

/-- A HomeLocation event does not enter the re-initialisation block. -/
theorem settingsUpdatedCb_home_event (k : Consts) (x : Ext) (e : UAVObjEvent) (o : Objects)
    (s : AttState) (he : e.obj = UAVObjHandle.HomeLocation) :
    reinitVars (settingsUpdatedCb k x (some e) o s) = reinitVars s := by
  rw [settingsUpdatedCb_reinitVars, cbReinitGuard_home e s he]
  rfl

/-- C16, as stated, fails: the vehicle disarmed and Running on the outdoor INS with a
valid noise configuration, a HomeLocation event that moves the home location leaves
`initialization_required` false. -/
theorem C16_counterexample_home_moved :
    disarmedState.flightStatus.Armed ≠ sampleConsts.FLIGHTSTATUS_ARMED_ARMED ∧
    movedHomeObjects.flightStatus.Armed ≠ sampleConsts.FLIGHTSTATUS_ARMED_ARMED ∧
    cbVarianceCheck movedHomeObjects.ekfConfiguration = false ∧
    movedHomeObjects.homeLocation ≠ disarmedState.homeLocation ∧
    (settingsUpdatedCb sampleConsts sampleExt (some ⟨UAVObjHandle.HomeLocation⟩)
      movedHomeObjects disarmedState).homeLocation = movedHomeObjects.homeLocation ∧
    (settingsUpdatedCb sampleConsts sampleExt (some ⟨UAVObjHandle.HomeLocation⟩)
      movedHomeObjects disarmedState).initialization_required = false := by
  refine ⟨by decide, by decide, sampleConfig_valid, by decide, ?_, ?_⟩
  · exact (settingsUpdatedCb_home sampleConsts sampleExt (some ⟨UAVObjHandle.HomeLocation⟩)
      movedHomeObjects disarmedState rfl).1
  · exact (reinitVars_eq (settingsUpdatedCb_home_event sampleConsts sampleExt
      ⟨UAVObjHandle.HomeLocation⟩ movedHomeObjects disarmedState rfl)).2.1

/-- C16, amended: a `settingsUpdatedCb` call whose event object is HomeLocation reloads
the home location and leaves `initialization_required`, `variance_error` and
`running_algorithm` as they were; a call with a NULL event, which reloads the home
location with all other settings, leaves `initialization_required` true when the vehicle
is not armed and the noise configuration is valid. -/
theorem C16_home_event_requests_nothing (k : Consts) (x : Ext) (o : Objects) (s : AttState) :
    (∀ e : UAVObjEvent, e.obj = UAVObjHandle.HomeLocation →
      (settingsUpdatedCb k x (some e) o s).homeLocation = o.homeLocation ∧
      (settingsUpdatedCb k x (some e) o s).initialization_required
        = s.initialization_required ∧
      (settingsUpdatedCb k x (some e) o s).variance_error = s.variance_error ∧
      (settingsUpdatedCb k x (some e) o s).running_algorithm = s.running_algorithm) ∧
    (o.flightStatus.Armed ≠ k.FLIGHTSTATUS_ARMED_ARMED →
      cbVarianceCheck o.ekfConfiguration = false →
      (settingsUpdatedCb k x none o s).homeLocation = o.homeLocation ∧
      (settingsUpdatedCb k x none o s).initialization_required = true) := by
  refine ⟨fun e he => ?_, fun ha hv => ?_⟩
  · have hh : evIs (some e) UAVObjHandle.HomeLocation = true := by
      show (e.obj == UAVObjHandle.HomeLocation) = true
      rw [he]
      rfl
    obtain ⟨r1, r2, r3⟩ := reinitVars_eq (settingsUpdatedCb_home_event k x e o s he)
    exact ⟨(settingsUpdatedCb_home k x (some e) o s hh).1, r2, r1, r3⟩
  · refine ⟨(settingsUpdatedCb_home k x none o s rfl).1, ?_⟩
    have hf : (cbRefresh none o s).flightStatus = o.flightStatus := by
      unfold cbRefresh evIs
      rfl
    have hr := settingsUpdatedCb_reinitVars k x none o s
    have hg : cbReinitGuard none s = true := rfl
    rw [hg, if_pos rfl, cbReinit_apply k o (cbRefresh none o s) hv
      (fun h => ha (hf ▸ h.1))] at hr
    exact (congrArg (fun u : Bool × Bool × Nat => u.2.1) hr :)

/-- C16 amended, at the sample input: the HomeLocation event of the counterexample keeps
`initialization_required` false, and a NULL event with the same objects sets it. -/
theorem C16_witness_home_and_null_event :
    disarmedState.initialization_required = false ∧
    (settingsUpdatedCb sampleConsts sampleExt (some ⟨UAVObjHandle.HomeLocation⟩)
      movedHomeObjects disarmedState).initialization_required = false ∧
    (settingsUpdatedCb sampleConsts sampleExt none movedHomeObjects
      disarmedState).initialization_required = true :=
  have h := C16_home_event_requests_nothing sampleConsts sampleExt movedHomeObjects
    disarmedState
  ⟨rfl, (h.1 ⟨UAVObjHandle.HomeLocation⟩ rfl).2.1, (h.2 (by decide) sampleConfig_valid).2⟩

/-! ## The steady-state cycle of the complementary filter -/

theorem compGains_frame (k : Consts) (i : Readings) (s : AttState) :
    (compGains k i s).attitudeActual = s.attitudeActual ∧
    (compGains k i s).homeLocation = s.homeLocation ∧
    (compGains k i s).mag_err = s.mag_err ∧
    (compGains k i s).gyrosBias = s.gyrosBias ∧
    (compGains k i s).magKi = s.magKi ∧
    (compGains k i s).revoCalibration = s.revoCalibration := by
  unfold compGains
  split_ifs <;> exact ⟨rfl, rfl, rfl, rfl, rfl, rfl⟩

theorem compFlush_frame (k : Consts) (x : Ext) (i : Readings) (s : AttState) :
    (compFlush k x i s).attitudeActual = s.attitudeActual ∧
    (compFlush k x i s).mag_err = s.mag_err ∧
    (compFlush k x i s).gyrosBias = s.gyrosBias := by
  unfold compFlush
  simp only []
  split_ifs <;> exact ⟨rfl, rfl, rfl⟩

theorem compAlarm_frame (s : AttState) :
    (compAlarm s).attitudeActual = s.attitudeActual ∧
    (compAlarm s).mag_err = s.mag_err ∧
    (compAlarm s).gyrosBias = s.gyrosBias := by
  unfold compAlarm
  split_ifs <;> exact ⟨rfl, rfl, rfl⟩

theorem compMagErr_congr (x : Ext) (i : Readings) (q : Quat) {s t : AttState}
    (h1 : s.homeLocation = t.homeLocation) (h2 : s.mag_err = t.mag_err) :
    compMagErr x i q s = compMagErr x i q t := by
  unfold compMagErr
  rw [h1, h2]

/-- The attitude quaternion, the gyro bias and the heading error a steady-state cycle
leaves behind. -/
theorem compSteady_results (k : Consts) (x : Ext) (i : Readings) (s : AttState) :
    quatOf (compSteady k x i s).attitudeActual =
      (compNormalize x (compIntegrated k x i (compGains k i s))).2 ∧
    (compSteady k x i s).gyrosBias = compNewBias x i (compGains k i s) ∧
    (compSteady k x i s).mag_err = compMagErr x i (quatOf s.attitudeActual) s := by
  unfold compSteady
  simp only []
  obtain ⟨a1, a2, a3⟩ := compAlarm_frame (compFlush k x i (compUpdate k x i (compGains k i s)))
  obtain ⟨b1, b2, b3⟩ := compFlush_frame k x i (compUpdate k x i (compGains k i s))
  obtain ⟨c1, c2, c3⟩ := compUpdate_attitude k x i (compGains k i s)
  obtain ⟨g1, g2, g3, -⟩ := compGains_frame k i s
  refine ⟨?_, ?_, ?_⟩
  · rw [a1, b1, c1]
  · rw [a3, b3, c2]
  · rw [a2, b2, c3, g1]
    exact compMagErr_congr x i _ g2 g3

/-- With a new magnetometer sample queued, the test of line 413 fails and the heading
error of the cycle is zero. -/
theorem compSteady_fresh_sample (k : Consts) (x : Ext) (i : Readings) (s : AttState)
    (h : i.magReceived = true) : (compSteady k x i s).mag_err = ⟨f0, f0, f0⟩ := by
  rw [(compSteady_results k x i s).2.2]
  unfold compMagErr
  simp only [h, Bool.not_true, Bool.false_eq_true, if_false]

/-- C17, at the failing input: level attitude, reference field (400, 0, 300), reading
(300, 0, 400).  With a new magnetometer sample queued the code leaves the heading error
(0, 0, 0) where the claim gives (0, 0.28, 0); with no new sample queued the code computes
(0, 0.28, 0) from the stored reading where the claim gives (0, 0, 0). -/
theorem C17_heading_error_test_inverted :
    freshMagIn.magReceived = true ∧
    (compSteady sampleConsts algebraExt freshMagIn.toReadings levelState).mag_err
      = ⟨Flt.fin 0, Flt.fin 0, Flt.fin 0⟩ ∧
    headingErrorSpec algebraExt (quatOf levelState.attitudeActual) freshMagIn.magData
      levelState.homeLocation.Be true = ⟨Flt.fin 0, Flt.fin (7 / 25), Flt.fin 0⟩ ∧
    staleMagIn.magReceived = false ∧
    (compSteady sampleConsts algebraExt staleMagIn.toReadings levelState).mag_err
      = ⟨Flt.fin 0, Flt.fin (7 / 25), Flt.fin 0⟩ ∧
    headingErrorSpec algebraExt (quatOf levelState.attitudeActual) staleMagIn.magData
      levelState.homeLocation.Be false = ⟨Flt.fin 0, Flt.fin 0, Flt.fin 0⟩ := by
  refine ⟨rfl, compSteady_fresh_sample sampleConsts algebraExt freshMagIn.toReadings
    levelState rfl, ?_, rfl, ?_, rfl⟩
  · norm_num [headingErrorSpec, algebraExt, quatOf, levelState, freshMagIn, sampleHome,
      f0, f1, fin_add, fin_mul, fin_sub, fin_neg, fin_div]
  · rw [(compSteady_results sampleConsts algebraExt staleMagIn.toReadings levelState).2.2]
    norm_num [compMagErr, algebraExt, quatOf, levelState, staleMagIn, freshMagIn, sampleHome,
      f0, f1, fin_add, fin_mul, fin_sub, fin_neg, fin_div, Flt.isnan, Flt.isinf, Flt.lt]

/-! ## Renormalisation of the attitude quaternion -/

theorem compNormalize_eq (x : Ext) (q : Quat) :
    compNormalize x q =
      (quatNorm x (signNormalize q),
       if degenerateNorm (quatNorm x (signNormalize q)) then ⟨f1, f0, f0, f0⟩
       else ⟨(signNormalize q).q0 / quatNorm x (signNormalize q),
             (signNormalize q).q1 / quatNorm x (signNormalize q),
             (signNormalize q).q2 / quatNorm x (signNormalize q),
             (signNormalize q).q3 / quatNorm x (signNormalize q)⟩) := by
  unfold compNormalize degenerateNorm quatNorm signNormalize
  simp only []
  split_ifs <;> rfl

theorem signNormalize_fin (a b c d : ℚ) :
    signNormalize ⟨Flt.fin a, Flt.fin b, Flt.fin c, Flt.fin d⟩ =
      ⟨Flt.fin (if a < 0 then -a else a), Flt.fin (if a < 0 then -b else b),
       Flt.fin (if a < 0 then -c else c), Flt.fin (if a < 0 then -d else d)⟩ := by
  unfold signNormalize
  by_cases h : a < 0
  · simp only [Flt.lt, f0, h, decide_True, if_true, fin_neg]
  · simp only [Flt.lt, f0, h, decide_False, Bool.false_eq_true, if_false]

theorem quatNorm_signNormalize_fin (x : Ext) (a b c d : ℚ) :
    quatNorm x (signNormalize ⟨Flt.fin a, Flt.fin b, Flt.fin c, Flt.fin d⟩) =
      x.sqrtf (Flt.fin (a * a + b * b + c * c + d * d)) := by
  rw [signNormalize_fin]
  unfold quatNorm
  simp only [fin_mul, fin_add]
  by_cases h : a < 0
  · simp only [h, if_true, neg_mul_neg]
  · simp only [h, if_false]

theorem degenerateNorm_fin (r : ℚ) (hr : 0 ≤ r) :
    degenerateNorm (Flt.fin r) = decide (r < 1 / 1000) := by
  unfold degenerateNorm
  simp only [Flt.fabsf, Flt.lt, Flt.isnan, Bool.or_false, abs_of_nonneg hr]

/-- In exact arithmetic the renormalised quaternion is a unit quaternion with
non-negative scalar component: `r` is the exact non-negative root of the squared norm. -/
theorem compNormalize_unit (x : Ext) (a b c d r : ℚ)
    (hs : x.sqrtf (Flt.fin (a * a + b * b + c * c + d * d)) = Flt.fin r) (hr : 0 ≤ r)
    (hx : r * r = a * a + b * b + c * c + d * d) :
    ∃ o0 o1 o2 o3 : ℚ,
      (compNormalize x ⟨Flt.fin a, Flt.fin b, Flt.fin c, Flt.fin d⟩).2 =
        ⟨Flt.fin o0, Flt.fin o1, Flt.fin o2, Flt.fin o3⟩ ∧
      0 ≤ o0 ∧ o0 * o0 + o1 * o1 + o2 * o2 + o3 * o3 = 1 := by
  rw [compNormalize_eq, quatNorm_signNormalize_fin, hs, degenerateNorm_fin r hr,
    signNormalize_fin]
  by_cases hlt : r < 1 / 1000
  · refine ⟨1, 0, 0, 0, ?_, by norm_num, by norm_num⟩
    simp only [hlt, decide_True, if_true]
    rfl
  · have hpos : 0 < r := lt_of_lt_of_le (by norm_num) (not_lt.mp hlt)
    have hne : r ≠ 0 := ne_of_gt hpos
    simp only [hlt, decide_False, Bool.false_eq_true, if_false, fin_div _ _ hne]
    refine ⟨_, _, _, _, rfl, ?_, ?_⟩
    · apply div_nonneg _ hr
      split_ifs with h
      · exact le_of_lt (neg_pos.mpr h)
      · exact not_lt.mp h
    · have e : (if a < 0 then -a else a) * (if a < 0 then -a else a) +
          (if a < 0 then -b else b) * (if a < 0 then -b else b) +
          (if a < 0 then -c else c) * (if a < 0 then -c else c) +
          (if a < 0 then -d else d) * (if a < 0 then -d else d) = r * r := by
        rw [hx]
        split_ifs <;> ring
      generalize (if a < 0 then -a else a) = a1 at e ⊢
      generalize (if a < 0 then -b else b) = b1 at e ⊢
      generalize (if a < 0 then -c else c) = c1 at e ⊢
      generalize (if a < 0 then -d else d) = d1 at e ⊢
      have e2 : a1 / r * (a1 / r) + b1 / r * (b1 / r) + c1 / r * (c1 / r) + d1 / r * (d1 / r)
          = (a1 * a1 + b1 * b1 + c1 * c1 + d1 * d1) / (r * r) := by
        field_simp
      rw [e2, e]
      exact div_self (mul_ne_zero hne hne)

/-- The exact-arithmetic renormalisation, by cases on the computed norm. -/
theorem renormalizeOver_eq {K : Type} [LinearOrderedField K] (sqrt : K → K) (a b c d : K) :
    renormalizeOver sqrt ⟨a, b, c, d⟩ =
      if |sqrt (a * a + b * b + c * c + d * d)| < 1 / 1000 then ⟨1, 0, 0, 0⟩
      else ⟨(if a < 0 then -a else a) / sqrt (a * a + b * b + c * c + d * d),
            (if a < 0 then -b else b) / sqrt (a * a + b * b + c * c + d * d),
            (if a < 0 then -c else c) / sqrt (a * a + b * b + c * c + d * d),
            (if a < 0 then -d else d) / sqrt (a * a + b * b + c * c + d * d)⟩ := by
  unfold renormalizeOver
  by_cases h : a < 0
  · simp only [h, if_true, neg_mul_neg]
  · simp only [h, if_false]

/-- Outside the reset the squared norm of the result, times the square of the computed
norm, is the squared norm of the argument. -/
theorem renormalizeOver_scaled {K : Type} [LinearOrderedField K] (sqrt : K → K)
    (q : QuatOver K) (h : ¬ |sqrt (normSqOver q)| < 1 / 1000) :
    normSqOver (renormalizeOver sqrt q) * (sqrt (normSqOver q) * sqrt (normSqOver q)) =
      normSqOver q := by
  obtain ⟨a, b, c, d⟩ := q
  unfold normSqOver at h ⊢
  rw [renormalizeOver_eq]
  simp only [h, if_false]
  have hne : sqrt (a * a + b * b + c * c + d * d) ≠ 0 := by
    intro e
    apply h
    rw [e, abs_zero]
    norm_num
  generalize sqrt (a * a + b * b + c * c + d * d) = r at hne
  by_cases ha : a < 0
  · simp only [ha, if_true]
    field_simp
  · simp only [ha, if_false]
    field_simp

/-- Where `sqrt` returns the exact non-negative root of the squared norm, the result is a
unit quaternion with non-negative scalar component. -/
theorem renormalizeOver_unit {K : Type} [LinearOrderedField K] (sqrt : K → K)
    (q : QuatOver K) (h0 : 0 ≤ sqrt (normSqOver q))
    (hx : sqrt (normSqOver q) * sqrt (normSqOver q) = normSqOver q) :
    0 ≤ (renormalizeOver sqrt q).q0 ∧ normSqOver (renormalizeOver sqrt q) = 1 := by
  by_cases h : |sqrt (normSqOver q)| < 1 / 1000
  · obtain ⟨a, b, c, d⟩ := q
    unfold normSqOver at h ⊢
    rw [renormalizeOver_eq]
    simp only [h, if_true]
    norm_num
  · have hs := renormalizeOver_scaled sqrt q h
    have hpos : 0 < sqrt (normSqOver q) := by
      rw [abs_of_nonneg h0] at h
      exact lt_of_lt_of_le (by norm_num) (not_lt.mp h)
    constructor
    · obtain ⟨a, b, c, d⟩ := q
      unfold normSqOver at h hpos
      rw [renormalizeOver_eq]
      simp only [h, if_false]
      apply div_nonneg _ (le_of_lt hpos)
      split_ifs with ha
      · exact le_of_lt (neg_pos.mpr ha)
      · exact not_lt.mp ha
    · rw [hx] at hs
      have hn : normSqOver q ≠ 0 := by
        rw [← hx]
        exact mul_ne_zero (ne_of_gt hpos) (ne_of_gt hpos)
      exact mul_right_cancel₀ hn (by rw [hs, one_mul])

/-- Over the real numbers, with the real square root, every quaternion is renormalised to
a unit quaternion with non-negative scalar component. -/
theorem renormalizeOver_real (q : QuatOver ℝ) :
    0 ≤ (renormalizeOver Real.sqrt q).q0 ∧ normSqOver (renormalizeOver Real.sqrt q) = 1 := by
  apply renormalizeOver_unit Real.sqrt q (Real.sqrt_nonneg _)
  apply Real.mul_self_sqrt
  unfold normSqOver
  exact add_nonneg (add_nonneg (add_nonneg (mul_self_nonneg _) (mul_self_nonneg _))
    (mul_self_nonneg _)) (mul_self_nonneg _)

theorem degenerateNorm_fin_abs (r : ℚ) :
    degenerateNorm (Flt.fin r) = decide (|r| < 1 / 1000) := by
  unfold degenerateNorm
  simp only [Flt.fabsf, Flt.lt, Flt.isnan, Bool.or_false]

/-- On a finite quaternion for whose squared norm `sqrtf` returns the finite value
`sq` gives, lines 481-502 compute the exact-arithmetic renormalisation with root
function `sq`. -/
theorem compNormalize_finite (x : Ext) (a b c d : ℚ) (sq : ℚ → ℚ)
    (hs : x.sqrtf (Flt.fin (a * a + b * b + c * c + d * d)) =
      Flt.fin (sq (a * a + b * b + c * c + d * d))) :
    (compNormalize x ⟨Flt.fin a, Flt.fin b, Flt.fin c, Flt.fin d⟩).2 =
      quatFin (renormalizeOver sq ⟨a, b, c, d⟩) := by
  rw [compNormalize_eq, quatNorm_signNormalize_fin, hs, degenerateNorm_fin_abs,
    signNormalize_fin, renormalizeOver_eq]
  generalize sq (a * a + b * b + c * c + d * d) = r
  by_cases h : |r| < 1 / 1000
  · simp only [h, decide_True, if_true]
    rfl
  · have hne : r ≠ 0 := by
      intro e
      apply h
      rw [e, abs_zero]
      norm_num
    simp only [h, decide_False, Bool.false_eq_true, if_false, fin_div _ _ hne]
    rfl

/-- C18: the quaternion a steady-state cycle writes to the attitude output is the
identity (1,0,0,0) when the norm computed for the integrated quaternion is below 1e-3 or
not a number, and otherwise the sign-normalised integrated quaternion divided by that norm.
On every finite integrated quaternion for whose squared norm `sqrtf` returns a finite value
the output is the exact-arithmetic renormalisation `renormalizeOver` with that root, and
outside the reset its squared norm times the square of the computed norm is the squared
norm of the integrated quaternion.  In exact real arithmetic, that is over the real numbers
with the real square root, `renormalizeOver` maps every quaternion to one with
non-negative scalar component and norm 1; the same holds over the rationals wherever the
root function returns the exact non-negative root. -/
theorem C18_output_quaternion_normalised (k : Consts) (x : Ext) (i : Readings)
    (s : AttState) :
    (degenerateNorm (quatNorm x (signNormalize (compIntegrated k x i (compGains k i s))))
        = true →
      quatOf (compSteady k x i s).attitudeActual = ⟨f1, f0, f0, f0⟩) ∧
    (degenerateNorm (quatNorm x (signNormalize (compIntegrated k x i (compGains k i s))))
        = false →
      quatOf (compSteady k x i s).attitudeActual =
        ⟨(signNormalize (compIntegrated k x i (compGains k i s))).q0 /
           quatNorm x (signNormalize (compIntegrated k x i (compGains k i s))),
         (signNormalize (compIntegrated k x i (compGains k i s))).q1 /
           quatNorm x (signNormalize (compIntegrated k x i (compGains k i s))),
         (signNormalize (compIntegrated k x i (compGains k i s))).q2 /
           quatNorm x (signNormalize (compIntegrated k x i (compGains k i s))),
         (signNormalize (compIntegrated k x i (compGains k i s))).q3 /
           quatNorm x (signNormalize (compIntegrated k x i (compGains k i s)))⟩) ∧
    (∀ (a b c d : ℚ) (sq : ℚ → ℚ),
      compIntegrated k x i (compGains k i s) = ⟨Flt.fin a, Flt.fin b, Flt.fin c, Flt.fin d⟩ →
      x.sqrtf (Flt.fin (a * a + b * b + c * c + d * d)) =
        Flt.fin (sq (a * a + b * b + c * c + d * d)) →
      quatOf (compSteady k x i s).attitudeActual =
        quatFin (renormalizeOver sq ⟨a, b, c, d⟩)) ∧
    (∀ (sq : ℚ → ℚ) (q : QuatOver ℚ), ¬ |sq (normSqOver q)| < 1 / 1000 →
      normSqOver (renormalizeOver sq q) * (sq (normSqOver q) * sq (normSqOver q)) =
        normSqOver q) ∧
    (∀ (sq : ℚ → ℚ) (q : QuatOver ℚ), 0 ≤ sq (normSqOver q) →
      sq (normSqOver q) * sq (normSqOver q) = normSqOver q →
      0 ≤ (renormalizeOver sq q).q0 ∧ normSqOver (renormalizeOver sq q) = 1) ∧
    (∀ q : QuatOver ℝ,
      0 ≤ (renormalizeOver Real.sqrt q).q0 ∧
      normSqOver (renormalizeOver Real.sqrt q) = 1) := by
  rw [(compSteady_results k x i s).1]
  refine ⟨fun h => ?_, fun h => ?_, fun a b c d sq hq hs => ?_,
    fun sq q h => renormalizeOver_scaled sq q h,
    fun sq q h0 hx => renormalizeOver_unit sq q h0 hx,
    fun q => renormalizeOver_real q⟩
  · rw [compNormalize_eq]
    simp only [h, if_true]
  · rw [compNormalize_eq]
    simp only [h, Bool.false_eq_true, if_false]
  · rw [hq]
    exact compNormalize_finite x a b c d sq hs

theorem levelState_gains (i : Readings) : compGains sampleConsts i levelState = levelState := by
  unfold compGains
  have h1 : (levelState.init == 0) = false := rfl
  have h2 : (levelState.attitudeSettings.ZeroDuringArming ==
      sampleConsts.ATTITUDESETTINGS_ZERODURINGARMING_TRUE) = false := rfl
  simp only [h1, h2, Bool.false_and, Bool.false_eq_true, if_false]

theorem spin_integrated :
    compIntegrated sampleConsts algebraExt spinIn.toReadings levelState =
      ⟨Flt.fin 1, Flt.fin (3 / 4), Flt.fin 0, Flt.fin 0⟩ := by
  norm_num [compIntegrated, compIntegrate, compRate, compRateCorrect, compUnbias, compNewBias,
    compBias, compAccelErr, compMagErr, compDT, quatOf, algebraExt, sampleConsts, levelState,
    runningState, initState, spinIn, sampleIn, piApprox, Flt.ofInt, f0, f1, fin_add, fin_mul,
    fin_sub, fin_neg, fin_div]

/-- C18 at sample inputs.  Level attitude and three quarters of a radian of roll over the
time step: the integrated quaternion (1, 3/4, 0, 0) has norm 5/4 and the output is the unit
quaternion (4/5, 3/5, 0, 0).  Over the real numbers the quaternion (1, 1, 0, 0), whose norm
is irrational, is renormalised to a unit quaternion with non-negative scalar component. -/
theorem C18_witness_roll_step :
    degenerateNorm (quatNorm algebraExt (signNormalize (compIntegrated sampleConsts
      algebraExt spinIn.toReadings (compGains sampleConsts spinIn.toReadings levelState))))
        = false ∧
    compIntegrated sampleConsts algebraExt spinIn.toReadings
      (compGains sampleConsts spinIn.toReadings levelState) =
        ⟨Flt.fin 1, Flt.fin (3 / 4), Flt.fin 0, Flt.fin 0⟩ ∧
    quatOf (compSteady sampleConsts algebraExt spinIn.toReadings levelState).attitudeActual =
      ⟨Flt.fin (4 / 5), Flt.fin (3 / 5), Flt.fin 0, Flt.fin 0⟩ ∧
    quatOf (compSteady sampleConsts algebraExt spinIn.toReadings levelState).attitudeActual =
      quatFin (renormalizeOver (fun _ => 5 / 4) ⟨1, 3 / 4, 0, 0⟩) ∧
    (0 : ℚ) ≤ (renormalizeOver (fun _ => 5 / 4) (⟨1, 3 / 4, 0, 0⟩ : QuatOver ℚ)).q0 ∧
    normSqOver (renormalizeOver (fun _ => 5 / 4) (⟨1, 3 / 4, 0, 0⟩ : QuatOver ℚ)) = 1 ∧
    (0 : ℝ) ≤ (renormalizeOver Real.sqrt (⟨1, 1, 0, 0⟩ : QuatOver ℝ)).q0 ∧
    normSqOver (renormalizeOver Real.sqrt (⟨1, 1, 0, 0⟩ : QuatOver ℝ)) = 1 := by
  have hq : compIntegrated sampleConsts algebraExt spinIn.toReadings
      (compGains sampleConsts spinIn.toReadings levelState) =
        ⟨Flt.fin 1, Flt.fin (3 / 4), Flt.fin 0, Flt.fin 0⟩ := by
    rw [levelState_gains]
    exact spin_integrated
  have hs : algebraExt.sqrtf (Flt.fin (1 * 1 + 3 / 4 * (3 / 4) + 0 * 0 + 0 * 0)) =
      Flt.fin ((fun _ : ℚ => (5 / 4 : ℚ)) (1 * 1 + 3 / 4 * (3 / 4) + 0 * 0 + 0 * 0)) := by
    norm_num [algebraExt]
  have hn : quatNorm algebraExt (signNormalize (compIntegrated sampleConsts algebraExt
      spinIn.toReadings (compGains sampleConsts spinIn.toReadings levelState))) =
        Flt.fin (5 / 4) := by
    rw [hq, quatNorm_signNormalize_fin, hs]
  have h := C18_output_quaternion_normalised sampleConsts algebraExt spinIn.toReadings
    levelState
  have hd : degenerateNorm (quatNorm algebraExt (signNormalize (compIntegrated sampleConsts
      algebraExt spinIn.toReadings (compGains sampleConsts spinIn.toReadings levelState))))
        = false := by
    rw [hn, degenerateNorm_fin _ (by norm_num)]
    norm_num
  have hout := h.2.1 hd
  rw [hn, hq, signNormalize_fin] at hout
  have hu := h.2.2.2.2.1 (fun _ => 5 / 4) ⟨1, 3 / 4, 0, 0⟩
    (by norm_num) (by norm_num [normSqOver])
  refine ⟨hd, hq, ?_, h.2.2.1 1 (3 / 4) 0 0 (fun _ => 5 / 4) hq hs, hu.1, hu.2,
    (h.2.2.2.2.2 ⟨1, 1, 0, 0⟩).1, (h.2.2.2.2.2 ⟨1, 1, 0, 0⟩).2⟩
  rw [hout]
  norm_num [fin_div]

/-! ## The quaternion step at zero rate and zero elapsed time -/

theorem nan_add (a : Flt) : Flt.nan + a = Flt.nan := by cases a <;> rfl

theorem add_nan (a : Flt) : a + Flt.nan = Flt.nan := by cases a <;> rfl

theorem nan_sub (a : Flt) : Flt.nan - a = Flt.nan := by cases a <;> rfl

theorem sub_nan (a : Flt) : a - Flt.nan = Flt.nan := by cases a <;> rfl

theorem nan_mul (a : Flt) : Flt.nan * a = Flt.nan := by cases a <;> rfl

theorem mul_nan (a : Flt) : a * Flt.nan = Flt.nan := by cases a <;> rfl

theorem nan_div (a : Flt) : Flt.nan / a = Flt.nan := by cases a <;> rfl

theorem div_nan (a : Flt) : a / Flt.nan = Flt.nan := by cases a <;> rfl

theorem neg_nan : -Flt.nan = Flt.nan := rfl

theorem nan_ne_fin (q : ℚ) : Flt.nan ≠ Flt.fin q := fun h => Flt.noConfusion h

theorem zero_div_zero : Flt.fin 0 / Flt.fin 0 = Flt.nan := by
  show Flt.div (Flt.fin 0) (Flt.fin 0) = _
  simp only [Flt.div, if_true]

/-- C19, as stated, fails.  With zero gyro rate, zero error terms and dT = 0 the rate
correction divides zero by zero, and the step returns the identity for the unit
quaternion (0, 1, 0, 0), also as part of a whole cycle of the filter; and without the rate
correction the step returns (1, 0, 0, 0) for the unit quaternion (-1, 0, 0, 0). -/
theorem C19_counterexample_zero_time_step :
    compQuatStep algebraExt levelState ⟨Flt.fin 0, Flt.fin 1, Flt.fin 0, Flt.fin 0⟩
      ⟨f0, f0, f0⟩ ⟨f0, f0, f0⟩ ⟨f0, f0, f0⟩ (Flt.fin 0)
        = ⟨Flt.fin 1, Flt.fin 0, Flt.fin 0, Flt.fin 0⟩ ∧
    zeroTimeIn.gyrosData = ⟨f0, f0, f0⟩ ∧ compDT zeroTimeIn.toReadings = Flt.fin 0 ∧
    quatOf rolledState.attitudeActual = ⟨Flt.fin 0, Flt.fin 1, Flt.fin 0, Flt.fin 0⟩ ∧
    quatOf (compSteady sampleConsts algebraExt zeroTimeIn.toReadings rolledState).attitudeActual
      = ⟨Flt.fin 1, Flt.fin 0, Flt.fin 0, Flt.fin 0⟩ ∧
    (compNormalize algebraExt (compIntegrate algebraExt
      ⟨Flt.fin (-1), Flt.fin 0, Flt.fin 0, Flt.fin 0⟩ ⟨f0, f0, f0⟩ (Flt.fin 0))).2
        = ⟨Flt.fin 1, Flt.fin 0, Flt.fin 0, Flt.fin 0⟩ := by
  refine ⟨?_, rfl, ?_, rfl, ?_, ?_⟩
  · norm_num [compQuatStep, compNormalize, compIntegrate, compRateCorrect, algebraExt,
      levelState, f0, f1, fin_add, fin_mul, fin_sub, fin_neg, nan_ne_fin, zero_div_zero, nan_add, add_nan,
      nan_sub, sub_nan, nan_mul, mul_nan, nan_div, div_nan, neg_nan, Flt.lt, Flt.isnan,
      Flt.fabsf]
  · norm_num [compDT, zeroTimeIn, Flt.ofInt, fin_div]
  · rw [(compSteady_results sampleConsts algebraExt zeroTimeIn.toReadings rolledState).1]
    have hg : compGains sampleConsts zeroTimeIn.toReadings rolledState = rolledState := by
      unfold compGains
      have h1 : (rolledState.init == 0) = false := rfl
      have h2 : (rolledState.attitudeSettings.ZeroDuringArming ==
          sampleConsts.ATTITUDESETTINGS_ZERODURINGARMING_TRUE) = false := rfl
      simp only [h1, h2, Bool.false_and, Bool.false_eq_true, if_false]
    rw [hg]
    norm_num [compIntegrated, compNormalize, compIntegrate, compRate, compRateCorrect,
      compUnbias, compNewBias, compBias, compAccelErr, compMagErr, compDT, quatOf, algebraExt,
      sampleConsts, rolledState, levelState, runningState, initState, zeroTimeIn, sampleIn,
      Flt.ofInt, f0, f1, fin_add, fin_mul, fin_sub, fin_neg, fin_div, nan_ne_fin, zero_div_zero, nan_add,
      add_nan, nan_sub, sub_nan, nan_mul, mul_nan, nan_div, div_nan, neg_nan, Flt.lt,
      Flt.isnan, Flt.fabsf]
  · norm_num [compNormalize, compIntegrate, algebraExt, f0, f1, fin_add, fin_mul, fin_sub,
      fin_neg, fin_div, Flt.lt, Flt.isnan, Flt.fabsf]

theorem compIntegrate_zero_rate (x : Ext) (a b c d t : ℚ)
    (hD : x.DEG2RAD (Flt.fin 0) = Flt.fin 0) :
    compIntegrate x ⟨Flt.fin a, Flt.fin b, Flt.fin c, Flt.fin d⟩ ⟨f0, f0, f0⟩ (Flt.fin t) =
      ⟨Flt.fin a, Flt.fin b, Flt.fin c, Flt.fin d⟩ := by
  unfold compIntegrate
  simp only [f0, fin_neg, fin_mul, fin_sub, fin_add, mul_zero, sub_zero, add_zero, hD,
    zero_mul, fin_div _ _ (two_ne_zero), zero_div]

/-- C19, amended: for every unit quaternion q with non-negative scalar component, the
time step of the kinematic equation with a zero rate, followed by sign normalisation and
renormalisation, returns q unchanged, for every finite elapsed time dT, dT = 0 included
(`DEG2RAD` maps 0 to 0 and `sqrtf` maps 1 to 1).  The rate correction, which divides the
error terms by dT, is not part of the statement. -/
theorem C19_zero_rate_step_is_identity (x : Ext) (a b c d t : ℚ)
    (hD : x.DEG2RAD (Flt.fin 0) = Flt.fin 0) (hS : x.sqrtf (Flt.fin 1) = Flt.fin 1)
    (hu : a * a + b * b + c * c + d * d = 1) (ha : 0 ≤ a) :
    (compNormalize x (compIntegrate x ⟨Flt.fin a, Flt.fin b, Flt.fin c, Flt.fin d⟩
      ⟨f0, f0, f0⟩ (Flt.fin t))).2 = ⟨Flt.fin a, Flt.fin b, Flt.fin c, Flt.fin d⟩ := by
  rw [compIntegrate_zero_rate x a b c d t hD, compNormalize_eq, quatNorm_signNormalize_fin,
    hu, hS, degenerateNorm_fin 1 zero_le_one, signNormalize_fin]
  have h1 : ¬ ((1 : ℚ) < 1 / 1000) := by norm_num
  simp only [h1, decide_False, Bool.false_eq_true, if_false, not_lt.mpr ha,
    fin_div _ _ one_ne_zero, div_one]

/-- C19 amended, at sample values: the unit quaternion (3/5, 4/5, 0, 0) at dT = 0. -/
theorem C19_witness_unit_quaternion :
    (3 / 5 : ℚ) * (3 / 5) + 4 / 5 * (4 / 5) + 0 * 0 + 0 * 0 = 1 ∧
    (compNormalize algebraExt (compIntegrate algebraExt
      ⟨Flt.fin (3 / 5), Flt.fin (4 / 5), Flt.fin 0, Flt.fin 0⟩ ⟨f0, f0, f0⟩ (Flt.fin 0))).2
        = ⟨Flt.fin (3 / 5), Flt.fin (4 / 5), Flt.fin 0, Flt.fin 0⟩ :=
  ⟨by norm_num,
   C19_zero_rate_step_is_identity algebraExt (3 / 5) (4 / 5) 0 0 0
     (by norm_num [algebraExt, fin_mul]) (by norm_num [algebraExt]) (by norm_num)
     (by norm_num)⟩

/-! ## The gyro bias of the complementary filter -/

/-- C20: a steady-state cycle stores the gyro bias with x and y lowered by the
accelerometer error times `AccelKi` and z lowered by the z component of the heading error
times `magKi`; the rate handed to the rate correction, and from there to the kinematic
equation, is the raw gyro rate minus the stored bias when `BiasCorrectedRaw` is not TRUE,
and the raw gyro rate when it is TRUE. -/
theorem C20_gyro_bias_update (k : Consts) (x : Ext) (i : Readings) (s : AttState) :
    (compSteady k x i s).gyrosBias =
      ⟨s.gyrosBias.x - (compAccelErr x (quatOf s.attitudeActual) i.accelsData).2.x *
          (compGains k i s).attitudeSettings.AccelKi,
       s.gyrosBias.y - (compAccelErr x (quatOf s.attitudeActual) i.accelsData).2.y *
          (compGains k i s).attitudeSettings.AccelKi,
       s.gyrosBias.z - (compSteady k x i s).mag_err.z * s.magKi⟩ ∧
    compRate k x i (compGains k i s) =
      compRateCorrect (compGains k i s)
        (if s.revoCalibration.BiasCorrectedRaw ≠ k.REVOCALIBRATION_BIASCORRECTEDRAW_TRUE
         then ⟨i.gyrosData.x - (compSteady k x i s).gyrosBias.x,
               i.gyrosData.y - (compSteady k x i s).gyrosBias.y,
               i.gyrosData.z - (compSteady k x i s).gyrosBias.z⟩
         else i.gyrosData)
        (compAccelErr x (quatOf s.attitudeActual) i.accelsData).2
        (compSteady k x i s).mag_err (compDT i) ∧
    quatOf (compSteady k x i s).attitudeActual =
      (compNormalize x (compIntegrate x (quatOf s.attitudeActual)
        (compRate k x i (compGains k i s)) (compDT i))).2 := by
  obtain ⟨r1, r2, r3⟩ := compSteady_results k x i s
  obtain ⟨g1, g2, g3, g4, g5, g6⟩ := compGains_frame k i s
  have hm : compMagErr x i (quatOf s.attitudeActual) (compGains k i s) =
      compMagErr x i (quatOf s.attitudeActual) s := compMagErr_congr x i _ g2 g3
  refine ⟨?_, ?_, ?_⟩
  · rw [r2, r3]
    unfold compNewBias compBias
    rw [g1, g4, g5, hm]
  · rw [r2, r3]
    unfold compRate compUnbias
    rw [g1, g6, hm]
    by_cases h : s.revoCalibration.BiasCorrectedRaw = k.REVOCALIBRATION_BIASCORRECTEDRAW_TRUE
    · simp only [h, bne_self_eq_false, Bool.false_eq_true, if_false, ne_eq, not_true_eq_false]
    · simp only [bne_iff_ne, ne_eq, h, not_false_eq_true, if_true]
  · rw [r1]
    unfold compIntegrated
    rw [g1]

theorem sample_gains (i : Readings) (s : AttState) (h1 : (s.init == 0) = false)
    (h2 : (s.attitudeSettings.ZeroDuringArming ==
      sampleConsts.ATTITUDESETTINGS_ZERODURINGARMING_TRUE) = false) :
    compGains sampleConsts i s = s := by
  unfold compGains
  simp only [h1, h2, Bool.false_and, Bool.false_eq_true, if_false]

/-- C20 at a sample cycle: level attitude, no error, a stored bias of (1, 2, 3) and a
zero raw gyro rate.  The stored bias stays (1, 2, 3); the rate used is (-1, -2, -3) when
`BiasCorrectedRaw` is not TRUE and (0, 0, 0) when it is TRUE. -/
theorem C20_witness_stored_bias :
    (compSteady sampleConsts algebraExt sampleIn.toReadings biasedState).gyrosBias =
      ⟨Flt.fin 1, Flt.fin 2, Flt.fin 3⟩ ∧
    compRate sampleConsts algebraExt sampleIn.toReadings biasedState =
      ⟨Flt.fin (-1), Flt.fin (-2), Flt.fin (-3)⟩ ∧
    compRate sampleConsts algebraExt sampleIn.toReadings correctedRawState =
      ⟨Flt.fin 0, Flt.fin 0, Flt.fin 0⟩ := by
  have hb := C20_gyro_bias_update sampleConsts algebraExt sampleIn.toReadings biasedState
  have hc := C20_gyro_bias_update sampleConsts algebraExt sampleIn.toReadings
    correctedRawState
  rw [sample_gains _ biasedState rfl rfl] at hb
  rw [sample_gains _ correctedRawState rfl rfl] at hc
  have mb := compSteady_fresh_sample sampleConsts algebraExt sampleIn.toReadings
    biasedState rfl
  have mc := compSteady_fresh_sample sampleConsts algebraExt sampleIn.toReadings
    correctedRawState rfl
  have e1 : (compSteady sampleConsts algebraExt sampleIn.toReadings biasedState).gyrosBias =
      ⟨Flt.fin 1, Flt.fin 2, Flt.fin 3⟩ := by
    rw [hb.1, mb]
    norm_num [compAccelErr, quatOf, algebraExt, biasedState, levelState, runningState,
      initState, sampleIn, f0, f1, fin_add, fin_mul, fin_sub, fin_neg, fin_div]
  have e2 : (compSteady sampleConsts algebraExt sampleIn.toReadings
      correctedRawState).gyrosBias = ⟨Flt.fin 1, Flt.fin 2, Flt.fin 3⟩ := by
    rw [hc.1, mc]
    norm_num [compAccelErr, quatOf, algebraExt, correctedRawState, biasedState, levelState,
      runningState, initState, sampleIn, f0, f1, fin_add, fin_mul, fin_sub, fin_neg, fin_div]
  refine ⟨e1, ?_, ?_⟩
  · rw [hb.2.1, e1, mb]
    norm_num [compRateCorrect, compAccelErr, compDT, quatOf, algebraExt, sampleConsts,
      biasedState, levelState, runningState, initState, sampleIn, Flt.ofInt, f0, f1, fin_add,
      fin_mul, fin_sub, fin_neg, fin_div]
  · rw [hc.2.1, e2, mc]
    norm_num [compRateCorrect, compAccelErr, compDT, quatOf, algebraExt, sampleConsts,
      correctedRawState, biasedState, levelState, runningState, initState, sampleIn,
      Flt.ofInt, f0, f1, fin_add, fin_mul, fin_sub, fin_neg, fin_div]

/-! ## The gain schedule of the complementary filter -/

theorem compSteady_gainVars (k : Consts) (x : Ext) (i : Readings) (s : AttState) :
    gainVars (compSteady k x i s) = gainVars (compGains k i s) := by
  unfold compSteady
  simp only []
  have h1 : ∀ t : AttState, gainVars (compAlarm t) = gainVars t := by
    intro t
    unfold compAlarm
    split_ifs <;> rfl
  have h2 : ∀ t : AttState, gainVars (compFlush k x i t) = gainVars t := by
    intro t
    unfold compFlush
    simp only []
    split_ifs <;> rfl
  have h3 : ∀ t : AttState, gainVars (compUpdate k x i t) = gainVars t := fun t => rfl
  rw [h1, h2, h3]

/-- The four branches of the gain schedule (lines 364-381). -/
theorem compGains_cases (k : Consts) (i : Readings) (s : AttState) :
    (settlingWindow i s = true →
      gainVars (compGains k i s) = (raisedGains s.attitudeSettings, f1, s.init)) ∧
    (settlingWindow i s = false → armingZero k s = true →
      gainVars (compGains k i s) = (raisedGains s.attitudeSettings, f1, 0)) ∧
    (settlingWindow i s = false → armingZero k s = false → s.init = 0 →
      gainVars (compGains k i s) = (i.attitudeSettingsObj, Flt.fin (1 / 100), 1)) ∧
    (settlingWindow i s = false → armingZero k s = false → s.init ≠ 0 →
      gainVars (compGains k i s) = gainVars s) := by
  unfold compGains settlingWindow armingZero
  refine ⟨fun h => ?_, fun h1 h2 => ?_, fun h1 h2 h3 => ?_, fun h1 h2 h3 => ?_⟩
  · rw [if_pos h]
    rfl
  · rw [if_neg (by rw [h1]; exact Bool.false_ne_true), if_pos h2]
    rfl
  · rw [if_neg (by rw [h1]; exact Bool.false_ne_true),
      if_neg (by rw [h2]; exact Bool.false_ne_true), if_pos (by rw [h3]; rfl)]
    rfl
  · rw [if_neg (by rw [h1]; exact Bool.false_ne_true),
      if_neg (by rw [h2]; exact Bool.false_ne_true),
      if_neg (by simpa using h3)]

theorem updateAttitudeComplementary_steady (k : Consts) (x : Ext) (i : CycleIn) (s : AttState)
    (h : sensorTimeout i = false) :
    updateAttitudeComplementary k x false i s = (0, compSteady k x i.toReadings s) := by
  unfold updateAttitudeComplementary
  simp only [h, Bool.false_eq_true, if_false]

theorem gainVars_eq {s : AttState} {a : AttitudeSettingsData} {m : Flt} {n : Nat}
    (h : gainVars s = (a, m, n)) : s.attitudeSettings = a ∧ s.magKp = m ∧ s.init = n := by
  unfold gainVars at h
  simp only [Prod.mk.injEq] at h
  exact h

/-- C21, as stated, fails: after a first run (`init` = 0) a steady-state cycle at tick count
500 loads the nominal gains and sets `init` to 1; the next steady-state cycle, at tick
count 2000 and so inside the settling window, with the vehicle not arming, works with the
nominal gains AccelKp = 0.05 and magKp = 0.01, not with the raised ones. -/
theorem C21_counterexample_window_after_early_cycle :
    firstRunDoneState.init = 0 ∧ earlyIn.tickCountA = 500 ∧ earlyIn.tickCountB = 500 ∧
    windowIn.tickCountA = 2000 ∧ windowIn.tickCountB = 2000 ∧
    (updateAttitudeComplementary sampleConsts sampleExt false windowIn
      (updateAttitudeComplementary sampleConsts sampleExt false earlyIn
        firstRunDoneState).2).2.attitudeSettings.AccelKp = Flt.fin (5 / 100) ∧
    (updateAttitudeComplementary sampleConsts sampleExt false windowIn
      (updateAttitudeComplementary sampleConsts sampleExt false earlyIn
        firstRunDoneState).2).2.magKp = Flt.fin (1 / 100) := by
  rw [updateAttitudeComplementary_steady _ _ earlyIn _ rfl]
  rw [updateAttitudeComplementary_steady _ _ windowIn _ rfl]
  have c1 := (compGains_cases sampleConsts earlyIn.toReadings firstRunDoneState).2.2.1
    rfl rfl rfl
  have g1 := (compSteady_gainVars sampleConsts sampleExt earlyIn.toReadings
    firstRunDoneState).trans c1
  obtain ⟨a1, a2, a3⟩ := gainVars_eq g1
  generalize compSteady sampleConsts sampleExt earlyIn.toReadings firstRunDoneState = s1
    at g1 a1 a2 a3
  have w : settlingWindow windowIn.toReadings s1 = false := by
    unfold settlingWindow
    rw [a3]
    rfl
  have z : armingZero sampleConsts s1 = false := by
    unfold armingZero
    rw [a1]
    rfl
  have c2 := (compGains_cases sampleConsts windowIn.toReadings s1).2.2.2 w z
    (by rw [a3]; exact one_ne_zero)
  have g2 := (compSteady_gainVars sampleConsts sampleExt windowIn.toReadings s1).trans
    (c2.trans g1)
  obtain ⟨b1, b2, -⟩ := gainVars_eq g2
  refine ⟨rfl, rfl, rfl, rfl, rfl, ?_, b2⟩
  rw [b1]
  rfl

/-- C21, amended: in a steady-state cycle of the complementary filter the gains are the
raised values AccelKp = 1.0, AccelKi = 0.9, YawBiasRate = 0.23, magKp = 1.0 when `init` is
0 and the tick count lies strictly between 1000 and 7000, or else when the flight status
is ARMING with ZeroDuringArming enabled (`init` is then reset to 0); in every other cycle
with `init` = 0 the gains are those of the settings object with magKp = 0.01 and `init`
becomes 1; in every other cycle with `init` not 0 the gains stay as they are. -/
theorem C21_gain_schedule (k : Consts) (x : Ext) (i : Readings) (s : AttState) :
    (settlingWindow i s = true ∨ armingZero k s = true →
      (compSteady k x i s).attitudeSettings.AccelKp = Flt.fin 1 ∧
      (compSteady k x i s).attitudeSettings.AccelKi = Flt.fin (9 / 10) ∧
      (compSteady k x i s).attitudeSettings.YawBiasRate = Flt.fin (23 / 100) ∧
      (compSteady k x i s).magKp = Flt.fin 1) ∧
    (settlingWindow i s = false → armingZero k s = true → (compSteady k x i s).init = 0) ∧
    (settlingWindow i s = false → armingZero k s = false → s.init = 0 →
      (compSteady k x i s).attitudeSettings = i.attitudeSettingsObj ∧
      (compSteady k x i s).magKp = Flt.fin (1 / 100) ∧
      (compSteady k x i s).init = 1) ∧
    (settlingWindow i s = false → armingZero k s = false → s.init ≠ 0 →
      (compSteady k x i s).attitudeSettings = s.attitudeSettings ∧
      (compSteady k x i s).magKp = s.magKp ∧
      (compSteady k x i s).init = s.init) := by
  have hg := compSteady_gainVars k x i s
  obtain ⟨c1, c2, c3, c4⟩ := compGains_cases k i s
  refine ⟨fun h => ?_, fun h1 h2 => ?_, fun h1 h2 h3 => ?_, fun h1 h2 h3 => ?_⟩
  · have hr : ∃ n, gainVars (compSteady k x i s) = (raisedGains s.attitudeSettings, f1, n) := by
      cases hw : settlingWindow i s
      · rcases h with h | h
        · rw [hw] at h
          exact absurd h Bool.false_ne_true
        · exact ⟨0, hg.trans (c2 hw h)⟩
      · exact ⟨s.init, hg.trans (c1 hw)⟩
    obtain ⟨n, hn⟩ := hr
    obtain ⟨a1, a2, -⟩ := gainVars_eq hn
    rw [a1, a2]
    exact ⟨rfl, rfl, rfl, rfl⟩
  · exact (gainVars_eq (hg.trans (c2 h1 h2))).2.2
  · exact gainVars_eq (hg.trans (c3 h1 h2 h3))
  · exact gainVars_eq (hg.trans (c4 h1 h2 h3))

/-- C21 amended, at sample cycles: right after a first run a cycle at tick count 2000 works
with the raised gains; a cycle at tick count 500 loads the nominal gains. -/
theorem C21_witness_window_and_early_cycle :
    (compSteady sampleConsts sampleExt windowIn.toReadings
      firstRunDoneState).attitudeSettings.AccelKp = Flt.fin 1 ∧
    (compSteady sampleConsts sampleExt windowIn.toReadings firstRunDoneState).magKp
      = Flt.fin 1 ∧
    (compSteady sampleConsts sampleExt earlyIn.toReadings firstRunDoneState).attitudeSettings
      = earlyIn.attitudeSettingsObj ∧
    (compSteady sampleConsts sampleExt earlyIn.toReadings firstRunDoneState).init = 1 :=
  have h1 := (C21_gain_schedule sampleConsts sampleExt windowIn.toReadings
    firstRunDoneState).1 (Or.inl rfl)
  have h2 := (C21_gain_schedule sampleConsts sampleExt earlyIn.toReadings
    firstRunDoneState).2.2.1 rfl rfl rfl
  ⟨h1.1, h1.2.2.2, h2.1, h2.2.2⟩

/-! ## The value error of an INS cycle -/

/-- A cycle on an initialised filter that reaches the sensor gate is a Running cycle: it
returns 0 and its calls are the two predictions with the cycle time, parameter settings
and the correction calls of the assembled measurement set. -/
theorem ins_running_cycle (k : Consts) (x : Ext) (outdoor_mode : Bool) (i : CycleIn)
    (s : AttState) (h1 : sensorTimeout i = false)
    (h2 : insInertialInvalid i.toReadings = false) (hin : s.inited = true) :
    (updateAttitudeINSGPS k x false outdoor_mode i s).1 = 0 ∧
    ∃ gyros ps m, (∀ c ∈ ps, INSCall.isSetter c = true) ∧
      (updateAttitudeINSGPS k x false outdoor_mode i s).2.trace =
        s.trace ++ (INSCall.INSStatePrediction gyros i.accelsData (insDT i.toReadings) ::
          INSCall.INSCovariancePrediction (insDT i.toReadings) ::
            (ps ++ correctionCalls i.toReadings m)) := by
  rw [updateAttitudeINSGPS_valid k x outdoor_mode i s h1 h2]
  refine ⟨rfl, ?_⟩
  have ptr : (insPrepared k outdoor_mode i.toReadings (insClearIfInited s)).trace = s.trace := by
    rw [insPrepared_trace, insClearIfInited_trace]
  have pin : (insPrepared k outdoor_mode i.toReadings (insClearIfInited s)).inited = true := by
    rw [insPrepared_inited, masked_inited (insClearIfInited_masked s), hin]
  generalize insGyrosBias (insPoll outdoor_mode i.toReadings (insClearIfInited s)) = gb
  generalize insPrepared k outdoor_mode i.toReadings (insClearIfInited s) = p at ptr pin
  have hg : insStagedGuard outdoor_mode p = false := by
    rw [insStagedGuard_eq, pin]
    rfl
  unfold insDispatch
  simp only [hg, pin, Bool.false_eq_true, if_false, Bool.not_true]
  obtain ⟨ps, hps, ht⟩ := insRunning_calls k x outdoor_mode i.toReadings gb
    (insDT i.toReadings) p
  exact ⟨_, ps, _, hps, by rw [ht, ptr]⟩

/-! ## Too few satellites in a Running outdoor cycle -/

/-- C23, as stated, fails: in staged initialisation with stage counter 1, a sample cycle
with all sensors valid executes one `INSStatePrediction` and nothing else, so no
`INSCovariancePrediction`. -/
theorem C23_counterexample_predict_only_cycle :
    predictOnlyState.inited = false ∧ predictOnlyState.init_stage = 1 ∧
    ∃ gyros dT,
      (updateAttitudeINSGPS sampleConsts sampleExt false true sampleIn
        predictOnlyState).2.trace =
          [INSCall.INSStatePrediction gyros sampleIn.accelsData dT] := by
  obtain ⟨-, -, -, h⟩ := insCycle_qualifying sampleConsts sampleExt true sampleIn
    predictOnlyState rfl (sample_qualifies predictOnlyState rfl rfl rfl)
  obtain ⟨gyros, dT, ht⟩ := h (by decide)
  exact ⟨rfl, rfl, gyros, dT, ht⟩

/-- C23, amended: in every cycle of `updateAttitudeINSGPS` that starts with the filter
initialised (Running), whenever `INSStatePrediction` is executed `INSCovariancePrediction`
is executed with the same cycle time, whether or not a correction follows; in every cycle
that starts with the filter not initialised (staged initialisation, predict-only cycles
included) `INSCovariancePrediction` is not executed. -/
theorem C23_covariance_prediction_when_running (k : Consts) (x : Ext)
    (first_run outdoor_mode : Bool) (i : CycleIn) (s : AttState) (cs : List INSCall)
    (h : (updateAttitudeINSGPS k x first_run outdoor_mode i s).2.trace = s.trace ++ cs) :
    (s.inited = true → ∀ g a dT, INSCall.INSStatePrediction g a dT ∈ cs →
      INSCall.INSCovariancePrediction dT ∈ cs) ∧
    (s.inited = false → ∀ dT, INSCall.INSCovariancePrediction dT ∉ cs) := by
  obtain ⟨cs1, ht, -, hs, hr⟩ := ins_cycle_calls k x first_run outdoor_mode i s
  have hcs : cs = cs1 := List.append_cancel_left (h.symm.trans ht)
  obtain ⟨p1, -⟩ := ins_cycle_prediction_time k x first_run outdoor_mode i s cs h
  refine ⟨fun hin g a dT hm => ?_, fun hin dT hm => ?_⟩
  · rw [p1 g a dT hm]
    rcases hr hin with e | ⟨g1, ps, m, -, e⟩
    · rw [hcs, e] at hm
      exact absurd hm (List.not_mem_nil _)
    · rw [hcs, e]
      exact List.mem_cons_of_mem _ (List.mem_cons_self _ _)
  · rw [hcs] at hm
    rcases hs hin with e | ⟨pos, q, e⟩ | ⟨g, e⟩
    · rw [e] at hm
      exact absurd hm (List.not_mem_nil _)
    · rw [e] at hm
      exact (seedCalls_no_prediction k _ pos q _ hm).2 dT rfl
    · rw [e, List.mem_singleton] at hm
      exact INSCall.noConfusion hm

/-- C23 amended, at the Running sample cycle: a state prediction is executed, and the
covariance prediction with it. -/
theorem C23_witness_running_cycle :
    (∃ g dT, INSCall.INSStatePrediction g sampleIn.accelsData dT ∈
      (updateAttitudeINSGPS sampleConsts sampleExt false true sampleIn runningState).2.trace) ∧
    ∀ g a dT, INSCall.INSStatePrediction g a dT ∈
        (updateAttitudeINSGPS sampleConsts sampleExt false true sampleIn runningState).2.trace →
      INSCall.INSCovariancePrediction dT ∈
        (updateAttitudeINSGPS sampleConsts sampleExt false true sampleIn
          runningState).2.trace := by
  obtain ⟨-, g, ps, m, -, ht⟩ := ins_running_cycle sampleConsts sampleExt true sampleIn
    runningState (by decide) (by decide) rfl
  refine ⟨⟨g, insDT sampleIn.toReadings, ?_⟩, ?_⟩
  · rw [ht]
    exact List.mem_append_right _ (List.mem_cons_self _ _)
  · exact (C23_covariance_prediction_when_running sampleConsts sampleExt false true sampleIn
      runningState _ (List.nil_append _).symm).1 rfl

/-! ## The fake-GPS magnitudes and the variance check -/

theorem cbReinit_withFakeR (k : Consts) (o : Objects) (F : List Flt) (s : AttState) :
    reinitVars (cbReinit k (withFakeR o F) s) = reinitVars (cbReinit k o s) := by
  have hc : cbVarianceCheck (withFakeR o F).ekfConfiguration
      = cbVarianceCheck o.ekfConfiguration := rfl
  by_cases h : cbVarianceCheck o.ekfConfiguration = true ∨
      (s.flightStatus.Armed = k.FLIGHTSTATUS_ARMED_ARMED ∧ s.initialization_required = false)
  · rw [cbReinit_error k o s h, cbReinit_error k (withFakeR o F) s (by rw [hc]; exact h)]
  · have h1 : cbVarianceCheck o.ekfConfiguration = false := by
      cases hv : cbVarianceCheck o.ekfConfiguration
      · rfl
      · exact absurd (Or.inl hv) h
    have h2 : ¬ (s.flightStatus.Armed = k.FLIGHTSTATUS_ARMED_ARMED ∧
        s.initialization_required = false) := fun a => h (Or.inr a)
    rw [cbReinit_apply k o s h1 h2, cbReinit_apply k (withFakeR o F) s (by rw [hc]; exact h1) h2]
    rfl

theorem fakeInvalidConfig_passes : cbVarianceCheck fakeInvalidConfig = false :=
  sampleConfig_valid

/-- C24, as stated, fails: the vehicle disarmed, a configuration update whose fake-GPS
magnitudes are -1, NaN and 0 (P, Q and R valid) does not raise the variance error and
triggers re-initialisation with the selected algorithm. -/
theorem C24_counterexample_invalid_fake_magnitudes :
    fakeInvalidObjects.ekfConfiguration.FakeR = [Flt.fin (-1), Flt.nan, Flt.fin 0] ∧
    invalid_var (Flt.fin (-1)) = true ∧ invalid_var Flt.nan = true ∧
    invalid_var (Flt.fin 0) = true ∧
    (settingsUpdatedCb sampleConsts sampleExt (some ⟨UAVObjHandle.EKFConfiguration⟩)
      fakeInvalidObjects disarmedState).variance_error = false ∧
    (settingsUpdatedCb sampleConsts sampleExt (some ⟨UAVObjHandle.EKFConfiguration⟩)
      fakeInvalidObjects disarmedState).initialization_required = true ∧
    (settingsUpdatedCb sampleConsts sampleExt (some ⟨UAVObjHandle.EKFConfiguration⟩)
      fakeInvalidObjects disarmedState).running_algorithm = 2 := by
  have hr := settingsUpdatedCb_reinitVars sampleConsts sampleExt
    (some ⟨UAVObjHandle.EKFConfiguration⟩) fakeInvalidObjects disarmedState
  have hg : cbReinitGuard (some ⟨UAVObjHandle.EKFConfiguration⟩) disarmedState = true := rfl
  rw [hg, if_pos rfl, cbReinit_apply sampleConsts fakeInvalidObjects _ fakeInvalidConfig_passes
    (fun h => absurd h.1 (by decide))] at hr
  obtain ⟨r1, r2, r3⟩ := reinitVars_eq (hr.trans (rfl : _ = reinitVars
    { disarmedState with variance_error := false, initialization_required := true,
                         running_algorithm := 2 }))
  refine ⟨rfl, negativeConfig_invalid, rfl, ?_, r1, r2, r3⟩
  norm_num [invalid_var, invalid, Flt.isnan, Flt.isinf, Flt.lt]

/-- C24, amended: a configuration update processed by `settingsUpdatedCb` in which a
magnitude of P, Q or R is non-finite or below 1e-15 raises the variance error and leaves
`running_algorithm` and `initialization_required` as they were; the fake-GPS magnitudes
FakeR are not examined: for every FakeR the callback leaves the same `variance_error`,
`initialization_required` and `running_algorithm`. -/
theorem C24_variance_check_covers_P_Q_R (k : Consts) (x : Ext) (ev : Option UAVObjEvent)
    (o : Objects) (s : AttState) :
    (∀ d : Flt, cbReinitGuard ev s = true →
      (d ∈ o.ekfConfiguration.P ∨ d ∈ o.ekfConfiguration.Q ∨ d ∈ o.ekfConfiguration.R) →
      invalid_var d = true →
      (settingsUpdatedCb k x ev o s).variance_error = true ∧
      (settingsUpdatedCb k x ev o s).running_algorithm = s.running_algorithm ∧
      (settingsUpdatedCb k x ev o s).initialization_required = s.initialization_required) ∧
    (∀ F : List Flt,
      (settingsUpdatedCb k x ev (withFakeR o F) s).variance_error =
        (settingsUpdatedCb k x ev o s).variance_error ∧
      (settingsUpdatedCb k x ev (withFakeR o F) s).initialization_required =
        (settingsUpdatedCb k x ev o s).initialization_required ∧
      (settingsUpdatedCb k x ev (withFakeR o F) s).running_algorithm =
        (settingsUpdatedCb k x ev o s).running_algorithm) := by
  refine ⟨fun d hg hd hbad => ?_, fun F => ?_⟩
  · have h := settingsUpdatedCb_invalid k x ev o s hg (cbVarianceCheck_true _ d hd hbad)
    unfold reinitVars at h
    simp only [Prod.mk.injEq] at h
    exact ⟨h.1, h.2.2, h.2.1⟩
  · have hf : cbRefresh ev (withFakeR o F) s = cbRefresh ev o s := rfl
    have h : reinitVars (settingsUpdatedCb k x ev (withFakeR o F) s) =
        reinitVars (settingsUpdatedCb k x ev o s) := by
      rw [settingsUpdatedCb_reinitVars, settingsUpdatedCb_reinitVars, hf, cbReinit_withFakeR]
    exact reinitVars_eq h

/-- C24 amended, at sample inputs: the negative magnitude `Q[0] = -1` raises the variance
error in the disarmed Running state, and the update with the invalid fake-GPS magnitudes
has the same outcome as the update with the valid ones. -/
theorem C24_witness_negative_and_fake :
    (settingsUpdatedCb sampleConsts sampleExt (some ⟨UAVObjHandle.EKFConfiguration⟩)
      negativeObjects disarmedState).variance_error = true ∧
    (settingsUpdatedCb sampleConsts sampleExt (some ⟨UAVObjHandle.EKFConfiguration⟩)
      (withFakeR disarmedObjects [Flt.fin (-1), Flt.nan, f0]) disarmedState).variance_error =
    (settingsUpdatedCb sampleConsts sampleExt (some ⟨UAVObjHandle.EKFConfiguration⟩)
      disarmedObjects disarmedState).variance_error :=
  ⟨((C24_variance_check_covers_P_Q_R sampleConsts sampleExt
      (some ⟨UAVObjHandle.EKFConfiguration⟩) negativeObjects disarmedState).1 (Flt.fin (-1))
      rfl (Or.inr (Or.inl (List.mem_cons_self _ _))) negativeConfig_invalid).1,
   ((C24_variance_check_covers_P_Q_R sampleConsts sampleExt
      (some ⟨UAVObjHandle.EKFConfiguration⟩) disarmedObjects disarmedState).2
      [Flt.fin (-1), Flt.nan, f0]).1⟩

/-! ## The indoor pseudo-measurement -/

theorem hasBits_or_left (a c m : Nat) (h : hasBits a m) : hasBits (a ||| c) m := by
  unfold hasBits at h ⊢
  apply Nat.eq_of_testBit_eq
  intro j
  have hj := congrArg (fun n => Nat.testBit n j) h
  simp only [Nat.testBit_and, Nat.testBit_or] at hj ⊢
  cases ha : a.testBit j <;> cases hc : c.testBit j <;> cases hm : m.testBit j <;> simp_all

theorem hasBits_or_right (a m : Nat) : hasBits (a ||| m) m := by
  unfold hasBits
  apply Nat.eq_of_testBit_eq
  intro j
  simp only [Nat.testBit_and, Nat.testBit_or]
  cases a.testBit j <;> cases m.testBit j <;> rfl

theorem hasBits_of_right (a c m : Nat) (h : hasBits c m) : hasBits (a ||| c) m := by
  unfold hasBits at h ⊢
  apply Nat.eq_of_testBit_eq
  intro j
  have hj := congrArg (fun n => Nat.testBit n j) h
  simp only [Nat.testBit_and, Nat.testBit_or] at hj ⊢
  cases ha : a.testBit j <;> cases hc : c.testBit j <;> cases hm : m.testBit j <;> simp_all

theorem hasBits_self_left (m c : Nat) : hasBits (m ||| c) m := by
  unfold hasBits
  apply Nat.eq_of_testBit_eq
  intro j
  simp only [Nat.testBit_and, Nat.testBit_or]
  cases c.testBit j <;> cases m.testBit j <;> rfl

theorem hasBits_mod (a m : Nat) (h : hasBits a m) (hm : m < 65536) :
    hasBits (a % 65536) m := by
  unfold hasBits at h ⊢
  apply Nat.eq_of_testBit_eq
  intro j
  have hj := congrArg (fun n => Nat.testBit n j) h
  have e : (65536 : Nat) = 2 ^ 16 := by norm_num
  rw [e] at hm ⊢
  simp only [Nat.testBit_and, Nat.testBit_mod_two_pow] at hj ⊢
  by_cases hlt : j < 16
  · simp [hlt, hj]
  · have : m.testBit j = false := by
      apply Nat.testBit_eq_false_of_lt
      exact lt_of_lt_of_le hm (Nat.pow_le_pow_right (by norm_num) (not_lt.mp hlt))
    simp [this]

theorem hasBits_ne_zero (a m : Nat) (h : hasBits a m) (hm : m ≠ 0) : a ≠ 0 := by
  intro ha
  unfold hasBits at h
  rw [ha, Nat.zero_and] at h
  exact hm h.symm

theorem insPoll_indoor_gps (i : Readings) (s : AttState) (h : gpsFlagsOff s) :
    gpsFlagsOff (insPoll false i s) := by
  unfold insPoll gpsFlagsOff
  simp only [Bool.and_false, Bool.or_false]
  split_ifs <;> exact h

theorem insGate_gps_off (k : Consts) (i : Readings) (s : AttState) (h : gpsFlagsOff s) :
    gpsFlagsOff (insGate k i s) := by
  have g1 : gpsFlagsOff (gateMag i s) := by
    unfold gateMag; split_ifs <;> exact h
  have g2 : gpsFlagsOff (gateBe (gateMag i s)) := by
    unfold gateBe; split_ifs <;> exact g1
  have g3 : gpsFlagsOff (gateBaro i (gateBe (gateMag i s))) := by
    unfold gateBaro; split_ifs <;> exact g2
  have g4 : gpsFlagsOff (gateAirspeed i (gateBaro i (gateBe (gateMag i s)))) := by
    unfold gateAirspeed; split_ifs <;> exact g3
  have g5 : gpsFlagsOff (gateGpsAltitude i
      (gateAirspeed i (gateBaro i (gateBe (gateMag i s))))) := by
    unfold gateGpsAltitude; split_ifs
    · exact ⟨rfl, g4.2⟩
    · exact g4
  have g6 : gpsFlagsOff (gateGpsVar k (gateGpsAltitude i
      (gateAirspeed i (gateBaro i (gateBe (gateMag i s)))))) := by
    unfold gateGpsVar; split_ifs
    · exact ⟨rfl, g5.2⟩
    · exact g5
  have g7 : gpsFlagsOff (gateGpsVel i (gateGpsVar k (gateGpsAltitude i
      (gateAirspeed i (gateBaro i (gateBe (gateMag i s))))))) := by
    unfold gateGpsVel; split_ifs
    · exact ⟨g6.1, rfl⟩
    · exact g6
  have g8 : gpsFlagsOff (insValidity k i s) := by
    unfold insValidity
    simp only []
    unfold gateAirspeedConnected; split_ifs <;> exact g7
  unfold insGate gateGpsMinimum
  split_ifs
  · exact ⟨rfl, rfl⟩
  · exact g8

theorem insPrepared_indoor_gps (k : Consts) (i : Readings) (s : AttState)
    (h : gpsFlagsOff s) : gpsFlagsOff (insPrepared k false i s) :=
  insGate_gps_off k i { insPoll false i s with value_error := false }
    (insPoll_indoor_gps i s h)

theorem insClearIfInited_gps (s : AttState) (h : s.inited = true ∨ gpsFlagsOff s) :
    gpsFlagsOff (insClearIfInited s) := by
  unfold insClearIfInited
  split_ifs with hin
  · exact ⟨rfl, rfl⟩
  · rcases h with h | h
    · exact absurd h hin
    · exact h

/-- An indoor cycle leaves both GPS flags false when it finds them false, and also when it
passes the timeout check and is a first run or finds the filter initialised. -/
theorem ins_indoor_cycle_gps (k : Consts) (x : Ext) (first_run : Bool) (i : CycleIn)
    (s : AttState)
    (h : gpsFlagsOff s ∨ (sensorTimeout i = false ∧ (first_run = true ∨ s.inited = true))) :
    gpsFlagsOff (updateAttitudeINSGPS k x first_run false i s).2 := by
  cases h1 : sensorTimeout i
  swap
  · have e : updateAttitudeINSGPS k x first_run false i s =
        (-1, { s with alarm := AlarmSeverity.Warning }) := by
      unfold updateAttitudeINSGPS
      simp only [h1, if_true]
    rw [e]
    rcases h with h | ⟨h, -⟩
    · exact h
    · rw [h1] at h
      exact absurd h (by decide)
  cases first_run
  swap
  · have e : updateAttitudeINSGPS k x true false i s =
        (0, insFirstRun i.toReadings (insClearIfInited s)) := by
      unfold updateAttitudeINSGPS
      simp only [h1, Bool.false_eq_true, if_false, if_true]
    rw [e]
    exact ⟨rfl, rfl⟩
  have hc : gpsFlagsOff (insClearIfInited s) := by
    rcases h with h | ⟨-, h | h⟩
    · exact insClearIfInited_gps s (Or.inr h)
    · exact absurd h (by decide)
    · exact insClearIfInited_gps s (Or.inl h)
  cases h2 : insInertialInvalid i.toReadings
  · rw [updateAttitudeINSGPS_valid k x false i s h1 h2]
    obtain ⟨e1, e2⟩ := masked_gps_stage (insDispatch_outputs k x false i.toReadings
      (insGyrosBias (insPoll false i.toReadings (insClearIfInited s)))
      (insPrepared k false i.toReadings (insClearIfInited s)))
    obtain ⟨p1, p2⟩ := insPrepared_indoor_gps k i.toReadings (insClearIfInited s) hc
    exact ⟨e1.trans p1, e2.trans p2⟩
  · have e : updateAttitudeINSGPS k x false false i s =
        (0, { insPoll false i.toReadings (insClearIfInited s) with
              value_error := false, alarm := AlarmSeverity.Error }) := by
      unfold updateAttitudeINSGPS
      simp only [h1, h2, Bool.false_eq_true, if_false, if_true]
    rw [e]
    exact insPoll_indoor_gps i.toReadings (insClearIfInited s) hc

/-- Along every sequence of indoor cycles from a state with both GPS flags false, both
flags stay false. -/
theorem insSequence_indoor_gps (k : Consts) (x : Ext) (cycles : List (Bool × CycleIn)) :
    ∀ s : AttState, gpsFlagsOff s → gpsFlagsOff (insSequence k x false s cycles) := by
  induction cycles with
  | nil => exact fun s h => h
  | cons c rest ih =>
    intro s h
    exact ih _ (ins_indoor_cycle_gps k x c.1 c.2 s (Or.inl h))

/-- The measurement set assembled indoors on a state with both GPS flags false. -/
theorem insMeasurement_indoor (k : Consts) (x : Ext) (i : Readings) (s : AttState)
    (hg : gpsFlagsOff s) :
    (insMeasurement k x false i s).NED = ⟨f0, f0, -(i.baroAltitude + s.baroOffset)⟩ ∧
    (insMeasurement k x false i s).st.baroOffset = s.baroOffset ∧
    (∀ mask, (mask = k.HORIZ_SENSORS ∨ mask = k.HORIZ_POS_SENSORS ∨ mask = k.POS_SENSORS ∨
        mask = k.VERT_SENSORS) → mask < 65536 →
      hasBits (insMeasurement k x false i s).sensors mask) ∧
    ((s.airspeed_updated = false ∧ (insMeasurement k x false i s).vel = ⟨f0, f0, f0⟩ ∧
        (insMeasurement k x false i s).st.trace = s.trace ++
          [INSCall.INSSetMagNorth s.homeLocation.Be,
           INSCall.INSSetPosVelVar (fakePosVar k s.ekfConfiguration)
             (fakeVelVar k s.ekfConfiguration)]) ∨
     (s.airspeed_updated = true ∧
        (insMeasurement k x false i s).st.trace = s.trace ++
          [INSCall.INSSetMagNorth s.homeLocation.Be,
           INSCall.INSSetPosVelVar (fakePosVar k s.ekfConfiguration)
             (fakeVelVar k s.ekfConfiguration),
           INSCall.INSSetPosVelVar (fakePosVar k s.ekfConfiguration)
             (fakeAirVar k s.ekfConfiguration)])) := by
  obtain ⟨hg1, hg2⟩ := hg
  cases ha : s.airspeed_updated
  · simp only [insMeasurement, insAirspeed, insVelocity, insPosition, insMagBaro, insCall,
      Bool.and_false, Bool.not_false, Bool.false_eq_true, if_false, if_true, ha, hg1, hg2]
    refine ⟨trivial, trivial, ?_, Or.inl ⟨trivial, trivial, ?_⟩⟩
    · intro mask hm hlt
      apply hasBits_mod _ _ _ hlt
      rcases hm with rfl | rfl | rfl | rfl
      · exact hasBits_or_left _ _ _ (hasBits_of_right _ _ _ (hasBits_self_left _ _))
      · exact hasBits_or_left _ _ _ (hasBits_of_right _ _ _ (hasBits_or_right _ _))
      · exact hasBits_of_right _ _ _ (hasBits_self_left _ _)
      · exact hasBits_of_right _ _ _ (hasBits_or_right _ _)
    · simp only [fakePosVar, fakeVelVar, List.append_assoc, List.singleton_append,
        List.cons_append, List.nil_append]
  · simp only [insMeasurement, insAirspeed, insVelocity, insPosition, insMagBaro, insCall,
      Bool.and_false, Bool.not_false, Bool.false_eq_true, if_false, if_true, ha, hg1, hg2,
      Bool.and_self]
    refine ⟨trivial, trivial, ?_, Or.inr ⟨trivial, ?_⟩⟩
    · intro mask hm hlt
      apply hasBits_mod _ _ _ hlt
      apply hasBits_or_left
      rcases hm with rfl | rfl | rfl | rfl
      · exact hasBits_or_left _ _ _ (hasBits_of_right _ _ _ (hasBits_self_left _ _))
      · exact hasBits_or_left _ _ _ (hasBits_of_right _ _ _ (hasBits_or_right _ _))
      · exact hasBits_of_right _ _ _ (hasBits_self_left _ _)
      · exact hasBits_of_right _ _ _ (hasBits_or_right _ _)
    · simp only [fakePosVar, fakeVelVar, fakeAirVar, List.append_assoc, List.singleton_append,
        List.cons_append, List.nil_append]

theorem insPrepared_baroOffset (k : Consts) (outdoor_mode : Bool) (i : Readings)
    (s : AttState) : (insPrepared k outdoor_mode i s).baroOffset = s.baroOffset := by
  have e := congrArg (fun u : AttState => u.baroOffset)
    (insPrepared_masked k outdoor_mode i s)
  exact e

/-- The calls of an indoor Running cycle: the two predictions, the reference field, the
indoor variances, the airspeed variances when airspeed is fed to the filter, and one
correction with the indoor pseudo-measurement. -/
theorem ins_indoor_running_calls (k : Consts) (x : Ext) (i : CycleIn) (s : AttState)
    (hreach : sensorTimeout i = false) (hvalid : insInertialInvalid i.toReadings = false)
    (hin : s.inited = true)
    (hH : k.HORIZ_SENSORS < 65536) (hHP : k.HORIZ_POS_SENSORS < 65536)
    (hP : k.POS_SENSORS < 65536) (hV : k.VERT_SENSORS < 65536) (hne : k.POS_SENSORS ≠ 0) :
    ∃ gyros vel sensors airCalls,
      (updateAttitudeINSGPS k x false false i s).2.trace = s.trace ++
        ([INSCall.INSStatePrediction gyros i.accelsData (insDT i.toReadings),
          INSCall.INSCovariancePrediction (insDT i.toReadings),
          INSCall.INSSetMagNorth s.homeLocation.Be,
          INSCall.INSSetPosVelVar (fakePosVar k s.ekfConfiguration)
            (fakeVelVar k s.ekfConfiguration)] ++ airCalls ++
         [INSCall.INSCorrection i.magData ⟨f0, f0, -(i.baroAltitude + s.baroOffset)⟩ vel
            (i.baroAltitude + s.baroOffset) sensors]) ∧
      sensors ≠ 0 ∧ hasBits sensors k.POS_SENSORS ∧ hasBits sensors k.HORIZ_POS_SENSORS ∧
      hasBits sensors k.HORIZ_SENSORS ∧ hasBits sensors k.VERT_SENSORS ∧
      (((updateAttitudeINSGPS k x false false i s).2.airspeed_updated = false ∧
          airCalls = [] ∧ vel = ⟨f0, f0, f0⟩) ∨
       ((updateAttitudeINSGPS k x false false i s).2.airspeed_updated = true ∧
          airCalls = [INSCall.INSSetPosVelVar (fakePosVar k s.ekfConfiguration)
            (fakeAirVar k s.ekfConfiguration)])) := by
  rw [updateAttitudeINSGPS_valid k x false i s hreach hvalid]
  have hc := insClearIfInited_gps s (Or.inl hin)
  have hs1 := supervisor_of_flagsMasked (insClearIfInited_masked s)
  have hs2 := insPrepared_supervisor k false i.toReadings (insClearIfInited s)
  have ptr : (insPrepared k false i.toReadings (insClearIfInited s)).trace = s.trace := by
    rw [insPrepared_trace, insClearIfInited_trace]
  have pin : (insPrepared k false i.toReadings (insClearIfInited s)).inited = true := by
    rw [insPrepared_inited, masked_inited (insClearIfInited_masked s), hin]
  have pgp := insPrepared_indoor_gps k i.toReadings (insClearIfInited s) hc
  have phl : (insPrepared k false i.toReadings (insClearIfInited s)).homeLocation
      = s.homeLocation :=
    (congrArg Supervisor.homeLocation hs2).trans (congrArg Supervisor.homeLocation hs1)
  have pcf : (insPrepared k false i.toReadings (insClearIfInited s)).ekfConfiguration
      = s.ekfConfiguration :=
    (congrArg Supervisor.ekfConfiguration hs2).trans
      (congrArg Supervisor.ekfConfiguration hs1)
  have pbo : (insPrepared k false i.toReadings (insClearIfInited s)).baroOffset
      = s.baroOffset := by
    rw [insPrepared_baroOffset]
    exact (congrArg (fun u : AttState => u.baroOffset) (insClearIfInited_masked s) :)
  generalize insGyrosBias (insPoll false i.toReadings (insClearIfInited s)) = gb
  generalize insPrepared k false i.toReadings (insClearIfInited s) = p
    at ptr pin pgp phl pcf pbo
  have hg : insStagedGuard false p = false := by
    rw [insStagedGuard_eq, pin]
    rfl
  have hd : insDispatch k x false i.toReadings gb p =
      insRunning k x false i.toReadings gb (insDT i.toReadings) p := by
    unfold insDispatch
    simp only [hg, pin, Bool.false_eq_true, if_false, Bool.not_true]
  rw [hd]
  have hra := masked_airspeed_outputs
    (insRunning_outputs k x false i.toReadings gb (insDT i.toReadings) p)
  have hpo := insPredicted_outputs k x i.toReadings gb (insDT i.toReadings) p
  have hpa := masked_airspeed_outputs hpo
  obtain ⟨q1, q2⟩ := masked_gps_outputs hpo
  have qhl : (insPredicted k x i.toReadings gb (insDT i.toReadings) p).homeLocation
      = s.homeLocation :=
    (congrArg (fun u : AttState => u.homeLocation) hpo :).trans phl
  have qcf : (insPredicted k x i.toReadings gb (insDT i.toReadings) p).ekfConfiguration
      = s.ekfConfiguration := (outputs_ekfConfiguration hpo).trans pcf
  have qbo : (insPredicted k x i.toReadings gb (insDT i.toReadings) p).baroOffset
      = s.baroOffset := pbo
  have qtr := insPredicted_trace k x i.toReadings gb (insDT i.toReadings) p
  obtain ⟨m1, m2, m3, m4⟩ := insMeasurement_indoor k x i.toReadings
    (insPredicted k x i.toReadings gb (insDT i.toReadings) p)
    ⟨q1.trans pgp.1, q2.trans pgp.2⟩
  rw [qbo] at m1 m2
  rw [qhl, qcf, qtr, ptr] at m4
  rw [hra, insRunning_eq, insPublish_trace]
  generalize insMeasurement k x false i.toReadings
    (insPredicted k x i.toReadings gb (insDT i.toReadings) p) = m at m1 m2 m3 m4
  have hb := m3 k.POS_SENSORS (Or.inr (Or.inr (Or.inl rfl))) hP
  have hnz : m.sensors ≠ 0 := hasBits_ne_zero _ _ hb hne
  have hbne : (m.sensors != 0) = true := bne_iff_ne.mpr hnz
  rw [if_pos hbne, insCall_trace, m1, m2]
  refine ⟨insGyros k x i.toReadings gb p, m.vel, m.sensors,
    if p.airspeed_updated then [INSCall.INSSetPosVelVar (fakePosVar k s.ekfConfiguration)
      (fakeAirVar k s.ekfConfiguration)] else [], ?_, hnz, hb,
    m3 _ (Or.inr (Or.inl rfl)) hHP, m3 _ (Or.inl rfl) hH,
    m3 _ (Or.inr (Or.inr (Or.inr rfl))) hV, ?_⟩
  · rcases m4 with ⟨a1, -, a3⟩ | ⟨a1, a3⟩
    · rw [hpa] at a1
      rw [a3, a1]
      simp only [Bool.false_eq_true, if_false, List.append_assoc, List.cons_append,
        List.nil_append]
    · rw [hpa] at a1
      rw [a3, a1]
      simp only [if_true, List.append_assoc, List.cons_append, List.nil_append]
  · rcases m4 with ⟨a1, a2, -⟩ | ⟨a1, -⟩
    · rw [hpa] at a1
      exact Or.inl ⟨a1, by rw [a1]; rfl, a2⟩
    · rw [hpa] at a1
      exact Or.inr ⟨a1, by rw [a1]; rfl⟩

/-- C26: in indoor mode every Running cycle of `updateAttitudeINSGPS` with finite gyro and
accelerometer values returns 0, sets the FakeR indoor position and velocity variances and
invokes `INSCorrection` with a non-empty sensor mask containing the position and velocity
bits and with the position pseudo-measurement (0, 0, -(baroAltitude + baroOffset)); the
velocity pseudo-measurement is (0, 0, 0) whenever airspeed is not fed to the filter (when
it is, the FakeR airspeed velocity variance is set as well); after the cycle both GPS
flags are false, and they stay false along every sequence of indoor cycles.  The sensor
masks of `insgps.h` fit 16 bits and the position mask is not empty. -/
theorem C26_indoor_pseudo_measurement (k : Consts) (x : Ext) (i : CycleIn) (s : AttState)
    (hreach : sensorTimeout i = false) (hvalid : insInertialInvalid i.toReadings = false)
    (hin : s.inited = true)
    (hH : k.HORIZ_SENSORS < 65536) (hHP : k.HORIZ_POS_SENSORS < 65536)
    (hP : k.POS_SENSORS < 65536) (hV : k.VERT_SENSORS < 65536) (hne : k.POS_SENSORS ≠ 0) :
    (updateAttitudeINSGPS k x false false i s).1 = 0 ∧
    (updateAttitudeINSGPS k x false false i s).2.gps_updated = false ∧
    (updateAttitudeINSGPS k x false false i s).2.gps_vel_updated = false ∧
    (∃ gyros vel sensors airCalls,
      (updateAttitudeINSGPS k x false false i s).2.trace = s.trace ++
        ([INSCall.INSStatePrediction gyros i.accelsData (insDT i.toReadings),
          INSCall.INSCovariancePrediction (insDT i.toReadings),
          INSCall.INSSetMagNorth s.homeLocation.Be,
          INSCall.INSSetPosVelVar (fakePosVar k s.ekfConfiguration)
            (fakeVelVar k s.ekfConfiguration)] ++ airCalls ++
         [INSCall.INSCorrection i.magData ⟨f0, f0, -(i.baroAltitude + s.baroOffset)⟩ vel
            (i.baroAltitude + s.baroOffset) sensors]) ∧
      sensors ≠ 0 ∧ hasBits sensors k.POS_SENSORS ∧ hasBits sensors k.HORIZ_POS_SENSORS ∧
      hasBits sensors k.HORIZ_SENSORS ∧ hasBits sensors k.VERT_SENSORS ∧
      (((updateAttitudeINSGPS k x false false i s).2.airspeed_updated = false ∧
          airCalls = [] ∧ vel = ⟨f0, f0, f0⟩) ∨
       ((updateAttitudeINSGPS k x false false i s).2.airspeed_updated = true ∧
          airCalls = [INSCall.INSSetPosVelVar (fakePosVar k s.ekfConfiguration)
            (fakeAirVar k s.ekfConfiguration)]))) ∧
    (∀ (s0 : AttState) (cycles : List (Bool × CycleIn)),
      s0.gps_updated = false → s0.gps_vel_updated = false →
      (insSequence k x false s0 cycles).gps_updated = false ∧
      (insSequence k x false s0 cycles).gps_vel_updated = false) := by
  obtain ⟨g1, g2⟩ := ins_indoor_cycle_gps k x false i s (Or.inr ⟨hreach, Or.inr hin⟩)
  refine ⟨?_, g1, g2, ins_indoor_running_calls k x i s hreach hvalid hin hH hHP hP hV hne, ?_⟩
  · rw [updateAttitudeINSGPS_valid k x false i s hreach hvalid]
  · intro s0 cycles h1 h2
    exact insSequence_indoor_gps k x cycles s0 ⟨h1, h2⟩

/-- C26 at the sample input: an indoor Running cycle of the sample state returns 0 with
both GPS flags false and calls `INSCorrection` with the indoor pseudo-measurement. -/
theorem C26_witness_indoor_cycle :
    indoorState.inited = true ∧
    (updateAttitudeINSGPS sampleConsts sampleExt false false sampleIn indoorState).1 = 0 ∧
    (updateAttitudeINSGPS sampleConsts sampleExt false false sampleIn
      indoorState).2.gps_updated = false ∧
    ∃ gyros vel sensors airCalls,
      (updateAttitudeINSGPS sampleConsts sampleExt false false sampleIn indoorState).2.trace =
        indoorState.trace ++
        ([INSCall.INSStatePrediction gyros sampleIn.accelsData (insDT sampleIn.toReadings),
          INSCall.INSCovariancePrediction (insDT sampleIn.toReadings),
          INSCall.INSSetMagNorth indoorState.homeLocation.Be,
          INSCall.INSSetPosVelVar (fakePosVar sampleConsts indoorState.ekfConfiguration)
            (fakeVelVar sampleConsts indoorState.ekfConfiguration)] ++ airCalls ++
         [INSCall.INSCorrection sampleIn.magData
            ⟨f0, f0, -(sampleIn.baroAltitude + indoorState.baroOffset)⟩ vel
            (sampleIn.baroAltitude + indoorState.baroOffset) sensors]) ∧
      sensors ≠ 0 ∧ hasBits sensors sampleConsts.POS_SENSORS := by
  obtain ⟨h1, h2, -, ⟨gyros, vel, sensors, airCalls, ht, hn, hb, -⟩, -⟩ :=
    C26_indoor_pseudo_measurement sampleConsts sampleExt sampleIn indoorState
      (by decide) (by decide) rfl (by decide) (by decide) (by decide) (by decide) (by decide)
  exact ⟨rfl, h1, h2, gyros, vel, sensors, airCalls, ht, hn, hb⟩

/-! ## A deferred configuration update and the cached configuration -/

/-- The settings callback writes the cached settings, `T` and the three supervisor
variables only. -/
theorem settingsUpdatedCb_masked (k : Consts) (x : Ext) (ev : Option UAVObjEvent)
    (o : Objects) (s : AttState) :
    settingsMasked (settingsUpdatedCb k x ev o s) = settingsMasked s := by
  have h1 : ∀ t : AttState, settingsMasked (cbRefresh ev o t) = settingsMasked t := by
    intro t
    unfold cbRefresh
    simp only []
    split_ifs <;> rfl
  have h2 : ∀ t : AttState, settingsMasked (cbReinitBlock k ev o t) = settingsMasked t := by
    intro t
    unfold cbReinitBlock cbReinit
    simp only []
    split_ifs <;> rfl
  have h3 : ∀ t : AttState, settingsMasked (cbReload x ev o t) = settingsMasked t := by
    intro t
    unfold cbReload cbHomeLocation
    simp only []
    split_ifs <;> rfl
  unfold settingsUpdatedCb
  rw [h3, h2, h1]

/-- The cached noise configuration after a callback: the object's current value when the
re-initialisation block is entered, whatever the block then decides. -/
theorem settingsUpdatedCb_ekfConfiguration (k : Consts) (x : Ext) (ev : Option UAVObjEvent)
    (o : Objects) (s : AttState) :
    (settingsUpdatedCb k x ev o s).ekfConfiguration =
      if cbReinitGuard ev s then o.ekfConfiguration else s.ekfConfiguration := by
  have h1 : ∀ t : AttState, (cbRefresh ev o t).ekfConfiguration = t.ekfConfiguration := by
    intro t
    unfold cbRefresh
    simp only []
    split_ifs <;> rfl
  have h3 : ∀ t : AttState, (cbReload x ev o t).ekfConfiguration = t.ekfConfiguration := by
    intro t
    unfold cbReload cbHomeLocation
    simp only []
    split_ifs <;> rfl
  have h2 : ∀ t : AttState, (cbReinit k o t).ekfConfiguration = o.ekfConfiguration := by
    intro t
    unfold cbReinit
    simp only []
    split_ifs <;> rfl
  unfold settingsUpdatedCb cbReinitBlock
  rw [h3, cbRefresh_guard]
  split_ifs
  · exact h2 _
  · exact h1 s

theorem indoor_sets_fake_variances (k : Consts) (x : Ext) (i : CycleIn) (s : AttState)
    (hreach : sensorTimeout i = false) (hvalid : insInertialInvalid i.toReadings = false)
    (hin : s.inited = true)
    (hH : k.HORIZ_SENSORS < 65536) (hHP : k.HORIZ_POS_SENSORS < 65536)
    (hP : k.POS_SENSORS < 65536) (hV : k.VERT_SENSORS < 65536) (hne : k.POS_SENSORS ≠ 0) :
    INSCall.INSSetPosVelVar (fakePosVar k s.ekfConfiguration) (fakeVelVar k s.ekfConfiguration)
      ∈ (updateAttitudeINSGPS k x false false i s).2.trace := by
  obtain ⟨gyros, vel, sensors, airCalls, ht, -⟩ :=
    ins_indoor_running_calls k x i s hreach hvalid hin hH hHP hP hV hne
  rw [ht]
  simp only [List.mem_append, List.mem_cons, true_or, or_true]

/-- C25, as stated, fails: armed and Running on the indoor INS with every fake-GPS
magnitude 1, a configuration update with the magnitudes changed to 2 is deferred
(`variance_error` set, no re-initialisation pending), yet the next Running cycle hands the
filter the new variances (2, 2, 2). -/
theorem C25_counterexample_deferred_update_read :
    indoorState.flightStatus.Armed = sampleConsts.FLIGHTSTATUS_ARMED_ARMED ∧
    indoorState.initialization_required = false ∧
    fakePosVar sampleConsts indoorState.ekfConfiguration = ⟨Flt.fin 1, Flt.fin 1, Flt.fin 1⟩ ∧
    (settingsUpdatedCb sampleConsts sampleExt (some ⟨UAVObjHandle.EKFConfiguration⟩)
      changedFakeObjects indoorState).variance_error = true ∧
    (settingsUpdatedCb sampleConsts sampleExt (some ⟨UAVObjHandle.EKFConfiguration⟩)
      changedFakeObjects indoorState).initialization_required = false ∧
    INSCall.INSSetPosVelVar ⟨Flt.fin 2, Flt.fin 2, Flt.fin 2⟩ ⟨Flt.fin 2, Flt.fin 2, Flt.fin 2⟩
      ∈ (updateAttitudeINSGPS sampleConsts sampleExt false false sampleIn
          (settingsUpdatedCb sampleConsts sampleExt (some ⟨UAVObjHandle.EKFConfiguration⟩)
            changedFakeObjects indoorState)).2.trace := by
  have hc := settingsUpdatedCb_ekfConfiguration sampleConsts sampleExt
    (some ⟨UAVObjHandle.EKFConfiguration⟩) changedFakeObjects indoorState
  have hg : cbReinitGuard (some ⟨UAVObjHandle.EKFConfiguration⟩) indoorState = true := rfl
  rw [hg, if_pos rfl] at hc
  have hi : (settingsUpdatedCb sampleConsts sampleExt (some ⟨UAVObjHandle.EKFConfiguration⟩)
      changedFakeObjects indoorState).inited = true :=
    (congrArg (fun u : AttState => u.inited) (settingsUpdatedCb_masked sampleConsts sampleExt
      (some ⟨UAVObjHandle.EKFConfiguration⟩) changedFakeObjects indoorState) :)
  have hr := settingsUpdatedCb_reinitVars sampleConsts sampleExt
    (some ⟨UAVObjHandle.EKFConfiguration⟩) changedFakeObjects indoorState
  rw [hg, if_pos rfl, cbReinit_error sampleConsts changedFakeObjects _
    (Or.inr ⟨rfl, rfl⟩)] at hr
  have hm := indoor_sets_fake_variances sampleConsts sampleExt sampleIn _ (by decide)
    (by decide) hi (by decide) (by decide) (by decide) (by decide) (by decide)
  rw [hc] at hm
  unfold reinitVars at hr
  simp only [Prod.mk.injEq] at hr
  exact ⟨rfl, rfl, rfl, hr.1, hr.2.1, hm⟩

/-- C25, amended: a `settingsUpdatedCb` call that enters the re-initialisation block with
the vehicle ARMED and `initialization_required` false is deferred: it sets
`variance_error` and leaves `running_algorithm`, `initialization_required`, `inited`,
`init_stage` and the state and call trace of the filter library unchanged; but it replaces
the cached `ekfConfiguration` by the object's current value, and a following indoor
Running cycle hands the filter the fake-GPS variances of that new value.  A call that
does not enter the block leaves the cached `ekfConfiguration` unchanged. -/
theorem C25_deferred_update_replaces_cache (k : Consts) (x : Ext) (ev : Option UAVObjEvent)
    (o : Objects) (s : AttState) :
    (cbReinitGuard ev s = true →
      (cbRefresh ev o s).flightStatus.Armed = k.FLIGHTSTATUS_ARMED_ARMED →
      s.initialization_required = false →
      (settingsUpdatedCb k x ev o s).ekfConfiguration = o.ekfConfiguration ∧
      (settingsUpdatedCb k x ev o s).variance_error = true ∧
      (settingsUpdatedCb k x ev o s).running_algorithm = s.running_algorithm ∧
      (settingsUpdatedCb k x ev o s).initialization_required = false ∧
      (settingsUpdatedCb k x ev o s).inited = s.inited ∧
      (settingsUpdatedCb k x ev o s).init_stage = s.init_stage ∧
      (settingsUpdatedCb k x ev o s).nav = s.nav ∧
      (settingsUpdatedCb k x ev o s).trace = s.trace ∧
      ∀ i : CycleIn, sensorTimeout i = false → insInertialInvalid i.toReadings = false →
        s.inited = true → k.HORIZ_SENSORS < 65536 → k.HORIZ_POS_SENSORS < 65536 →
        k.POS_SENSORS < 65536 → k.VERT_SENSORS < 65536 → k.POS_SENSORS ≠ 0 →
        INSCall.INSSetPosVelVar (fakePosVar k o.ekfConfiguration)
          (fakeVelVar k o.ekfConfiguration)
          ∈ (updateAttitudeINSGPS k x false false i (settingsUpdatedCb k x ev o s)).2.trace) ∧
    (cbReinitGuard ev s = false →
      (settingsUpdatedCb k x ev o s).ekfConfiguration = s.ekfConfiguration) := by
  have hc := settingsUpdatedCb_ekfConfiguration k x ev o s
  have hm := settingsUpdatedCb_masked k x ev o s
  refine ⟨fun hg harmed hinit => ?_, fun hg => ?_⟩
  · rw [hg, if_pos rfl] at hc
    obtain ⟨-, r2, -⟩ := reinitVars_eq (cbRefresh_reinitVars ev o s)
    have hr := settingsUpdatedCb_reinitVars k x ev o s
    rw [hg, if_pos rfl, cbReinit_error k o (cbRefresh ev o s)
      (Or.inr ⟨harmed, r2.trans hinit⟩)] at hr
    unfold reinitVars at hr
    simp only [Prod.mk.injEq] at hr
    obtain ⟨-, r2b, r3b⟩ := reinitVars_eq (cbRefresh_reinitVars ev o s)
    have hin : (settingsUpdatedCb k x ev o s).inited = s.inited :=
      (congrArg (fun u : AttState => u.inited) hm :)
    refine ⟨hc, hr.1, hr.2.2.trans r3b, (hr.2.1.trans r2b).trans hinit, hin,
      (congrArg (fun u : AttState => u.init_stage) hm :),
      (congrArg (fun u : AttState => u.nav) hm :),
      (congrArg (fun u : AttState => u.trace) hm :), ?_⟩
    intro i h1 h2 h3 hH hHP hP hV hne
    have h := indoor_sets_fake_variances k x i (settingsUpdatedCb k x ev o s) h1 h2
      (hin.trans h3) hH hHP hP hV hne
    rw [hc] at h
    exact h
  · rw [hg] at hc
    exact hc

/-- C25 amended, at the sample input: the deferred update of the counterexample replaces
the cached fake-GPS magnitudes and leaves the filter initialised. -/
theorem C25_witness_deferred_update :
    (settingsUpdatedCb sampleConsts sampleExt (some ⟨UAVObjHandle.EKFConfiguration⟩)
      changedFakeObjects indoorState).ekfConfiguration.FakeR
        = [Flt.fin 2, Flt.fin 2, Flt.fin 2] ∧
    indoorState.ekfConfiguration.FakeR = [Flt.fin 1, Flt.fin 1, Flt.fin 1] ∧
    (settingsUpdatedCb sampleConsts sampleExt (some ⟨UAVObjHandle.EKFConfiguration⟩)
      changedFakeObjects indoorState).variance_error = true ∧
    (settingsUpdatedCb sampleConsts sampleExt (some ⟨UAVObjHandle.EKFConfiguration⟩)
      changedFakeObjects indoorState).inited = true := by
  obtain ⟨h1, h2, -, -, h5, -⟩ := (C25_deferred_update_replaces_cache sampleConsts sampleExt
    (some ⟨UAVObjHandle.EKFConfiguration⟩) changedFakeObjects indoorState).1 rfl rfl rfl
  exact ⟨by rw [h1]; rfl, rfl, h2, h5⟩

/-! ## A sustained invalid configuration -/

/-- With no known algorithm selected, the switch of the task loop takes its default
branch: no estimator is called and the alarm is set to Critical. -/
theorem runAlgorithm_default (k : Consts) (x : Ext) (a : Nat) (first_run : Bool)
    (i : CycleIn) (s : AttState) (h : knownAlgorithmsDiffer k a) :
    runAlgorithm k x a first_run i s = (-1, { s with alarm := AlarmSeverity.Critical }) := by
  unfold runAlgorithm
  rw [if_neg h.1, if_neg h.2.1, if_neg h.2.2]

theorem AttitudeTask_default (k : Consts) (x : Ext) (i : CycleIn) (s : AttState)
    (h : knownAlgorithmsDiffer k s.running_algorithm) :
    AttitudeTask k x i s =
      { s with alarm := AlarmSeverity.Critical, initialization_required := true } := by
  unfold AttitudeTask
  simp only []
  cases hi : s.initialization_required
  · simp only [Bool.false_eq_true, if_false]
    rw [runAlgorithm_default k x _ _ i s h]
    rfl
  · simp only [if_true]
    rw [runAlgorithm_default k x _ _ i _ h]
    rfl

/-- Along a run in which every callback that enters the re-initialisation block finds an
invalid configuration, `running_algorithm` keeps its value. -/
theorem run_invalid_algorithm (k : Consts) (x : Ext) (steps : List Step) :
    ∀ s : AttState, invalidHolds k x s steps = true →
      (run k x s steps).running_algorithm = s.running_algorithm := by
  induction steps with
  | nil => exact fun s _ => rfl
  | cons st rest ih =>
    intro s h
    rw [run_cons]
    cases st with
    | cycle i =>
      have h2 : invalidHolds k x (step k x s (Step.cycle i)) rest = true := h
      rw [ih _ h2]
      exact (supervisorOf_eq (AttitudeTask_supervisor k x i s)).2.1
    | callback ev o =>
      have h2 : ((!cbReinitGuard ev s || cbVarianceCheck o.ekfConfiguration) &&
          invalidHolds k x (step k x s (Step.callback ev o)) rest) = true := h
      rw [Bool.and_eq_true] at h2
      rw [ih _ h2.2]
      have hv := settingsUpdatedCb_reinitVars k x ev o s
      by_cases hg : cbReinitGuard ev s = true
      · have hbad : cbVarianceCheck o.ekfConfiguration = true := by
          have h3 := h2.1
          rw [hg] at h3
          exact h3
        exact (congrArg (fun u : Bool × Bool × Nat => u.2.2)
          (settingsUpdatedCb_invalid k x ev o s hg hbad) :)
      · rw [if_neg hg] at hv
        exact (reinitVars_eq hv).2.2

/-- C27: from start-up, along every run of task cycles and settings callbacks in which
every callback that examines the configuration finds an invalid P, Q or R value,
`running_algorithm` keeps its start-up value 0xffffffff; a task cycle then takes the
default branch of the switch (neither estimator update function is called), sets the
alarm to Critical and leaves `initialization_required` true, changing nothing else.  The
start-up value is assumed not to be the code of a fusion algorithm. -/
theorem C27_invalid_configuration_stays_uninitialised (k : Consts) (x : Ext)
    (hk : knownAlgorithmsDiffer k 0xffffffff) (steps : List Step)
    (hall : invalidHolds k x initState steps = true) (i : CycleIn) :
    (run k x initState steps).running_algorithm = 0xffffffff ∧
    (∀ (first_run : Bool) (t : AttState),
      runAlgorithm k x (run k x initState steps).running_algorithm first_run i t =
        (-1, { t with alarm := AlarmSeverity.Critical })) ∧
    AttitudeTask k x i (run k x initState steps) =
      { run k x initState steps with
        alarm := AlarmSeverity.Critical, initialization_required := true } ∧
    (AttitudeTask k x i (run k x initState steps)).alarm = AlarmSeverity.Critical ∧
    (AttitudeTask k x i (run k x initState steps)).initialization_required = true ∧
    (AttitudeTask k x i (run k x initState steps)).running_algorithm = 0xffffffff := by
  have ha : (run k x initState steps).running_algorithm = 0xffffffff :=
    run_invalid_algorithm k x steps initState hall
  have hd : knownAlgorithmsDiffer k (run k x initState steps).running_algorithm := by
    rw [ha]
    exact hk
  have ht := AttitudeTask_default k x i (run k x initState steps) hd
  refine ⟨ha, fun first_run t => runAlgorithm_default k x _ first_run i t hd, ht, ?_, ?_, ?_⟩
  · rw [ht]
  · rw [ht]
  · rw [ht]
    exact ha

/-- C27 at a sample run: the forced settings update and a configuration event, both with
the negative magnitude `Q[0] = -1`, interleaved with task cycles; a further cycle sets the
alarm to Critical and leaves `initialization_required` true. -/
theorem C27_witness_invalid_run :
    invalidHolds sampleConsts sampleExt initState invalidRun = true ∧
    (run sampleConsts sampleExt initState invalidRun).running_algorithm = 0xffffffff ∧
    (AttitudeTask sampleConsts sampleExt sampleIn
      (run sampleConsts sampleExt initState invalidRun)).alarm = AlarmSeverity.Critical ∧
    (AttitudeTask sampleConsts sampleExt sampleIn
      (run sampleConsts sampleExt initState invalidRun)).initialization_required = true := by
  have hbad : cbVarianceCheck negativeObjects.ekfConfiguration = true :=
    cbVarianceCheck_true _ (Flt.fin (-1)) (Or.inr (Or.inl (List.mem_cons_self _ _)))
      negativeConfig_invalid
  have hall : invalidHolds sampleConsts sampleExt initState invalidRun = true := by
    simp only [invalidRun, invalidHolds, hbad, Bool.or_true, Bool.true_and]
  have h := C27_invalid_configuration_stays_uninitialised sampleConsts sampleExt
    ⟨by decide, by decide, by decide⟩ invalidRun hall sampleIn
  exact ⟨hall, h.1, h.2.2.2.1, h.2.2.2.2.1⟩

/-! ## Level flight as a fixed point of the complementary filter -/

theorem updateAttitudeINSGPS_pending (k : Consts) (x : Ext) (first_run outdoor_mode : Bool)
    (i : CycleIn) (s : AttState) :
    (updateAttitudeINSGPS k x first_run outdoor_mode i s).2.initialization_required =
      s.initialization_required := by
  have hc : (insClearIfInited s).initialization_required = s.initialization_required :=
    (congrArg (fun u : AttState => u.initialization_required) (insClearIfInited_masked s) :)
  cases ht : sensorTimeout i
  · cases first_run
    · cases hv : insInertialInvalid i.toReadings
      · rw [updateAttitudeINSGPS_valid k x outdoor_mode i s ht hv]
        have e1 := congrArg (fun u : AttState => u.initialization_required)
          (insDispatch_outputs k x outdoor_mode i.toReadings
            (insGyrosBias (insPoll outdoor_mode i.toReadings (insClearIfInited s)))
            (insPrepared k outdoor_mode i.toReadings (insClearIfInited s)))
        have e2 := congrArg (fun u : AttState => u.initialization_required)
          (insPrepared_masked k outdoor_mode i.toReadings (insClearIfInited s))
        exact (e1.trans e2).trans hc
      · unfold updateAttitudeINSGPS
        simp only [ht, hv, Bool.false_eq_true, if_false, if_true]
        have e := congrArg (fun u : AttState => u.initialization_required)
          (insPoll_masked outdoor_mode i.toReadings (insClearIfInited s))
        exact e.trans hc
    · unfold updateAttitudeINSGPS
      simp only [ht, Bool.false_eq_true, if_false, if_true]
      exact hc
  · unfold updateAttitudeINSGPS
    simp only [ht, if_true]

theorem compSteady_pending (k : Consts) (x : Ext) (i : Readings) (s : AttState) :
    (compSteady k x i s).initialization_required = s.initialization_required := by
  unfold compSteady
  simp only []
  have h1 : ∀ t : AttState,
      (compAlarm t).initialization_required = t.initialization_required := by
    intro t
    unfold compAlarm
    split_ifs <;> rfl
  have h2 : ∀ t : AttState,
      (compFlush k x i t).initialization_required = t.initialization_required := by
    intro t
    unfold compFlush
    simp only []
    split_ifs <;> rfl
  have h3 : ∀ t : AttState,
      (compUpdate k x i t).initialization_required = t.initialization_required :=
    fun t => rfl
  have h4 : (compGains k i s).initialization_required = s.initialization_required := by
    unfold compGains
    split_ifs <;> rfl
  rw [h1, h2, h3, h4]

theorem updateAttitudeComplementary_pending (k : Consts) (x : Ext) (first_run : Bool)
    (i : CycleIn) (s : AttState) :
    (updateAttitudeComplementary k x first_run i s).2.initialization_required =
      s.initialization_required := by
  unfold updateAttitudeComplementary
  split_ifs
  · rfl
  · rfl
  · rfl
  · exact compSteady_pending k x i.toReadings s

/-- The selected estimator, or the default branch of the switch, leaves
`initialization_required` alone. -/
theorem runAlgorithm_pending (k : Consts) (x : Ext) (algorithm : Nat) (first_run : Bool)
    (i : CycleIn) (s : AttState) :
    (runAlgorithm k x algorithm first_run i s).2.initialization_required =
      s.initialization_required := by
  unfold runAlgorithm
  split_ifs
  · exact updateAttitudeComplementary_pending k x first_run i s
  · exact updateAttitudeINSGPS_pending k x first_run true i s
  · exact updateAttitudeINSGPS_pending k x first_run false i s
  · rfl

/-- The timeout branch of either estimator returns -1. -/
theorem timeout_returns_minus_one (k : Consts) (x : Ext) (first_run : Bool) (i : CycleIn)
    (s : AttState) (h : sensorTimeout i = true) :
    (updateAttitudeComplementary k x first_run i s).1 = -1 ∧
    ∀ outdoor_mode, (updateAttitudeINSGPS k x first_run outdoor_mode i s).1 = -1 := by
  constructor
  · unfold updateAttitudeComplementary
    simp only [h, if_true]
  · intro outdoor_mode
    unfold updateAttitudeINSGPS
    simp only [h, if_true]

theorem AttitudeTask_eq (k : Consts) (x : Ext) (i : CycleIn) (s : AttState) :
    AttitudeTask k x i s =
      taskFinish (runAlgorithm k x s.running_algorithm s.initialization_required i
        { s with initialization_required := false }) := by
  unfold AttitudeTask
  simp only []
  cases hi : s.initialization_required
  · simp only [Bool.false_eq_true, if_false]
    have e : ({ s with initialization_required := false } : AttState) = s := by
      rw [← hi]
    rw [e]
  · simp only [if_true]

/-- A call with `first_run` true in which both inertial samples arrived returns 0. -/
theorem first_run_returns_zero (k : Consts) (x : Ext) (outdoor_mode : Bool) (i : CycleIn)
    (s : AttState) (hg : i.gyroReceived = true) (ha : i.accelReceived = true) :
    (updateAttitudeINSGPS k x true outdoor_mode i s).1 = 0 := by
  have h1 := sensorTimeout_arrived i hg ha
  unfold updateAttitudeINSGPS
  simp only [h1, Bool.false_eq_true, if_false, if_true]

/-- C29: in every cycle of `AttitudeTask` the estimator is called with `first_run` equal
to the value `initialization_required` had at the start of the cycle, on a state in which
the flag is cleared. When the call returns a non-zero code the flag is true after the
cycle, so the next cycle calls the estimator with `first_run` true; when it returns 0 the
flag is false after the cycle. An algorithm code that is none of the three known ones
gives the code -1, and so does a gyro or accelerometer timeout outside simulation mode. -/
theorem C29_first_run_and_reinitialisation (k : Consts) (x : Ext) (i : CycleIn)
    (s : AttState) :
    let r := runAlgorithm k x s.running_algorithm s.initialization_required i
      { s with initialization_required := false }
    AttitudeTask k x i s = taskFinish r ∧
    (r.1 ≠ 0 →
      (AttitudeTask k x i s).initialization_required = true ∧
      ∀ j : CycleIn,
        AttitudeTask k x j (AttitudeTask k x i s) =
          taskFinish (runAlgorithm k x (AttitudeTask k x i s).running_algorithm true j
            { AttitudeTask k x i s with initialization_required := false })) ∧
    (r.1 = 0 → (AttitudeTask k x i s).initialization_required = false) ∧
    (knownAlgorithmsDiffer k s.running_algorithm → r.1 = -1) ∧
    (sensorTimeout i = true → r.1 = -1) := by
  intro r
  have he : AttitudeTask k x i s = taskFinish r := AttitudeTask_eq k x i s
  have hp : r.2.initialization_required = false :=
    runAlgorithm_pending k x s.running_algorithm s.initialization_required i
      { s with initialization_required := false }
  have hset : r.1 ≠ 0 → (AttitudeTask k x i s).initialization_required = true := by
    intro hr
    rw [he]
    unfold taskFinish
    have hb : (r.1 != 0) = true := by simpa using hr
    rw [if_pos hb]
  refine ⟨he, ?_, ?_, ?_, ?_⟩
  · intro hr
    refine ⟨hset hr, ?_⟩
    intro j
    have hj := AttitudeTask_eq k x j (AttitudeTask k x i s)
    rw [hset hr] at hj
    exact hj
  · intro hr
    rw [he]
    unfold taskFinish
    have hb : ¬ ((r.1 != 0) = true) := by simp [hr]
    rw [if_neg hb]
    exact hp
  · intro hd
    show (runAlgorithm k x s.running_algorithm s.initialization_required i
      { s with initialization_required := false }).1 = -1
    rw [runAlgorithm_default k x s.running_algorithm s.initialization_required i _ hd]
  · intro ht
    show (runAlgorithm k x s.running_algorithm s.initialization_required i
      { s with initialization_required := false }).1 = -1
    have h := timeout_returns_minus_one k x s.initialization_required i
      { s with initialization_required := false } ht
    unfold runAlgorithm
    split_ifs
    · exact h.1
    · exact h.2 true
    · exact h.2 false
    · rfl

theorem C29_witness_timeout_and_first_run :
    sensorTimeout timeoutIn = true ∧
    (AttitudeTask sampleConsts sampleExt timeoutIn runningState).initialization_required =
      true ∧
    (runAlgorithm sampleConsts sampleExt pendingState.running_algorithm
      pendingState.initialization_required sampleIn
      { pendingState with initialization_required := false }).1 = 0 ∧
    (AttitudeTask sampleConsts sampleExt sampleIn pendingState).initialization_required =
      false ∧
    knownAlgorithmsDiffer sampleConsts initState.running_algorithm ∧
    (AttitudeTask sampleConsts sampleExt sampleIn initState).initialization_required =
      true := by
  have ht : sensorTimeout timeoutIn = true := by decide
  have h1 := C29_first_run_and_reinitialisation sampleConsts sampleExt timeoutIn runningState
  have h2 := C29_first_run_and_reinitialisation sampleConsts sampleExt sampleIn pendingState
  have h3 := C29_first_run_and_reinitialisation sampleConsts sampleExt sampleIn initState
  have hz : (runAlgorithm sampleConsts sampleExt pendingState.running_algorithm
      pendingState.initialization_required sampleIn
      { pendingState with initialization_required := false }).1 = 0 :=
    first_run_returns_zero sampleConsts sampleExt true sampleIn
      { pendingState with initialization_required := false } rfl rfl
  have hd : knownAlgorithmsDiffer sampleConsts initState.running_algorithm := by
    unfold knownAlgorithmsDiffer
    decide
  have hm := h1.2.2.2.2 ht
  have hm3 := h3.2.2.2.1 hd
  refine ⟨ht, (h1.2.1 ?_).1, hz, h2.2.2.1 hz, hd, (h3.2.1 ?_).1⟩
  · rw [hm]
    decide
  · rw [hm3]
    decide

/-! ## HC-SR04 pulse width -/

/-- The falling-edge interrupt: `FallValue` is `TimerCounter` plus the capture register
modulo 2^16 and `CaptureValue` is `FallValue - RiseValue` when `FallValue` is the larger,
`0xFFFF - RiseValue + FallValue` otherwise. -/
theorem hcsr04_falling_edge (q : TimerIrq) (s : HCSR04) (hu : q.update = false)
    (hc : q.cc = true) (hs : s.CaptureState ≠ 0) (hr : s.RiseValue < 65536) :
    (PIOS_HCSR04_IRQ_FUNC q s).RiseValue = s.RiseValue ∧
    (PIOS_HCSR04_IRQ_FUNC q s).FallValue = (s.TimerCounter + q.capture) % 65536 ∧
    PIOS_HCSR04_Get (PIOS_HCSR04_IRQ_FUNC q s) =
      (if (s.TimerCounter + q.capture) % 65536 > s.RiseValue
       then (s.TimerCounter + q.capture) % 65536 - s.RiseValue
       else 65535 - s.RiseValue + (s.TimerCounter + q.capture) % 65536) := by
  have hf : (s.TimerCounter + q.capture) % 65536 < 65536 := Nat.mod_lt _ (by norm_num)
  unfold PIOS_HCSR04_IRQ_FUNC PIOS_HCSR04_Get
  simp only [hu, hc, hs, Bool.false_eq_true, if_false, if_true]
  refine ⟨trivial, trivial, ?_⟩
  generalize (s.TimerCounter + q.capture) % 65536 = f at hf
  unfold captureComputation
  split_ifs with h
  · omega
  · omega

/-- In the wrap branch the stored value is one short of `FallValue - RiseValue` modulo
2^16. -/
theorem hcsr04_wrap_one_short (f r : Nat) (h : f ≤ r) :
    (captureComputation f r % 65536).toNat = (pulseWidthSpec f r + 65535) % 65536 ∧
    (captureComputation f r % 65536).toNat ≠ pulseWidthSpec f r := by
  unfold captureComputation pulseWidthSpec
  rw [if_neg (by omega)]
  constructor
  · omega
  · omega

/-- Outside the wrap branch the stored value is `FallValue - RiseValue` modulo 2^16. -/
theorem hcsr04_plain_agrees (f r : Nat) (h : r < f) :
    (captureComputation f r % 65536).toNat = pulseWidthSpec f r := by
  unfold captureComputation pulseWidthSpec
  rw [if_pos h]

/-- C30, at the failing inputs.  After a rising edge at 0xFFF0, one counter overflow and a
falling edge at 0x0010 the handler has `RiseValue` 65520 and `FallValue` 15 and stores 30,
where `FallValue - RiseValue` modulo 2^16 is 31.  With `RiseValue` 0xFFFF and `FallValue`
0 it stores 0 where the claim gives 1; with `RiseValue` and `FallValue` both 1000 it stores
65535 where the claim gives 0.  Without a wrap (`RiseValue` 100, `FallValue` 300) the
stored 200 is the claimed value. -/
theorem C30_wrap_branch_one_short :
    (hcsr04Run (PIOS_HCSR04_Trigger (PIOS_HCSR04_Init hcsr04Startup)) wrappedPulse).RiseValue
      = 65520 ∧
    (hcsr04Run (PIOS_HCSR04_Trigger (PIOS_HCSR04_Init hcsr04Startup)) wrappedPulse).FallValue
      = 15 ∧
    PIOS_HCSR04_Get
      (hcsr04Run (PIOS_HCSR04_Trigger (PIOS_HCSR04_Init hcsr04Startup)) wrappedPulse) = 30 ∧
    pulseWidthSpec 15 65520 = 31 ∧
    (PIOS_HCSR04_IRQ_FUNC (captureIrq 0) (awaitingFall 0xFFFF)).FallValue = 0 ∧
    PIOS_HCSR04_Get (PIOS_HCSR04_IRQ_FUNC (captureIrq 0) (awaitingFall 0xFFFF)) = 0 ∧
    pulseWidthSpec 0 0xFFFF = 1 ∧
    (PIOS_HCSR04_IRQ_FUNC (captureIrq 1000) (awaitingFall 1000)).FallValue = 1000 ∧
    PIOS_HCSR04_Get (PIOS_HCSR04_IRQ_FUNC (captureIrq 1000) (awaitingFall 1000)) = 65535 ∧
    pulseWidthSpec 1000 1000 = 0 ∧
    PIOS_HCSR04_Get
      (hcsr04Run (PIOS_HCSR04_Trigger (PIOS_HCSR04_Init hcsr04Startup)) plainPulse) = 200 ∧
    pulseWidthSpec 300 100 = 200 := by
  refine ⟨?_, ?_, ?_, ?_, ?_, ?_, ?_, ?_, ?_, ?_, ?_, ?_⟩ <;> decide

end Attitude
